import Mathlib

/-!
# node-sqlserver-v8: parameter binding and the statement engine

A shallow embedding of `BoundDatumSet.cpp`, `ResultSet.h` and `OdbcStatement.cpp`.

* Host-runtime values (`Local<Value>`) are an abstract type `V`; what the
  per-parameter binder `BoundDatum::bind` does with one of them is supplied by a
  `BindEnv` record, because `BoundDatum.cpp` is outside the embedded sources.
* The ODBC driver behind a statement handle is an abstract state `D` together with a
  `Driver D` record holding one transition function per driver entry point.
* Functions that `assert`, index out of range, or loop without a bound return an
  `Option`; `none` stands for "aborted, undefined, or out of fuel".
-/

namespace mssql

/-! ## ODBC constants (values fixed by `sql.h`, `sqlext.h`, `sqlucode.h`, `msodbcsql.h`) -/

def SQL_PARAM_INPUT : Int := 1
def SQL_PARAM_INPUT_OUTPUT : Int := 2
def SQL_PARAM_OUTPUT : Int := 4

def SQL_SUCCESS : Int := 0
def SQL_SUCCESS_WITH_INFO : Int := 1
def SQL_STILL_EXECUTING : Int := 2
def SQL_ERROR : Int := -1
def SQL_INVALID_HANDLE : Int := -2
def SQL_NEED_DATA : Int := 99
def SQL_NO_DATA : Int := 100

def SQL_NULL_DATA : Int := -1
def SQL_NO_TOTAL : Int := -4

/-- The macro `SQL_SUCCEEDED(rc)`, `(((rc) & (~1)) == 0)`: all bits except the lowest are
clear, which holds for `SQL_SUCCESS` (0) and `SQL_SUCCESS_WITH_INFO` (1) only. -/
def SQL_SUCCEEDED (rc : Int) : Bool := rc == 0 || rc == 1

def SQL_CHAR : Int := 1
def SQL_NUMERIC : Int := 2
def SQL_DECIMAL : Int := 3
def SQL_INTEGER : Int := 4
def SQL_SMALLINT : Int := 5
def SQL_FLOAT : Int := 6
def SQL_REAL : Int := 7
def SQL_DOUBLE : Int := 8
def SQL_DATETIME : Int := 9
def SQL_TIMESTAMP : Int := 11
def SQL_VARCHAR : Int := 12
def SQL_TYPE_DATE : Int := 91
def SQL_TYPE_TIME : Int := 92
def SQL_TYPE_TIMESTAMP : Int := 93
def SQL_LONGVARCHAR : Int := -1
def SQL_BINARY : Int := -2
def SQL_VARBINARY : Int := -3
def SQL_LONGVARBINARY : Int := -4
def SQL_BIGINT : Int := -5
def SQL_TINYINT : Int := -6
def SQL_BIT : Int := -7
def SQL_WCHAR : Int := -8
def SQL_WVARCHAR : Int := -9
def SQL_WLONGVARCHAR : Int := -10
def SQL_GUID : Int := -11
def SQL_C_SSHORT : Int := -15
def SQL_C_SLONG : Int := -16
def SQL_C_USHORT : Int := -17
def SQL_C_ULONG : Int := -18
def SQL_C_STINYINT : Int := -26
def SQL_C_UTINYINT : Int := -28
def SQL_SS_VARIANT : Int := -150
def SQL_SS_UDT : Int := -151
def SQL_SS_XML : Int := -152
def SQL_SS_TIME2 : Int := -154
def SQL_SS_TIMESTAMPOFFSET : Int := -155

/-! ## Native buffers -/

/-- The driver struct `TIMESTAMP_STRUCT`. -/
structure TIMESTAMP_STRUCT where
  year : Int
  month : Nat
  day : Nat
  hour : Nat
  minute : Nat
  second : Nat
  fraction : Nat
deriving DecidableEq, Repr

/-- The driver struct `SQL_SS_TIME2_STRUCT`. -/
structure SQL_SS_TIME2_STRUCT where
  hour : Nat
  minute : Nat
  second : Nat
  fraction : Nat
deriving DecidableEq, Repr

/-- The driver struct `SQL_SS_TIMESTAMPOFFSET_STRUCT`. -/
structure SQL_SS_TIMESTAMPOFFSET_STRUCT where
  year : Int
  month : Nat
  day : Nat
  hour : Nat
  minute : Nat
  second : Nat
  fraction : Nat
  timezone_hour : Int
  timezone_minute : Int
deriving DecidableEq, Repr

/-- The class `DatumStorage`: one vector per element type. Doubles are kept as their
64-bit patterns; the embedding never computes with them. -/
structure DatumStorage where
  int64vec_ptr : List Int
  doublevec_ptr : List Nat
  charvec_ptr : List Nat
  uint16vec_ptr : List Nat
  timestampvec_ptr : List TIMESTAMP_STRUCT
  timestampoffsetvec_ptr : List SQL_SS_TIMESTAMPOFFSET_STRUCT
deriving DecidableEq, Repr

/-- A freshly made `DatumStorage` (`make_shared<DatumStorage>()`). -/
def DatumStorage.new : DatumStorage :=
  { int64vec_ptr := [], doublevec_ptr := [], charvec_ptr := [], uint16vec_ptr := [],
    timestampvec_ptr := [], timestampoffsetvec_ptr := [] }

/-- The call `std::vector::resize(n)`: truncate, or extend with value-initialised elements. -/
def vresize {α : Type} (zero : α) (n : Nat) (v : List α) : List α :=
  v.take n ++ List.replicate (n - v.length) zero

/-! ## BoundDatum and BoundDatumSet (BoundDatumSet.cpp) -/

/-- The fields of a `BoundDatum` that `BoundDatumSet` and `OdbcStatement` read. -/
structure BoundDatum where
  param_type : Int
  c_type : Int
  sql_type : Int
  param_size : Nat
  digits : Int
  buffer_len : Int
  indvec : List Int
  storage : DatumStorage
  definedPrecision : Bool
  is_tvp : Bool
  tvp_no_cols : Int
  err : Option String
deriving DecidableEq, Repr

/-- The value of the property `table_value_param` read by `get(v.As<Object>(), ...)`. -/
inductive JsProperty (V : Type) where
  | null
  | array (elems : List V)
  | other
deriving Repr

/-- The host-runtime boundary used by `BoundDatumSet`: the per-parameter binder
`BoundDatum::bind` (result flag and the state of the fresh `BoundDatum` afterwards), the
property lookup of `get`, the length an unchecked `As<Array>()` reports for a value that
is not an array, and `BoundDatum::unbind`. -/
structure BindEnv (V J : Type) where
  bind : V → Bool × BoundDatum
  table_value_param : V → JsProperty V
  uncheckedLength : V → Nat
  unbind : BoundDatum → J

/-- The class `BoundDatumSet`. -/
structure BoundDatumSet where
  err : Option String
  first_error : Nat
  _output_param_count : Int
  _bindings : List BoundDatum
deriving DecidableEq, Repr

/-- The constructor `BoundDatumSet::BoundDatumSet()`. -/
def BoundDatumSet.new : BoundDatumSet :=
  { err := none, first_error := 0, _output_param_count := -1, _bindings := [] }

/-- The two `case` labels shared by the switches of `bind` and `unbind`. -/
def isOutputParam (param_type : Int) : Bool :=
  param_type == SQL_PARAM_OUTPUT || param_type == SQL_PARAM_INPUT_OUTPUT

/-- The function `get_tvp_col_count`. -/
def get_tvp_col_count {V J : Type} (env : BindEnv V J) (v : V) : Nat :=
  match env.table_value_param v with
  | .array cols => cols.length
  | _ => env.uncheckedLength v

/-- The `for` loop of `BoundDatumSet::tvp`: the bindings pushed for the nested columns; it
breaks at the first column whose bind fails. -/
def BoundDatumSet.tvp_loop {V J : Type} (env : BindEnv V J) : List V → List BoundDatum
  | [] => []
  | p :: rest =>
    let res := (env.bind p).1
    let binding := (env.bind p).2
    if !res then [] else binding :: BoundDatumSet.tvp_loop env rest

/-- The method `BoundDatumSet::tvp`. -/
def BoundDatumSet.tvp {V J : Type} (env : BindEnv V J) (s : BoundDatumSet) (v : V) :
    Bool × BoundDatumSet :=
  match env.table_value_param v with
  | .null => (false, s)
  | .other => (false, s)
  | .array cols => (true, { s with _bindings := s._bindings ++ BoundDatumSet.tvp_loop env cols })

/-- The `switch` on `binding->param_type` inside the loop of `BoundDatumSet::bind`. -/
def BoundDatumSet.count_output (s : BoundDatumSet) (binding : BoundDatum) : BoundDatumSet :=
  if isOutputParam binding.param_type then
    { s with _output_param_count := s._output_param_count + 1 }
  else s

/-- The tail of one iteration of the loop of `BoundDatumSet::bind`, after the failure
check: `push_back`, then for a table-valued parameter record `tvp_no_cols` and run `tvp`.
The pushed element is shared with `binding`, so it carries `tvp_no_cols`. The first
component is `res` at the end of the iteration. -/
def BoundDatumSet.push_bound {V J : Type} (env : BindEnv V J) (s : BoundDatumSet) (v : V)
    (res : Bool) (binding : BoundDatum) : Bool × BoundDatumSet :=
  if binding.is_tvp then
    let col_count := get_tvp_col_count env v
    BoundDatumSet.tvp env
      { s with _bindings := s._bindings ++ [{ binding with tvp_no_cols := col_count }] } v
  else
    (res, { s with _bindings := s._bindings ++ [binding] })

/-- The `for` loop of `BoundDatumSet::bind`, from index `i` on, with the current `res`. -/
def BoundDatumSet.bind_loop {V J : Type} (env : BindEnv V J) :
    List V → Nat → Bool → BoundDatumSet → Bool × BoundDatumSet
  | [], _, res, s => (res, s)
  | v :: rest, i, _, s =>
    let res := (env.bind v).1
    let binding := (env.bind v).2
    let s1 := BoundDatumSet.count_output s binding
    if !res then
      (res, { s1 with err := binding.err, first_error := i })
    else
      let r := BoundDatumSet.push_bound env s1 v res binding
      BoundDatumSet.bind_loop env rest (i + 1) r.1 r.2

/-- The method `BoundDatumSet::bind`. A script array has fewer than `2^32` elements, so the
`uint32_t` index never wraps. -/
def BoundDatumSet.bind {V J : Type} (env : BindEnv V J) (s : BoundDatumSet)
    (node_params : List V) : Bool × BoundDatumSet :=
  let count := node_params.length
  let res := true
  let s0 := { s with _output_param_count := 0 }
  if count > 0 then BoundDatumSet.bind_loop env node_params 0 res s0 else (res, s0)

/-- A script array made by `newArray(n)`: `n` holes (none for a negative `n`). -/
def newArray {J : Type} (n : Int) : List (Option J) := List.replicate n.toNat none

/-- The call `arr->Set(i, v)`: writing at or past the end extends the array. -/
def arraySet {J : Type} (arr : List (Option J)) (i : Nat) (v : J) : List (Option J) :=
  if i < arr.length then arr.set i (some v)
  else arr ++ List.replicate (i - arr.length) none ++ [some v]

/-- The method `BoundDatumSet::unbind`. -/
def BoundDatumSet.unbind {V J : Type} (env : BindEnv V J) (s : BoundDatumSet) :
    List (Option J) :=
  let arr : List (Option J) := newArray s._output_param_count
  (s._bindings.foldl
    (fun (acc : List (Option J) × Nat) param =>
      if isOutputParam param.param_type then (arraySet acc.1 acc.2 (env.unbind param), acc.2 + 1)
      else acc)
    (arr, 0)).1

/-! ## Result sets and column values (ResultSet.h) -/

/-- The struct `ResultSet::ColumnDefinition`. -/
structure ColumnDefinition where
  name : String
  columnSize : Nat
  dataType : Int
  dataTypeName : String
  decimalDigits : Int
  nullable : Int
  udtTypeName : String
deriving DecidableEq, Repr

/-- A value-initialised `ColumnDefinition`, as made by `metadata.resize(columns)`. -/
def ColumnDefinition.new : ColumnDefinition :=
  { name := "", columnSize := 0, dataType := 0, dataTypeName := "", decimalDigits := 0,
    nullable := 0, udtTypeName := "" }

/-- The column value classes built by the decoders, with their constructor arguments.
`TimestampColumnOf` is the `TimestampColumn` constructor taking a struct by value. -/
inductive Column where
  | NullColumn
  | IntColumn (storage : DatumStorage)
  | BoolColumn (storage : DatumStorage)
  | NumberColumn (storage : DatumStorage)
  | BinaryColumn (storage : DatumStorage) (amount : Int) (more : Bool)
  | StringColumn (storage : DatumStorage) (size : Int) (more : Bool)
  | TimestampColumn (storage : DatumStorage)
  | TimestampColumnOf (datetime : SQL_SS_TIMESTAMPOFFSET_STRUCT)
deriving DecidableEq, Repr

/-- The method `Column::More()`: the continuation flag, false for unchunked values. -/
def Column.More : Column → Bool
  | .BinaryColumn _ _ more => more
  | .StringColumn _ _ more => more
  | _ => false

/-- The class `ResultSet`. -/
structure ResultSet where
  metadata : List ColumnDefinition
  rowcount : Int
  endOfRows : Bool
  column : Option Column
deriving DecidableEq, Repr

/-- The constructor `ResultSet::ResultSet(int columns)`. -/
def ResultSet.new (columns : Nat) : ResultSet :=
  { metadata := List.replicate columns ColumnDefinition.new, rowcount := 0, endOfRows := true,
    column := none }

/-- The method `ResultSet::GetColumns` (`get_column_count`). -/
def ResultSet.GetColumns (rs : ResultSet) : Nat := rs.metadata.length

/-! ## The driver interface -/

/-- The class `OdbcError`: state code, message, native error code. -/
structure OdbcError where
  sqlstate : String
  message : String
  code : Int
deriving DecidableEq, Repr

/-- The statement attributes set by the engine. -/
inductive StmtAttr where
  | SQL_ATTR_PARAMSET_SIZE
  | SQL_QUERY_TIMEOUT
  | SQL_ATTR_QUERY_TIMEOUT
  | SQL_ATTR_ASYNC_ENABLE
deriving DecidableEq, Repr

/-- The column attributes read by the engine. -/
inductive ColAttr where
  | SQL_DESC_TYPE_NAME
  | SQL_CA_SS_UDT_TYPE_NAME
  | SQL_CA_SS_VARIANT_TYPE
  | SQL_DESC_DISPLAY_SIZE
deriving DecidableEq, Repr

/-- The target C types the engine passes to `SQLGetData` with a `DatumStorage` buffer. -/
inductive TargetType where
  | C_BINARY
  | C_DEFAULT
  | C_TIMESTAMP
  | C_SLONG
  | C_BIT
  | C_DOUBLE
  | C_WCHAR
deriving DecidableEq, Repr

/-- The output arguments of the full `SQLDescribeCol` call of `readNext`. -/
structure ColumnDescription where
  name : String
  dataType : Int
  columnSize : Nat
  decimalDigits : Int
  nullable : Int
deriving DecidableEq, Repr

/-- The driver behind a statement handle, as a state machine over `D`: one transition per
entry point the engine calls, returning the return code, the output arguments and the next
driver state. `SQLGetData` receives the reserved buffer and returns it as written by the
driver together with the indicator; `SQLGetDataTime2` is the same entry point with a
`SQL_SS_TIME2_STRUCT` target and `SQLGetDataLength` the zero-length probe of `d_Variant`.
`SQLSetDescFields` stands for the descriptor calls of `applyPrecision`, whose return codes
the engine discards. `ReadErrors` is `OdbcStatementHandle::ReadErrors`. -/
structure Driver (D : Type) where
  SQLSetStmtAttr : StmtAttr → Nat → D → Int × D
  SQLBindParameter : Nat → BoundDatum → D → Int × D
  SQLSetDescFields : Nat → BoundDatum → D → D
  SQLExecDirect : String → D → Int × D
  SQLExecute : D → Int × D
  SQLCancelHandle : D → Int × D
  ReadErrors : D → Option OdbcError × D
  SQLNumResultCols : D → Int × Nat × D
  SQLDescribeColLength : Nat → D → Int × Nat × D
  SQLDescribeCol : Nat → Nat → D → Int × ColumnDescription × D
  SQLColAttributeString : Nat → ColAttr → D → Int × String × D
  SQLColAttributeNumeric : Nat → ColAttr → D → Int × Int × D
  SQLRowCount : D → Int × Int × D
  SQLFetch : D → Int × D
  SQLGetData : Nat → TargetType → DatumStorage → Nat → D → Int × DatumStorage × Int × D
  SQLGetDataTime2 : Nat → D → Int × SQL_SS_TIME2_STRUCT × Int × D
  SQLGetDataLength : Nat → D → Int × Int × D
  SQLGetDiagRec : D → Int × String × D
  SQLMoreResults : D → Int × D
  SQLCloseCursor : D → Int × D
  Sleep : D → D

/-- Constants of the engine declared in headers outside the embedded sources, and the
platform limit `numeric_limits<unsigned long>::max()`. -/
structure Config where
  LOB_PACKET_SIZE : Nat
  SQL_SERVER_MAX_STRING_SIZE : Nat
  SQL_SERVER_DEFAULT_YEAR : Int
  SQL_SERVER_DEFAULT_MONTH : Nat
  SQL_SERVER_DEFAULT_DAY : Nat
  ULONG_MAX : Nat
deriving DecidableEq, Repr

/-- The limit `numeric_limits<int>::max()`. -/
def INT_MAX : Int := 2147483647

/-- Conversion of a signed 64-bit `SQLLEN` to `size_t`, as in `value_len / size`. -/
def toSizeT (x : Int) : Nat := (x % 2 ^ 64).toNat

/-- Conversion of an integer to `SQLSMALLINT` (`static_cast<SQLSMALLINT>`). -/
def toSmallInt (x : Int) : Int := (x + 2 ^ 15) % 2 ^ 16 - 2 ^ 15

/-- Conversion of a `u_int` argument to `int`. -/
def toInt32 (x : Nat) : Int := ((x : Int) + 2 ^ 31) % 2 ^ 32 - 2 ^ 31

/-! ## OdbcStatement (OdbcStatement.cpp) -/

/-- The enum `OdbcStatementState`. -/
inductive OdbcStatementState where
  | STATEMENT_CREATED
  | STATEMENT_PREPARED
  | STATEMENT_SUBMITTED
  | STATEMENT_FETCHING
  | STATEMENT_CANCELLED
  | STATEMENT_ERROR
  | STATEMENT_CLOSED
deriving DecidableEq, Repr

/-- The class `OdbcStatement`. The field `statement` is the state of the driver behind the
statement handle; the handle pointer itself is set by the constructor and never reset, so
the `if (!statement)` guards of the source never fire. -/
structure OdbcStatement (D : Type) where
  statement : D
  error : Option OdbcError
  error2 : Option OdbcError
  _endOfResults : Bool
  _prepared : Bool
  _cancelRequested : Bool
  _pollingEnabled : Bool
  _statementState : OdbcStatementState
  resultset : Option ResultSet
  boundParamsSet : Option BoundDatumSet
  _preparedStorage : Option BoundDatumSet

/-- The constructor `OdbcStatement::OdbcStatement` on an allocated handle. -/
def OdbcStatement.new {D : Type} (d : D) : OdbcStatement D :=
  { statement := d, error := none, error2 := none, _endOfResults := true, _prepared := false,
    _cancelRequested := false, _pollingEnabled := false,
    _statementState := .STATEMENT_CREATED, resultset := none, boundParamsSet := none,
    _preparedStorage := none }

/-- The error built by `OdbcStatement::cancel` when polling is disabled. -/
def cancelUnsupportedError : OdbcError :=
  { sqlstate := "CANCEL",
    message := "Error: [msnodesql] cancel only supported for statements where polling is enabled.",
    code := -1 }

/-- The error built by `OdbcStatement::cancelHandle`. -/
def operationCanceledError : OdbcError :=
  { sqlstate := "CANCEL", message := "Error: [msnodesql] Operation canceled.", code := -1 }

/-- The method `OdbcStatement::cancel`. -/
def OdbcStatement.cancel {D : Type} (s : OdbcStatement D) : Bool × OdbcStatement D :=
  if s._pollingEnabled then
    (true, { s with _cancelRequested := true })
  else
    (false, { s with error := some cancelUnsupportedError })

/-- The method `OdbcStatement::setPolling`. -/
def OdbcStatement.setPolling {D : Type} (s : OdbcStatement D) (mode : Bool) :
    Bool × OdbcStatement D :=
  (true, { s with _pollingEnabled := mode })

/-- The function `getSize`: the indicator count of the first binding, 0 for an empty set. -/
def getSize (params : BoundDatumSet) : Nat :=
  match params._bindings with
  | [] => 0
  | f :: _ => f.indvec.length

/-- The method `OdbcStatement::ReturnOdbcError`. -/
def ReturnOdbcError {D : Type} (drv : Driver D) (s : OdbcStatement D) : Bool × OdbcStatement D :=
  let r := drv.ReadErrors s.statement
  (false, { s with error := r.1, statement := r.2 })

/-- The method `OdbcStatement::CheckOdbcError`. -/
def CheckOdbcError {D : Type} (drv : Driver D) (s : OdbcStatement D) (ret : Int) :
    Bool × OdbcStatement D :=
  if !SQL_SUCCEEDED ret then
    ReturnOdbcError drv { s with _statementState := .STATEMENT_ERROR }
  else (true, s)

/-- The method `OdbcStatement::applyPrecision`. -/
def applyPrecision {D : Type} (drv : Driver D) (s : OdbcStatement D) (datum : BoundDatum)
    (current_param : Nat) : OdbcStatement D :=
  { s with statement := drv.SQLSetDescFields current_param datum s.statement }

/-- The `for` loop of `OdbcStatement::BindParams`. -/
def BindParams_loop {D : Type} (drv : Driver D) :
    List BoundDatum → Nat → OdbcStatement D → Bool × OdbcStatement D
  | [], _, s => (true, s)
  | datum :: rest, current_param, s =>
    let r := drv.SQLBindParameter current_param datum s.statement
    let c := CheckOdbcError drv { s with statement := r.2 } r.1
    if !c.1 then (false, c.2)
    else
      let s1 := if datum.definedPrecision then applyPrecision drv c.2 datum current_param else c.2
      BindParams_loop drv rest (current_param + 1) s1

/-- The method `OdbcStatement::BindParams`. -/
def BindParams {D : Type} (drv : Driver D) (s : OdbcStatement D) (params : BoundDatumSet) :
    Bool × OdbcStatement D :=
  let size := getSize params
  if size ≤ 0 then (true, s)
  else
    let r := drv.SQLSetStmtAttr .SQL_ATTR_PARAMSET_SIZE size s.statement
    let c := CheckOdbcError drv { s with statement := r.2 } r.1
    if !c.1 then (false, c.2)
    else BindParams_loop drv params._bindings 1 c.2

/-- Writing through the reference returned by `resultset->GetMetadata(column)`. -/
def setMetadata {D : Type} (s : OdbcStatement D) (column : Nat) (current : ColumnDefinition) :
    OdbcStatement D :=
  let update := fun (rs : ResultSet) => { rs with metadata := rs.metadata.set column current }
  { s with resultset := s.resultset.map update }

/-- The method `resultset->SetColumn`. -/
def SetColumn {D : Type} (s : OdbcStatement D) (column : Column) : OdbcStatement D :=
  { s with resultset := s.resultset.map (fun rs => { rs with column := some column }) }

/-- Assignment to `resultset->endOfRows`. -/
def setEndOfRows {D : Type} (s : OdbcStatement D) (b : Bool) : OdbcStatement D :=
  { s with resultset := s.resultset.map (fun rs => { rs with endOfRows := b }) }

/-- The method `OdbcStatement::readColAttributes`; `current` is the referenced definition,
returned as left by the call. -/
def readColAttributes {D : Type} (drv : Driver D) (s : OdbcStatement D)
    (current : ColumnDefinition) (column : Nat) :
    Bool × ColumnDefinition × OdbcStatement D :=
  let index := column + 1
  let r := drv.SQLColAttributeString index .SQL_DESC_TYPE_NAME s.statement
  let c := CheckOdbcError drv { s with statement := r.2.2 } r.1
  if !c.1 then (false, current, c.2)
  else
    let current1 := { current with dataTypeName := r.2.1 }
    if current1.dataType = SQL_SS_VARIANT then (true, current1, c.2)
    else if current1.dataType = SQL_SS_UDT then
      let r2 := drv.SQLColAttributeString index .SQL_CA_SS_UDT_TYPE_NAME c.2.statement
      let c2 := CheckOdbcError drv { c.2 with statement := r2.2.2 } r2.1
      if !c2.1 then (false, current1, c2.2)
      else (true, { current1 with udtTypeName := r2.2.1 }, c2.2)
    else (true, current1, c.2)

/-- The method `OdbcStatement::readNext`. The result of `readColAttributes` is stored in a
`SQLRETURN` (1 for true, 0 for false), checked, and converted back to `bool`. The output
arguments of a failing `SQLDescribeCol` are taken as unwritten. -/
def readNext {D : Type} (drv : Driver D) (s : OdbcStatement D) (column : Nat) :
    Bool × OdbcStatement D :=
  let index := column + 1
  let r := drv.SQLDescribeColLength index s.statement
  let c := CheckOdbcError drv { s with statement := r.2.2 } r.1
  if !c.1 then (false, c.2)
  else
    let name_length := r.2.1
    let current := ((c.2.resultset.map (fun rs => rs.metadata)).getD []).getD column
      ColumnDefinition.new
    let r2 := drv.SQLDescribeCol index (name_length + 1) c.2.statement
    let c2 := CheckOdbcError drv { c.2 with statement := r2.2.2 } r2.1
    if !c2.1 then (false, c2.2)
    else
      let current1 := { current with
        name := r2.2.1.name, dataType := r2.2.1.dataType, columnSize := r2.2.1.columnSize,
        decimalDigits := r2.2.1.decimalDigits, nullable := r2.2.1.nullable }
      let a := readColAttributes drv c2.2 current1 column
      let s3 := setMetadata a.2.2 column a.2.1
      let ret : Int := if a.1 then 1 else 0
      let c3 := CheckOdbcError drv s3 ret
      if !c3.1 then (false, c3.2)
      else (ret != 0, c3.2)

/-- The `while` loop of `OdbcStatement::StartReadingResults` with `remaining` columns left. -/
def StartReadingResults_loop {D : Type} (drv : Driver D) :
    Nat → Nat → OdbcStatement D → Bool × OdbcStatement D
  | 0, _, s => (true, s)
  | remaining + 1, column, s =>
    let r := readNext drv s column
    if !r.1 then (false, r.2)
    else StartReadingResults_loop drv remaining (column + 1) r.2

/-- The method `OdbcStatement::StartReadingResults`. -/
def StartReadingResults {D : Type} (drv : Driver D) (s : OdbcStatement D) :
    Bool × OdbcStatement D :=
  let r := drv.SQLNumResultCols s.statement
  let c := CheckOdbcError drv { s with statement := r.2.2 } r.1
  if !c.1 then (false, c.2)
  else
    let columns := r.2.1
    let s1 := { c.2 with resultset := some (ResultSet.new columns) }
    let l := StartReadingResults_loop drv columns 0 s1
    if !l.1 then (false, l.2)
    else
      let r2 := drv.SQLRowCount l.2.statement
      let s2 := { l.2 with
        statement := r2.2.2,
        resultset := l.2.resultset.map (fun rs => { rs with rowcount := r2.2.1 }) }
      let c2 := CheckOdbcError drv s2 r2.1
      if !c2.1 then (false, c2.2)
      else (true, c2.2)

/-- The method `OdbcStatement::queryTimeout`; its `bool` results come back as the
`SQLRETURN` values 0 and 1. The second attribute call does not update `ret`. -/
def queryTimeout {D : Type} (drv : Driver D) (s : OdbcStatement D) (timeout : Int) :
    Int × OdbcStatement D :=
  if timeout > 0 then
    let r := drv.SQLSetStmtAttr .SQL_QUERY_TIMEOUT timeout.toNat s.statement
    let c := CheckOdbcError drv { s with statement := r.2 } r.1
    if !c.1 then (0, c.2)
    else
      let r2 := drv.SQLSetStmtAttr .SQL_ATTR_QUERY_TIMEOUT timeout.toNat c.2.statement
      let c2 := CheckOdbcError drv { c.2 with statement := r2.2 } r.1
      if !c2.1 then (0, c2.2)
      else (1, c2.2)
  else (1, s)

/-- The method `OdbcStatement::cancelHandle`. -/
def cancelHandle {D : Type} (drv : Driver D) (s : OdbcStatement D) : OdbcStatement D :=
  let s1 := { s with error2 := some operationCanceledError }
  let r := drv.SQLCancelHandle s1.statement
  let c := CheckOdbcError drv { s1 with statement := r.2 } r.1
  { c.2 with _cancelRequested := false }

/-- The `while (true)` loop of `OdbcStatement::PollCheck`, bounded by `fuel` iterations. -/
def PollCheck_loop {D : Type} (drv : Driver D) (direct : Bool) :
    Nat → OdbcStatement D → Option (Int × OdbcStatement D)
  | 0, _ => none
  | fuel + 1, s =>
    let r := if direct then drv.SQLExecDirect "" s.statement else drv.SQLExecute s.statement
    let s1 := { s with statement := r.2 }
    if r.1 ≠ SQL_STILL_EXECUTING then some (r.1, s1)
    else
      let s2 := { s1 with statement := drv.Sleep s1.statement }
      let submit_cancel := s2._cancelRequested
      let s3 := if submit_cancel then cancelHandle drv s2 else s2
      PollCheck_loop drv direct fuel s3

/-- The method `OdbcStatement::PollCheck`. -/
def PollCheck {D : Type} (drv : Driver D) (fuel : Nat) (s : OdbcStatement D) (ret : Int)
    (direct : Bool) : Option (Int × OdbcStatement D) :=
  if ret = SQL_STILL_EXECUTING then PollCheck_loop drv direct fuel s
  else some (ret, s)

/-- The part of `OdbcStatement::TryExecuteDirect` after the execute and its polling: the
branch on the return code. -/
def TryExecuteDirect_finish {D : Type} (drv : Driver D) (s : OdbcStatement D) (ret : Int)
    (paramSet : BoundDatumSet) : Bool × OdbcStatement D :=
  if ret = SQL_SUCCESS_WITH_INFO ∨ (ret ≠ SQL_NO_DATA ∧ SQL_SUCCEEDED ret = false) then
    let e := ReturnOdbcError drv s
    let s1 := { e.2 with boundParamsSet := some paramSet }
    let saved_errors := s1.error
    let res := StartReadingResults drv s1
    let s2 := { res.2 with error := saved_errors }
    if res.1 then
      (false, setEndOfRows s2 false)
    else
      (false, { s2 with resultset := some { ResultSet.new 0 with endOfRows := true } })
  else
    StartReadingResults drv { s with boundParamsSet := some paramSet }

/-- The part of `OdbcStatement::TryExecuteDirect` up to and including the execute and its
polling. The result is `none` when the poll loop runs out of fuel, `some (.inl s)` when
the method has already returned false, and `some (.inr (ret, s))` with the return code
`ret` of the execute otherwise. -/
def TryExecuteDirect_submit {D : Type} (drv : Driver D) (fuel : Nat) (s : OdbcStatement D)
    (query : String) (timeout : Nat) (paramSet : BoundDatumSet) :
    Option (OdbcStatement D ⊕ (Int × OdbcStatement D)) :=
  let bound := BindParams drv s paramSet
  if !bound.1 then some (.inl bound.2)
  else
    let polling_mode := bound.2._pollingEnabled
    let s1 := { bound.2 with _endOfResults := true }
    let q := queryTimeout drv s1 (toInt32 timeout)
    let c := CheckOdbcError drv q.2 q.1
    if !c.1 then some (.inl c.2)
    else
      let s2 := { c.2 with _statementState := .STATEMENT_SUBMITTED }
      let s3 :=
        if polling_mode then
          { s2 with statement := (drv.SQLSetStmtAttr .SQL_ATTR_ASYNC_ENABLE 1 s2.statement).2 }
        else s2
      let r := drv.SQLExecDirect query s3.statement
      let s4 := { s3 with statement := r.2 }
      if polling_mode then (PollCheck drv fuel s4 r.1 true).map Sum.inr
      else some (.inr (r.1, s4))

/-- The method `OdbcStatement::TryExecuteDirect`. -/
def TryExecuteDirect {D : Type} (drv : Driver D) (fuel : Nat) (s : OdbcStatement D)
    (query : String) (timeout : Nat) (paramSet : BoundDatumSet) :
    Option (Bool × OdbcStatement D) :=
  match TryExecuteDirect_submit drv fuel s query timeout paramSet with
  | none => none
  | some (.inl s1) => some (false, s1)
  | some (.inr (ret, s1)) => some (TryExecuteDirect_finish drv s1 ret paramSet)

/-- The method `OdbcStatement::BindFetch`. -/
def BindFetch {D : Type} (drv : Driver D) (fuel : Nat) (s : OdbcStatement D)
    (paramSet : BoundDatumSet) : Option (Bool × OdbcStatement D) :=
  let polling_mode := s._pollingEnabled
  let bound := BindParams drv s paramSet
  if !bound.1 then some (false, bound.2)
  else
    let s1 :=
      if polling_mode then
        { bound.2 with
          statement := (drv.SQLSetStmtAttr .SQL_ATTR_ASYNC_ENABLE 1 bound.2.statement).2 }
      else bound.2
    let r := drv.SQLExecute s1.statement
    let s2 := { s1 with statement := r.2 }
    match (if polling_mode then PollCheck drv fuel s2 r.1 false else some (r.1, s2)) with
    | none => none
    | some (ret, s3) =>
      let c := CheckOdbcError drv s3 ret
      if !c.1 then some (false, c.2)
      else
        let r2 := drv.SQLRowCount c.2.statement
        let s4 := { c.2 with
          statement := r2.2.2,
          resultset := c.2.resultset.map (fun rs => { rs with rowcount := r2.2.1 }) }
        let c2 := CheckOdbcError drv s4 r2.1
        if !c2.1 then some (false, c2.2)
        else some (true, c2.2)

/-- The method `OdbcStatement::TryReadRow`. -/
def TryReadRow {D : Type} (drv : Driver D) (s : OdbcStatement D) : Bool × OdbcStatement D :=
  match s.resultset with
  | none => (false, s)
  | some _ =>
    let r := drv.SQLFetch s.statement
    let s1 := { s with statement := r.2 }
    if r.1 = SQL_NO_DATA then
      (true, setEndOfRows s1 true)
    else
      let s2 := setEndOfRows { s1 with _statementState := .STATEMENT_FETCHING } false
      let c := CheckOdbcError drv s2 r.1
      if !c.1 then (false, c.2)
      else (true, c.2)

/-- The value of `resultset->EndOfRows()` read by `OdbcStatement::EndOfRows`, when there is
a result set. -/
def EndOfRows {D : Type} (s : OdbcStatement D) : Option Bool :=
  s.resultset.map (fun rs => rs.endOfRows)

/-- The method `OdbcStatement::endOfResults`. -/
def endOfResults {D : Type} (s : OdbcStatement D) : Bool := s._endOfResults

/-! ### Decoders -/

/-- Modelled from the spec: `DatumStorage::ReserveInt64` (DatumStorage.h is not among the
embedded sources): the storage is reserved for one element type and an element count. -/
def DatumStorage.ReserveInt64 (st : DatumStorage) (n : Nat) : DatumStorage :=
  { st with int64vec_ptr := List.replicate n 0 }

/-- Modelled from the spec: `DatumStorage::ReserveDouble`, as `ReserveInt64`. -/
def DatumStorage.ReserveDouble (st : DatumStorage) (n : Nat) : DatumStorage :=
  { st with doublevec_ptr := List.replicate n 0 }

/-- Modelled from the spec: `DatumStorage::ReserveChars`, as `ReserveInt64`. -/
def DatumStorage.ReserveChars (st : DatumStorage) (n : Nat) : DatumStorage :=
  { st with charvec_ptr := List.replicate n 0 }

/-- Modelled from the spec: `DatumStorage::ReserveUint16`, as `ReserveInt64`. -/
def DatumStorage.ReserveUint16 (st : DatumStorage) (n : Nat) : DatumStorage :=
  { st with uint16vec_ptr := List.replicate n 0 }

/-- Modelled from the spec: `DatumStorage::ReserveTimestamp`, as `ReserveInt64`. -/
def DatumStorage.ReserveTimestamp (st : DatumStorage) (n : Nat) : DatumStorage :=
  let zero : TIMESTAMP_STRUCT :=
    { year := 0, month := 0, day := 0, hour := 0, minute := 0, second := 0, fraction := 0 }
  { st with timestampvec_ptr := List.replicate n zero }

/-- Modelled from the spec: `DatumStorage::ReserveTimestampOffset`, as `ReserveInt64`. -/
def DatumStorage.ReserveTimestampOffset (st : DatumStorage) (n : Nat) : DatumStorage :=
  let zero : SQL_SS_TIMESTAMPOFFSET_STRUCT :=
    { year := 0, month := 0, day := 0, hour := 0, minute := 0, second := 0, fraction := 0,
      timezone_hour := 0, timezone_minute := 0 }
  { st with timestampoffsetvec_ptr := List.replicate n zero }

/-- The call `_preparedStorage->atIndex(column)`; `none` when there is no such binding. -/
def atIndex {D : Type} (s : OdbcStatement D) (column : Nat) : Option BoundDatum :=
  match s._preparedStorage with
  | none => none
  | some set => set._bindings[column]?

/-- The common shape of the `getData...` methods: reserve, `SQLGetData`, check, and on a
null indicator set a `NullColumn`, otherwise the column built from the storage. -/
def getDataWith {D : Type} (drv : Driver D) (s : OdbcStatement D) (column : Nat)
    (target : TargetType) (storage : DatumStorage) (buflen : Nat)
    (mk : DatumStorage → Column) : Bool × OdbcStatement D :=
  let r := drv.SQLGetData (column + 1) target storage buflen s.statement
  let c := CheckOdbcError drv { s with statement := r.2.2.2 } r.1
  if !c.1 then (false, c.2)
  else if r.2.2.1 = SQL_NULL_DATA then (true, SetColumn c.2 .NullColumn)
  else (true, SetColumn c.2 (mk r.2.1))

/-- The method `OdbcStatement::d_Time`. -/
def d_Time {D : Type} (cfg : Config) (drv : Driver D) (s : OdbcStatement D) (column : Nat) :
    Option (Bool × OdbcStatement D) :=
  let r := drv.SQLGetDataTime2 (column + 1) s.statement
  let c := CheckOdbcError drv { s with statement := r.2.2.2 } r.1
  if !c.1 then some (false, c.2)
  else if r.2.2.1 = SQL_NULL_DATA then some (true, SetColumn c.2 .NullColumn)
  else
    let time := r.2.1
    let datetime : SQL_SS_TIMESTAMPOFFSET_STRUCT :=
      { year := cfg.SQL_SERVER_DEFAULT_YEAR, month := cfg.SQL_SERVER_DEFAULT_MONTH,
        day := cfg.SQL_SERVER_DEFAULT_DAY, hour := time.hour, minute := time.minute,
        second := time.second, fraction := time.fraction, timezone_hour := 0,
        timezone_minute := 0 }
    some (true, SetColumn c.2 (.TimestampColumnOf datetime))

/-- The method `OdbcStatement::getDataTimestampOffset`. -/
def getDataTimestampOffset {D : Type} (drv : Driver D) (s : OdbcStatement D) (column : Nat) :
    Bool × OdbcStatement D :=
  getDataWith drv s column .C_DEFAULT (DatumStorage.new.ReserveTimestampOffset 1) 20
    Column.TimestampColumn

/-- The method `OdbcStatement::d_TimestampOffset`: the result of the read is discarded. -/
def d_TimestampOffset {D : Type} (drv : Driver D) (s : OdbcStatement D) (column : Nat) :
    Option (Bool × OdbcStatement D) :=
  if s._prepared then
    (atIndex s column).map (fun datum => (true, SetColumn s (.TimestampColumn datum.storage)))
  else some (true, (getDataTimestampOffset drv s column).2)

/-- The method `OdbcStatement::getDataTimestamp`. -/
def getDataTimestamp {D : Type} (drv : Driver D) (s : OdbcStatement D) (column : Nat) :
    Bool × OdbcStatement D :=
  getDataWith drv s column .C_TIMESTAMP (DatumStorage.new.ReserveTimestamp 1) 16
    Column.TimestampColumn

/-- The method `OdbcStatement::d_Timestamp`: the result of the read is discarded. -/
def d_Timestamp {D : Type} (drv : Driver D) (s : OdbcStatement D) (column : Nat) :
    Option (Bool × OdbcStatement D) :=
  if s._prepared then
    (atIndex s column).map (fun datum => (true, SetColumn s (.TimestampColumn datum.storage)))
  else some (true, (getDataTimestamp drv s column).2)

/-- The method `OdbcStatement::getDataLong`. -/
def getDataLong {D : Type} (drv : Driver D) (s : OdbcStatement D) (column : Nat) :
    Bool × OdbcStatement D :=
  getDataWith drv s column .C_SLONG (DatumStorage.new.ReserveInt64 1) 8 Column.IntColumn

/-- The method `OdbcStatement::d_Integer`: the result of the read is discarded. -/
def d_Integer {D : Type} (drv : Driver D) (s : OdbcStatement D) (column : Nat) :
    Option (Bool × OdbcStatement D) :=
  if s._prepared then
    (atIndex s column).map (fun datum => (true, SetColumn s (.IntColumn datum.storage)))
  else some (true, (getDataLong drv s column).2)

/-- The method `OdbcStatement::getDataBit`. -/
def getDataBit {D : Type} (drv : Driver D) (s : OdbcStatement D) (column : Nat) :
    Bool × OdbcStatement D :=
  getDataWith drv s column .C_BIT (DatumStorage.new.ReserveChars 1) 1 Column.BoolColumn

/-- The method `OdbcStatement::d_Bit`: the result of the read is discarded. -/
def d_Bit {D : Type} (drv : Driver D) (s : OdbcStatement D) (column : Nat) :
    Option (Bool × OdbcStatement D) :=
  if s._prepared then
    (atIndex s column).map (fun datum => (true, SetColumn s (.BoolColumn datum.storage)))
  else some (true, (getDataBit drv s column).2)

/-- The method `OdbcStatement::getDataDecimal`. -/
def getDataDecimal {D : Type} (drv : Driver D) (s : OdbcStatement D) (column : Nat) :
    Bool × OdbcStatement D :=
  getDataWith drv s column .C_DOUBLE (DatumStorage.new.ReserveDouble 1) 8 Column.NumberColumn

/-- The method `OdbcStatement::d_Decimal`. -/
def d_Decimal {D : Type} (drv : Driver D) (s : OdbcStatement D) (column : Nat) :
    Option (Bool × OdbcStatement D) :=
  if s._prepared then
    (atIndex s column).map (fun datum => (true, SetColumn s (.NumberColumn datum.storage)))
  else some (getDataDecimal drv s column)

/-- The method `OdbcStatement::getDataBinary`; `none` when the assertion on the indicator
fails. -/
def getDataBinary {D : Type} (drv : Driver D) (s : OdbcStatement D) (column : Nat) :
    Option (Bool × OdbcStatement D) :=
  let amount : Nat := 2048
  let storage := DatumStorage.new.ReserveChars amount
  let r := drv.SQLGetData (column + 1) .C_BINARY storage amount s.statement
  let c := CheckOdbcError drv { s with statement := r.2.2.2 } r.1
  if !c.1 then some (false, c.2)
  else if r.2.2.1 = SQL_NULL_DATA then some (true, SetColumn c.2 .NullColumn)
  else if r.2.2.1 = SQL_NO_TOTAL then none
  else if r.1 = SQL_SUCCESS_WITH_INFO then
    let g := drv.SQLGetDiagRec c.2.statement
    let c2 := CheckOdbcError drv { c.2 with statement := g.2.2 } g.1
    if !c2.1 then some (false, c2.2)
    else
      let more := g.2.1 == "01004"
      let amount1 : Int := if more then (r.2.1.charvec_ptr.length : Int) else r.2.2.1
      some (true, SetColumn c2.2 (.BinaryColumn r.2.1 amount1 more))
  else
    some (true, SetColumn c.2 (.BinaryColumn r.2.1 r.2.2.1 false))

/-- The method `OdbcStatement::d_Binary`; `none` when `ind[0]` does not exist. -/
def d_Binary {D : Type} (drv : Driver D) (s : OdbcStatement D) (column : Nat) :
    Option (Bool × OdbcStatement D) :=
  if s._prepared then
    match atIndex s column with
    | none => none
    | some datum =>
      match datum.indvec with
      | [] => none
      | amount :: _ => some (true, SetColumn s (.BinaryColumn datum.storage amount false))
  else getDataBinary drv s column

/-- The method `OdbcStatement::Lob`. `value_len / size` is an unsigned division. -/
def Lob {D : Type} (cfg : Config) (drv : Driver D) (s : OdbcStatement D) (column : Nat) :
    Bool × OdbcStatement D :=
  let value_len0 := cfg.LOB_PACKET_SIZE + 1
  let storage := DatumStorage.new.ReserveUint16 value_len0
  let size := 2
  let r := drv.SQLGetData (column + 1) .C_WCHAR storage (value_len0 * size) s.statement
  let c := CheckOdbcError drv { s with statement := r.2.2.2 } r.1
  if !c.1 then (false, c.2)
  else
    let value_len := r.2.2.1
    if value_len = SQL_NULL_DATA then (true, SetColumn c.2 .NullColumn)
    else if value_len = SQL_NO_TOTAL ∨ toSizeT value_len / size > cfg.LOB_PACKET_SIZE then
      let st := { r.2.1 with
        uint16vec_ptr := vresize 0 cfg.LOB_PACKET_SIZE r.2.1.uint16vec_ptr }
      (true, SetColumn c.2 (.StringColumn st st.uint16vec_ptr.length true))
    else
      let st := { r.2.1 with
        uint16vec_ptr := vresize 0 (toSizeT value_len / size) r.2.1.uint16vec_ptr }
      (true, SetColumn c.2 (.StringColumn st st.uint16vec_ptr.length false))

/-- The method `OdbcStatement::reservedString`; `none` when the binding or `ind[0]` does
not exist. The two-argument `StringColumn` constructor has no continuation. -/
def reservedString {D : Type} (s : OdbcStatement D) (column : Nat) :
    Option (Bool × OdbcStatement D) :=
  match atIndex s column with
  | none => none
  | some storage =>
    match storage.indvec with
    | [] => none
    | ind0 :: _ =>
      let value_len : Int := (toSizeT ind0 / 2 : Nat)
      some (true, SetColumn s (.StringColumn storage.storage value_len false))

/-- The method `OdbcStatement::boundedString`; `none` when an assertion fails. -/
def boundedString {D : Type} (drv : Driver D) (s : OdbcStatement D) (display_size : Int)
    (column : Nat) : Option (Bool × OdbcStatement D) :=
  let display_size1 := display_size + 1
  let storage := DatumStorage.new.ReserveUint16 display_size1.toNat
  let r := drv.SQLGetData (column + 1) .C_WCHAR storage (display_size1.toNat * 2) s.statement
  let c := CheckOdbcError drv { s with statement := r.2.2.2 } r.1
  if !c.1 then some (false, c.2)
  else if r.2.2.1 = SQL_NULL_DATA then some (true, SetColumn c.2 .NullColumn)
  else if r.2.2.1 % 2 ≠ 0 then none
  else
    let value_len : Int := (toSizeT r.2.2.1 / 2 : Nat)
    if ¬ (value_len ≥ 0 ∧ value_len ≤ display_size1 - 1) then none
    else
      let st := { r.2.1 with uint16vec_ptr := vresize 0 value_len.toNat r.2.1.uint16vec_ptr }
      some (true, SetColumn c.2 (.StringColumn st value_len false))

/-- The test of `TryReadString` for a large-object column. The comparison with
`numeric_limits<unsigned long>::max() - 1` is made on unsigned operands. -/
def isLobDisplaySize (cfg : Config) (display_size : Int) : Bool :=
  display_size == 0 || display_size == INT_MAX || display_size == INT_MAX / 2 ||
    toSizeT display_size == cfg.ULONG_MAX - 1

/-- The method `OdbcStatement::TryReadString`; `none` when `assert(false)` is reached. -/
def TryReadString {D : Type} (cfg : Config) (drv : Driver D) (s : OdbcStatement D)
    (column : Nat) : Option (Bool × OdbcStatement D) :=
  let r := drv.SQLColAttributeNumeric (column + 1) .SQL_DESC_DISPLAY_SIZE s.statement
  let c := CheckOdbcError drv { s with statement := r.2.2 } r.1
  if !c.1 then some (false, c.2)
  else
    let display_size := r.2.1
    if isLobDisplaySize cfg display_size then some (Lob cfg drv c.2 column)
    else if display_size ≥ 1 ∧ display_size ≤ cfg.SQL_SERVER_MAX_STRING_SIZE then
      if c.2._prepared then reservedString c.2 column
      else boundedString drv c.2 display_size column
    else none

/-- The method `OdbcStatement::d_String`. -/
def d_String {D : Type} (cfg : Config) (drv : Driver D) (s : OdbcStatement D) (column : Nat) :
    Option (Bool × OdbcStatement D) :=
  TryReadString cfg drv s column

/-- The method `OdbcStatement::d_Variant`; `reread` is the call back into
`TryReadColumn`. -/
def d_Variant {D : Type} (drv : Driver D)
    (reread : OdbcStatement D → Nat → Option (Bool × OdbcStatement D))
    (s : OdbcStatement D) (column : Nat) : Option (Bool × OdbcStatement D) :=
  let r := drv.SQLGetDataLength (column + 1) s.statement
  let c := CheckOdbcError drv { s with statement := r.2.2 } r.1
  if !c.1 then some (false, c.2)
  else
    let r2 := drv.SQLColAttributeNumeric (column + 1) .SQL_CA_SS_VARIANT_TYPE c.2.statement
    let c2 := CheckOdbcError drv { c.2 with statement := r2.2.2 } r2.1
    if !c2.1 then some (false, c2.2)
    else
      let definition := ((c2.2.resultset.map (fun rs => rs.metadata)).getD []).getD column
        ColumnDefinition.new
      let s1 := setMetadata c2.2 column { definition with dataType := toSmallInt r2.2.1 }
      reread s1 column

/-- The method `OdbcStatement::dispatch`: the `switch` on the SQL type code. -/
def dispatch {D : Type} (cfg : Config) (drv : Driver D)
    (reread : OdbcStatement D → Nat → Option (Bool × OdbcStatement D))
    (s : OdbcStatement D) (t : Int) (column : Nat) : Option (Bool × OdbcStatement D) :=
  if t = SQL_SS_VARIANT then d_Variant drv reread s column
  else if t = SQL_CHAR ∨ t = SQL_VARCHAR ∨ t = SQL_LONGVARCHAR ∨ t = SQL_WCHAR ∨
      t = SQL_WVARCHAR ∨ t = SQL_WLONGVARCHAR ∨ t = SQL_SS_XML ∨ t = SQL_GUID then
    d_String cfg drv s column
  else if t = SQL_BIT then d_Bit drv s column
  else if t = SQL_SMALLINT ∨ t = SQL_TINYINT ∨ t = SQL_INTEGER ∨ t = SQL_C_SLONG ∨
      t = SQL_C_SSHORT ∨ t = SQL_C_STINYINT ∨ t = SQL_C_ULONG ∨ t = SQL_C_USHORT ∨
      t = SQL_C_UTINYINT then
    d_Integer drv s column
  else if t = SQL_DECIMAL ∨ t = SQL_NUMERIC ∨ t = SQL_REAL ∨ t = SQL_FLOAT ∨
      t = SQL_DOUBLE ∨ t = SQL_BIGINT then
    d_Decimal drv s column
  else if t = SQL_BINARY ∨ t = SQL_VARBINARY ∨ t = SQL_LONGVARBINARY ∨ t = SQL_SS_UDT then
    d_Binary drv s column
  else if t = SQL_SS_TIMESTAMPOFFSET then d_TimestampOffset drv s column
  else if t = SQL_TYPE_TIME ∨ t = SQL_SS_TIME2 then d_Time cfg drv s column
  else if t = SQL_TIMESTAMP ∨ t = SQL_DATETIME ∨ t = SQL_TYPE_TIMESTAMP ∨
      t = SQL_TYPE_DATE then
    d_Timestamp drv s column
  else d_String cfg drv s column

/-- The method `OdbcStatement::TryReadColumn`. The recursion through `d_Variant` is bounded
by `fuel`; `none` also when the assertion on `column` fails. A negative `column` fails the
assertion, so columns are natural numbers here. -/
def TryReadColumn {D : Type} (cfg : Config) (drv : Driver D) :
    Nat → OdbcStatement D → Nat → Option (Bool × OdbcStatement D)
  | 0, _, _ => none
  | fuel + 1, s, column =>
    match s.resultset with
    | none => none
    | some rs =>
      match rs.metadata[column]? with
      | none => none
      | some definition =>
        dispatch cfg drv (TryReadColumn cfg drv fuel) s definition.dataType column

/-- The method `OdbcStatement::TryReadNextResult`. -/
def TryReadNextResult {D : Type} (drv : Driver D) (s : OdbcStatement D) :
    Bool × OdbcStatement D :=
  let state := s._statementState
  if state = .STATEMENT_CANCELLED then
    (false, { setEndOfRows s true with
      _endOfResults := true, _statementState := .STATEMENT_ERROR })
  else
    let r := drv.SQLMoreResults s.statement
    let s1 := { s with statement := r.2 }
    if r.1 = SQL_NO_DATA then
      let s2 := { s1 with _endOfResults := true }
      if s2._prepared then
        (true, { s2 with statement := (drv.SQLCloseCursor s2.statement).2 })
      else (true, s2)
    else if r.1 = SQL_SUCCESS_WITH_INFO then
      let e := ReturnOdbcError drv s1
      let res := StartReadingResults drv e.2
      if res.1 then (false, setEndOfRows res.2 false)
      else (false, setEndOfRows res.2 true)
    else
      StartReadingResults drv { s1 with _endOfResults := false }

/-- The bindings that one successfully bound value contributes to the set: its own
`BoundDatum` (carrying `tvp_no_cols` when it is table valued) followed by the nested column
bindings that `tvp` pushes. -/
def bound_of {V J : Type} (env : BindEnv V J) (v : V) : List BoundDatum :=
  let binding := (env.bind v).2
  if binding.is_tvp then
    { binding with tvp_no_cols := get_tvp_col_count env v } ::
      (match env.table_value_param v with
        | .array cols => BoundDatumSet.tvp_loop env cols
        | _ => [])
  else [binding]

/-- The bindings of a set whose direction is output or input-output, in position order. -/
def outputBindings (s : BoundDatumSet) : List BoundDatum :=
  s._bindings.filter (fun b => isOutputParam b.param_type)

/-- A `BoundDatum` with the given direction and table flag and otherwise empty fields. -/
def sampleDatum (param_type : Int) (is_tvp : Bool) : BoundDatum :=
  { param_type := param_type, c_type := 0, sql_type := 0, param_size := 0, digits := 0,
    buffer_len := 0, indvec := [0], storage := DatumStorage.new, definedPrecision := false,
    is_tvp := is_tvp, tvp_no_cols := 0, err := none }

/-- A sample boundary over numbered values: 0 is an input scalar, 1 an output scalar,
2 a value whose bind fails after its direction was set to output, 3 a table-valued
parameter with the columns 0 and 4, 4 a column whose bind fails, 5 a table-valued parameter
with the columns 4 and 0, 6 a table-valued parameter with the columns 0 and 0, and 7 a
table-valued parameter whose one column binds with an output direction. -/
def sampleEnv : BindEnv Nat Int where
  bind v :=
    if v = 0 then (true, sampleDatum SQL_PARAM_INPUT false)
    else if v = 1 then (true, sampleDatum SQL_PARAM_OUTPUT false)
    else if v = 2 then (false, { sampleDatum SQL_PARAM_OUTPUT false with err := some "bad output" })
    else if v = 4 then (false, { sampleDatum SQL_PARAM_INPUT false with err := some "bad column" })
    else (true, sampleDatum SQL_PARAM_INPUT true)
  table_value_param v :=
    if v = 3 then .array [0, 4]
    else if v = 5 then .array [4, 0]
    else if v = 6 then .array [0, 0]
    else if v = 7 then .array [1]
    else .other
  uncheckedLength _ := 0
  unbind b := b.param_type

/-! ## The dispatch table as the specification words it -/

/-- The decode strategies named by the specification; `time` is the timestamp decoder
for time-only values, which synthesises the date. -/
inductive DecodeStrategy where
  | text
  | boolean
  | integer
  | double
  | binary
  | offsetTimestamp
  | timestamp
  | time
deriving DecidableEq, Repr

/-- The specification's table from SQL type code to decode strategy: the listed codes,
and text for every code that is not listed. -/
def specStrategy (t : Int) : DecodeStrategy :=
  if t ∈ [SQL_CHAR, SQL_VARCHAR, SQL_LONGVARCHAR, SQL_WCHAR, SQL_WVARCHAR, SQL_WLONGVARCHAR,
      SQL_GUID, SQL_SS_XML] then .text
  else if t = SQL_BIT then .boolean
  else if t ∈ [SQL_SMALLINT, SQL_TINYINT, SQL_INTEGER] then .integer
  else if t ∈ [SQL_DECIMAL, SQL_NUMERIC, SQL_REAL, SQL_FLOAT, SQL_DOUBLE, SQL_BIGINT] then .double
  else if t ∈ [SQL_BINARY, SQL_VARBINARY, SQL_LONGVARBINARY, SQL_SS_UDT] then .binary
  else if t = SQL_SS_TIMESTAMPOFFSET then .offsetTimestamp
  else if t ∈ [SQL_TYPE_DATE, SQL_DATETIME, SQL_TIMESTAMP, SQL_TYPE_TIMESTAMP] then .timestamp
  else if t ∈ [SQL_TYPE_TIME, SQL_SS_TIME2] then .time
  else .text

/-- The decoder of the source that implements each strategy. -/
def runStrategy {D : Type} (cfg : Config) (drv : Driver D) (s : OdbcStatement D) (column : Nat) :
    DecodeStrategy → Option (Bool × OdbcStatement D)
  | .text => d_String cfg drv s column
  | .boolean => d_Bit drv s column
  | .integer => d_Integer drv s column
  | .double => d_Decimal drv s column
  | .binary => d_Binary drv s column
  | .offsetTimestamp => d_TimestampOffset drv s column
  | .timestamp => d_Timestamp drv s column
  | .time => d_Time cfg drv s column

/-- The codes the specification's table lists. -/
def listedCodes : List Int :=
  [SQL_CHAR, SQL_VARCHAR, SQL_LONGVARCHAR, SQL_WCHAR, SQL_WVARCHAR, SQL_WLONGVARCHAR,
    SQL_GUID, SQL_SS_XML, SQL_BIT, SQL_SMALLINT, SQL_TINYINT, SQL_INTEGER, SQL_DECIMAL,
    SQL_NUMERIC, SQL_REAL, SQL_FLOAT, SQL_DOUBLE, SQL_BIGINT, SQL_BINARY, SQL_VARBINARY,
    SQL_LONGVARBINARY, SQL_SS_UDT, SQL_SS_TIMESTAMPOFFSET, SQL_TYPE_DATE, SQL_DATETIME,
    SQL_TIMESTAMP, SQL_TYPE_TIMESTAMP, SQL_TYPE_TIME, SQL_SS_TIME2]

/-- The C type codes that `dispatch` lists among the integer cases. -/
def integerCTypeCodes : List Int :=
  [SQL_C_SLONG, SQL_C_SSHORT, SQL_C_STINYINT, SQL_C_ULONG, SQL_C_USHORT, SQL_C_UTINYINT]

/-- The current column of a statement, if any. -/
def currentColumn {D : Type} (s : OdbcStatement D) : Option Column :=
  s.resultset.bind (fun rs => rs.column)

/-! ## Large-object streaming as the specification words it -/

/-- Modelled from the spec: the text carried by a `StringColumn` (Column.h is not among
the embedded sources): the first `size` wide characters of its storage; other columns
carry no text. -/
def Column.chars : Column → List Nat
  | .StringColumn storage size _ => storage.uint16vec_ptr.take size.toNat
  | _ => []

/-- Modelled from the spec: the caller's side of chunked reading (4.6, 8.4), "repeatedly
calling read_column until more is false". At most `reads` reads are made, each a
`TryReadColumn` with recursion bound `depth`; the values read are collected in order. A
failed read ends the loop without a result. -/
def readColumnUntilDone {D : Type} (cfg : Config) (drv : Driver D) (depth : Nat) :
    Nat → OdbcStatement D → Nat → Option (List Column × OdbcStatement D)
  | 0, _, _ => none
  | reads + 1, s, column =>
    match TryReadColumn cfg drv depth s column with
    | none => none
    | some r =>
      if !r.1 then none
      else
        match currentColumn r.2 with
        | none => none
        | some c =>
          if c.More then
            (readColumnUntilDone cfg drv depth reads r.2 column).map
              (fun rest => (c :: rest.1, rest.2))
          else some ([c], r.2)

/-- The SQL type codes that `dispatch` lists for `d_String`. -/
def textCodes : List Int :=
  [SQL_CHAR, SQL_VARCHAR, SQL_LONGVARCHAR, SQL_WCHAR, SQL_WVARCHAR, SQL_WLONGVARCHAR,
    SQL_SS_XML, SQL_GUID]

/-- Modelled from the spec: a driver that serves the text of column `column` as a large
object in packets of `LOB_PACKET_SIZE` characters. `remaining d` is the text not yet
handed out in driver state `d`. The display size is one of the unbounded sentinels. A
get-data call into a buffer of `LOB_PACKET_SIZE + 1` wide characters succeeds, writes the
next packet at the start of the buffer, hands out those characters, and reports in the
indicator the byte length that was remaining before the call, or, while more than a packet
remained, possibly no total. -/
structure ServesLob {D : Type} (cfg : Config) (drv : Driver D) (column : Nat)
    (remaining : D → List Nat) : Prop where
  display_size : ∀ d,
    SQL_SUCCEEDED (drv.SQLColAttributeNumeric (column + 1) .SQL_DESC_DISPLAY_SIZE d).1 = true ∧
    isLobDisplaySize cfg
      (drv.SQLColAttributeNumeric (column + 1) .SQL_DESC_DISPLAY_SIZE d).2.1 = true ∧
    remaining (drv.SQLColAttributeNumeric (column + 1) .SQL_DESC_DISPLAY_SIZE d).2.2
      = remaining d
  packet : ∀ d buf, buf.uint16vec_ptr.length = cfg.LOB_PACKET_SIZE + 1 →
    SQL_SUCCEEDED
      (drv.SQLGetData (column + 1) .C_WCHAR buf ((cfg.LOB_PACKET_SIZE + 1) * 2) d).1 = true ∧
    (drv.SQLGetData (column + 1) .C_WCHAR buf
      ((cfg.LOB_PACKET_SIZE + 1) * 2) d).2.1.uint16vec_ptr.length = cfg.LOB_PACKET_SIZE + 1 ∧
    (drv.SQLGetData (column + 1) .C_WCHAR buf
      ((cfg.LOB_PACKET_SIZE + 1) * 2) d).2.1.uint16vec_ptr.take
        (min cfg.LOB_PACKET_SIZE (remaining d).length)
      = (remaining d).take cfg.LOB_PACKET_SIZE ∧
    remaining (drv.SQLGetData (column + 1) .C_WCHAR buf
      ((cfg.LOB_PACKET_SIZE + 1) * 2) d).2.2.2 = (remaining d).drop cfg.LOB_PACKET_SIZE ∧
    (cfg.LOB_PACKET_SIZE < (remaining d).length →
      (drv.SQLGetData (column + 1) .C_WCHAR buf
        ((cfg.LOB_PACKET_SIZE + 1) * 2) d).2.2.1 = SQL_NO_TOTAL ∨
      ((drv.SQLGetData (column + 1) .C_WCHAR buf
        ((cfg.LOB_PACKET_SIZE + 1) * 2) d).2.2.1 = 2 * ((remaining d).length : Int) ∧
        2 * (remaining d).length < 2 ^ 63)) ∧
    ((remaining d).length ≤ cfg.LOB_PACKET_SIZE →
      (drv.SQLGetData (column + 1) .C_WCHAR buf
        ((cfg.LOB_PACKET_SIZE + 1) * 2) d).2.2.1 = 2 * ((remaining d).length : Int))

/-! ## A scripted driver for concrete runs -/

/-- The answers of a scripted driver: the return code of the execute calls, of the
description calls, of fetch, of more-results and of get-data, with the output arguments. -/
structure Script where
  exec : Int
  describe : Int
  columns : Nat
  dataType : Int
  fetch : Int
  more : Int
  getData : Int
  indicator : Int
  displaySize : Int
  variantType : Int
  time : SQL_SS_TIME2_STRUCT
deriving DecidableEq, Repr

/-- A driver that answers every call from a `Script`. Its state counts the calls made so
far, and the diagnostic it reports carries that count as its native code, so diagnostics
read at different moments differ. -/
def scriptedDriver (sc : Script) : Driver Nat where
  SQLSetStmtAttr _ _ d := (SQL_SUCCESS, d + 1)
  SQLBindParameter _ _ d := (SQL_SUCCESS, d + 1)
  SQLSetDescFields _ _ d := d + 1
  SQLExecDirect _ d := (sc.exec, d + 1)
  SQLExecute d := (sc.exec, d + 1)
  SQLCancelHandle d := (SQL_SUCCESS, d + 1)
  ReadErrors d := (some { sqlstate := "01000", message := "diagnostic", code := d }, d)
  SQLNumResultCols d := (sc.describe, sc.columns, d + 1)
  SQLDescribeColLength _ d := (sc.describe, 1, d + 1)
  SQLDescribeCol _ _ d :=
    (sc.describe,
      { name := "c", dataType := sc.dataType, columnSize := 4, decimalDigits := 0, nullable := 1 },
      d + 1)
  SQLColAttributeString _ _ d := (sc.describe, "t", d + 1)
  SQLColAttributeNumeric _ attr d :=
    (SQL_SUCCESS, if attr = .SQL_DESC_DISPLAY_SIZE then sc.displaySize else sc.variantType, d + 1)
  SQLRowCount d := (sc.describe, 0, d + 1)
  SQLFetch d := (sc.fetch, d + 1)
  SQLGetData _ _ buf _ d := (sc.getData, buf, sc.indicator, d + 1)
  SQLGetDataTime2 _ d := (sc.getData, sc.time, sc.indicator, d + 1)
  SQLGetDataLength _ d := (sc.getData, sc.indicator, d + 1)
  SQLGetDiagRec d := (SQL_SUCCESS, "01004", d + 1)
  SQLMoreResults d := (sc.more, d + 1)
  SQLCloseCursor d := (SQL_SUCCESS, d + 1)
  Sleep d := d + 1

/-- A script in which every call succeeds on a one-column integer result. -/
def okScript : Script :=
  { exec := SQL_SUCCESS, describe := SQL_SUCCESS, columns := 1, dataType := SQL_INTEGER,
    fetch := SQL_SUCCESS, more := SQL_SUCCESS, getData := SQL_SUCCESS, indicator := 4,
    displaySize := 10, variantType := SQL_INTEGER,
    time := { hour := 13, minute := 45, second := 7, fraction := 500 } }

/-- The constants as the engine's headers define them, on a platform with a 64-bit
`unsigned long`. -/
def defaultConfig : Config :=
  { LOB_PACKET_SIZE := 8192, SQL_SERVER_MAX_STRING_SIZE := 8000,
    SQL_SERVER_DEFAULT_YEAR := 1900, SQL_SERVER_DEFAULT_MONTH := 1,
    SQL_SERVER_DEFAULT_DAY := 1, ULONG_MAX := 2 ^ 64 - 1 }

/-- An empty parameter set after `bind` of the empty list. -/
def noParams : BoundDatumSet := (BoundDatumSet.bind sampleEnv BoundDatumSet.new []).2

/-- A statement on the call counter 0 with a result set of one column of the given type. -/
def oneColumnStatement (dataType : Int) : OdbcStatement Nat :=
  { OdbcStatement.new 0 with
    resultset := some { ResultSet.new 1 with
      metadata := [{ ColumnDefinition.new with dataType := dataType }] } }

/-- A bound column buffer whose indicator holds the SQL-null sentinel. -/
def nullBoundColumn : BoundDatum :=
  { sampleDatum SQL_PARAM_INPUT false with indvec := [SQL_NULL_DATA] }

/-- A prepared statement with one column of the given type whose pre-bound indicator
holds the SQL-null sentinel, as left by a fetch of a row with a null in that column. -/
def preparedNullStatement (dataType : Int) : OdbcStatement Nat :=
  { oneColumnStatement dataType with
    _prepared := true,
    _preparedStorage := some { BoundDatumSet.new with _bindings := [nullBoundColumn] } }

/-- A driver whose state is the text of a large-object column that it has not handed out
yet. Each get-data call writes as many characters as fit in the buffer besides the
terminator, and reports the remaining byte length, or no total when that length does not
fit the indicator. Every other call succeeds without effect. -/
def lobDriver : Driver (List Nat) where
  SQLSetStmtAttr _ _ d := (SQL_SUCCESS, d)
  SQLBindParameter _ _ d := (SQL_SUCCESS, d)
  SQLSetDescFields _ _ d := d
  SQLExecDirect _ d := (SQL_SUCCESS, d)
  SQLExecute d := (SQL_SUCCESS, d)
  SQLCancelHandle d := (SQL_SUCCESS, d)
  ReadErrors d := (none, d)
  SQLNumResultCols d := (SQL_SUCCESS, 1, d)
  SQLDescribeColLength _ d := (SQL_SUCCESS, 1, d)
  SQLDescribeCol _ _ d :=
    (SQL_SUCCESS,
      { name := "c", dataType := SQL_WLONGVARCHAR, columnSize := 0, decimalDigits := 0,
        nullable := 1 },
      d)
  SQLColAttributeString _ _ d := (SQL_SUCCESS, "nvarchar", d)
  SQLColAttributeNumeric _ _ d := (SQL_SUCCESS, 0, d)
  SQLRowCount d := (SQL_SUCCESS, 0, d)
  SQLFetch d := (SQL_SUCCESS, d)
  SQLGetData _ _ buf buflen d :=
    let n := buflen / 2 - 1
    let written := d.take n ++ List.replicate (buf.uint16vec_ptr.length - (d.take n).length) 0
    (if n < d.length then SQL_SUCCESS_WITH_INFO else SQL_SUCCESS,
      { buf with uint16vec_ptr := written },
      if 2 * d.length < 2 ^ 63 then 2 * (d.length : Int) else SQL_NO_TOTAL,
      d.drop n)
  SQLGetDataTime2 _ d := (SQL_SUCCESS, { hour := 0, minute := 0, second := 0, fraction := 0 }, 0, d)
  SQLGetDataLength _ d := (SQL_SUCCESS, 0, d)
  SQLGetDiagRec d := (SQL_SUCCESS, "01004", d)
  SQLMoreResults d := (SQL_NO_DATA, d)
  SQLCloseCursor d := (SQL_SUCCESS, d)
  Sleep d := d

/-- An unprepared statement positioned on a row whose only column is a wide-character
large object holding `text`, on `lobDriver`. -/
def lobStatement (text : List Nat) : OdbcStatement (List Nat) :=
  { OdbcStatement.new text with
    resultset := some { ResultSet.new 1 with
      metadata := [{ ColumnDefinition.new with dataType := SQL_WLONGVARCHAR }] } }

/-! ## ReadRowOperation (ReadRowOperation.cpp) -/

/-- The method `ReadRowOperation::TryInvokeOdbc`; `statement` is the operation's pointer
to its statement, `none` for a null pointer. -/
def ReadRowOperation.TryInvokeOdbc {D : Type} (drv : Driver D)
    (statement : Option (OdbcStatement D)) : Bool × Option (OdbcStatement D) :=
  match statement with
  | none => (false, none)
  | some s =>
    let res := TryReadRow drv s
    (res.1, some res.2)

/-- The method `ReadRowOperation::CreateCompletionArg`: the statement's `EndOfRows()`. -/
def ReadRowOperation.CreateCompletionArg {D : Type} (statement : Option (OdbcStatement D)) :
    Option Bool :=
  statement.bind EndOfRows

/-! ## Code lists of the `dispatch` cases and prepared sample statements -/

/-- The SQL type codes that `dispatch` lists for `d_Integer`. -/
def integerCodes : List Int :=
  [SQL_SMALLINT, SQL_TINYINT, SQL_INTEGER, SQL_C_SLONG, SQL_C_SSHORT, SQL_C_STINYINT,
    SQL_C_ULONG, SQL_C_USHORT, SQL_C_UTINYINT]

/-- The SQL type codes that `dispatch` lists for `d_Decimal`. -/
def doubleCodes : List Int :=
  [SQL_DECIMAL, SQL_NUMERIC, SQL_REAL, SQL_FLOAT, SQL_DOUBLE, SQL_BIGINT]

/-- The SQL type codes that `dispatch` lists for `d_Binary`. -/
def binaryCodes : List Int :=
  [SQL_BINARY, SQL_VARBINARY, SQL_LONGVARBINARY, SQL_SS_UDT]

/-- The SQL type codes that `dispatch` lists for `d_Timestamp`. -/
def timestampCodes : List Int :=
  [SQL_TIMESTAMP, SQL_DATETIME, SQL_TYPE_TIMESTAMP, SQL_TYPE_DATE]

/-- A bound column buffer holding one 64-bit value of four bytes. -/
def boundColumn : BoundDatum :=
  { sampleDatum SQL_PARAM_INPUT false with
    indvec := [4], storage := DatumStorage.new.ReserveInt64 1 }

/-- A prepared statement with one column of the given type bound to `boundColumn`. -/
def preparedStatement (dataType : Int) : OdbcStatement Nat :=
  { oneColumnStatement dataType with
    _prepared := true,
    _preparedStorage := some { BoundDatumSet.new with _bindings := [boundColumn] } }

/-- The column definitions of a statement's result set, if it has one. -/
def metadataOf {D : Type} (s : OdbcStatement D) : Option (List ColumnDefinition) :=
  s.resultset.map (fun rs => rs.metadata)

/-- The assignment `definition.dataType = t` of `d_Variant`. -/
def recordType (definition : ColumnDefinition) (t : Int) : ColumnDefinition :=
  { definition with dataType := t }

/-- The type code that `d_Variant` stores in the column's definition: the answer of the
driver to the variant-type query that follows the length probe, cast to `SQLSMALLINT`. -/
def d_Variant_type {D : Type} (drv : Driver D) (s : OdbcStatement D) (column : Nat) : Int :=
  let probe := drv.SQLGetDataLength (column + 1) s.statement
  toSmallInt (drv.SQLColAttributeNumeric (column + 1) .SQL_CA_SS_VARIANT_TYPE probe.2.2).2.1

/-- The statement that `d_Variant` hands to the second `TryReadColumn` when both of its
driver calls succeed: the driver state after the two calls, and `definition`, the
definition of the column, with its type replaced by `d_Variant_type`. -/
def d_Variant_recorded {D : Type} (drv : Driver D) (s : OdbcStatement D) (column : Nat)
    (definition : ColumnDefinition) : OdbcStatement D :=
  let probe := drv.SQLGetDataLength (column + 1) s.statement
  let attr := drv.SQLColAttributeNumeric (column + 1) .SQL_CA_SS_VARIANT_TYPE probe.2.2
  let s1 := { s with statement := attr.2.2 }
  setMetadata s1 column (recordType definition (d_Variant_type drv s column))

/-- A statement state that is `X` or Error. -/
def okState (X : OdbcStatementState) (st : OdbcStatementState) : Prop :=
  st = X ∨ st = .STATEMENT_ERROR

/-- The re-issued execute at the head of an iteration of the loop of `PollCheck`: the
return code and the statement afterwards. -/
def PollCheck_reissue {D : Type} (drv : Driver D) (direct : Bool) (s : OdbcStatement D) :
    Int × OdbcStatement D :=
  let r := if direct then drv.SQLExecDirect "" s.statement else drv.SQLExecute s.statement
  (r.1, { s with statement := r.2 })

/-- The rest of an iteration of the loop of `PollCheck` whose re-issue reported
still-executing: sleep, read `_cancelRequested`, and call `cancelHandle` if it is set. -/
def PollCheck_wait {D : Type} (drv : Driver D) (s1 : OdbcStatement D) : OdbcStatement D :=
  let s2 := { s1 with statement := drv.Sleep s1.statement }
  let submit_cancel := s2._cancelRequested
  if submit_cancel then cancelHandle drv s2 else s2

/-- One whole iteration of the loop of `PollCheck` that does not break. -/
def PollCheck_iteration {D : Type} (drv : Driver D) (direct : Bool) (s : OdbcStatement D) :
    OdbcStatement D :=
  PollCheck_wait drv (PollCheck_reissue drv direct s).2

/-- A driver whose state is the queue of the answers it will give to the execute calls
(first call and re-issues alike; success once the queue is empty) and the number of
driver-level cancels it has received. Every other call succeeds on a one-column integer
result without touching the queue. -/
def queuedDriver : Driver (List Int × Nat) where
  SQLSetStmtAttr _ _ d := (SQL_SUCCESS, d)
  SQLBindParameter _ _ d := (SQL_SUCCESS, d)
  SQLSetDescFields _ _ d := d
  SQLExecDirect _ d := (d.1.headD SQL_SUCCESS, (d.1.tail, d.2))
  SQLExecute d := (d.1.headD SQL_SUCCESS, (d.1.tail, d.2))
  SQLCancelHandle d := (SQL_SUCCESS, (d.1, d.2 + 1))
  ReadErrors d := (some { sqlstate := "HY008", message := "Operation canceled", code := 0 }, d)
  SQLNumResultCols d := (SQL_SUCCESS, 1, d)
  SQLDescribeColLength _ d := (SQL_SUCCESS, 1, d)
  SQLDescribeCol _ _ d :=
    (SQL_SUCCESS,
      { name := "c", dataType := SQL_INTEGER, columnSize := 4, decimalDigits := 0, nullable := 1 },
      d)
  SQLColAttributeString _ _ d := (SQL_SUCCESS, "int", d)
  SQLColAttributeNumeric _ _ d := (SQL_SUCCESS, 10, d)
  SQLRowCount d := (SQL_SUCCESS, 1, d)
  SQLFetch d := (SQL_SUCCESS, d)
  SQLGetData _ _ buf _ d := (SQL_SUCCESS, buf, 4, d)
  SQLGetDataTime2 _ d := (SQL_SUCCESS, { hour := 0, minute := 0, second := 0, fraction := 0 }, 0, d)
  SQLGetDataLength _ d := (SQL_SUCCESS, 0, d)
  SQLGetDiagRec d := (SQL_SUCCESS, "01004", d)
  SQLMoreResults d := (SQL_NO_DATA, d)
  SQLCloseCursor d := (SQL_SUCCESS, d)
  Sleep d := d

/-- A fresh statement on `queuedDriver` with polling enabled and the given cancel request
flag, the driver holding the given queue of answers. -/
def pollingStatement (answers : List Int) (cancelRequested : Bool) :
    OdbcStatement (List Int × Nat) :=
  { OdbcStatement.new (answers, 0) with
    _pollingEnabled := true, _cancelRequested := cancelRequested }

/-- The part of `OdbcStatement::TryExecuteDirect` before the execute call: `.inl s` when the
method has already returned false in statement `s`, and `.inr (polling_mode, s)` with the
statement `s` on which `SQLExecDirect` is about to be issued otherwise. -/
def TryExecuteDirect_ready {D : Type} (drv : Driver D) (s : OdbcStatement D)
    (timeout : Nat) (paramSet : BoundDatumSet) :
    OdbcStatement D ⊕ (Bool × OdbcStatement D) :=
  let bound := BindParams drv s paramSet
  if !bound.1 then .inl bound.2
  else
    let polling_mode := bound.2._pollingEnabled
    let s1 := { bound.2 with _endOfResults := true }
    let q := queryTimeout drv s1 (toInt32 timeout)
    let c := CheckOdbcError drv q.2 q.1
    if !c.1 then .inl c.2
    else
      let s2 := { c.2 with _statementState := .STATEMENT_SUBMITTED }
      let s3 :=
        if polling_mode then
          { s2 with statement := (drv.SQLSetStmtAttr .SQL_ATTR_ASYNC_ENABLE 1 s2.statement).2 }
        else s2
      .inr (polling_mode, s3)

/-- The part of `OdbcStatement::BindFetch` before the execute call: `.inl s` when the method
has already returned false in statement `s`, and `.inr (polling_mode, s)` with the statement
`s` on which `SQLExecute` is about to be issued otherwise. -/
def BindFetch_ready {D : Type} (drv : Driver D) (s : OdbcStatement D)
    (paramSet : BoundDatumSet) : OdbcStatement D ⊕ (Bool × OdbcStatement D) :=
  let polling_mode := s._pollingEnabled
  let bound := BindParams drv s paramSet
  if !bound.1 then .inl bound.2
  else
    let s1 :=
      if polling_mode then
        { bound.2 with
          statement := (drv.SQLSetStmtAttr .SQL_ATTR_ASYNC_ENABLE 1 bound.2.statement).2 }
      else bound.2
    .inr (polling_mode, s1)

/-- The part of `OdbcStatement::BindFetch` after the execute and its polling: the two error
checks around `SQLRowCount`. -/
def BindFetch_finish {D : Type} (drv : Driver D) (s3 : OdbcStatement D) (ret : Int) :
    Bool × OdbcStatement D :=
  let c := CheckOdbcError drv s3 ret
  if !c.1 then (false, c.2)
  else
    let r2 := drv.SQLRowCount c.2.statement
    let s4 := { c.2 with
      statement := r2.2.2,
      resultset := c.2.resultset.map (fun rs => { rs with rowcount := r2.2.1 }) }
    let c2 := CheckOdbcError drv s4 r2.1
    if !c2.1 then (false, c2.2)
    else (true, c2.2)

/-! # Theorems -/

/-! ## BoundDatumSet -/

theorem tvp_bindings {V J : Type} (env : BindEnv V J) (s : BoundDatumSet) (v : V) :
    (BoundDatumSet.tvp env s v).2._bindings =
      s._bindings ++ (match env.table_value_param v with
        | .array cols => BoundDatumSet.tvp_loop env cols
        | _ => []) := by
  unfold BoundDatumSet.tvp
  cases env.table_value_param v <;> simp

theorem tvp_frame {V J : Type} (env : BindEnv V J) (s : BoundDatumSet) (v : V) :
    (BoundDatumSet.tvp env s v).2._output_param_count = s._output_param_count ∧
    (BoundDatumSet.tvp env s v).2.err = s.err ∧
    (BoundDatumSet.tvp env s v).2.first_error = s.first_error := by
  unfold BoundDatumSet.tvp
  cases env.table_value_param v <;> simp

theorem count_output_frame (s : BoundDatumSet) (b : BoundDatum) :
    (BoundDatumSet.count_output s b)._bindings = s._bindings ∧
    (BoundDatumSet.count_output s b).err = s.err ∧
    (BoundDatumSet.count_output s b).first_error = s.first_error ∧
    (BoundDatumSet.count_output s b)._output_param_count =
      s._output_param_count + (if isOutputParam b.param_type then 1 else 0) := by
  unfold BoundDatumSet.count_output
  by_cases ho : isOutputParam b.param_type = true <;> simp [ho]

/-- What the tail of an iteration adds for a value that binds. -/
theorem push_bound_spec {V J : Type} (env : BindEnv V J) (s : BoundDatumSet) (v : V)
    (res : Bool) :
    (BoundDatumSet.push_bound env s v res (env.bind v).2).2._bindings
        = s._bindings ++ bound_of env v ∧
    (BoundDatumSet.push_bound env s v res (env.bind v).2).2._output_param_count
        = s._output_param_count ∧
    (BoundDatumSet.push_bound env s v res (env.bind v).2).2.err = s.err ∧
    (BoundDatumSet.push_bound env s v res (env.bind v).2).2.first_error = s.first_error := by
  unfold BoundDatumSet.push_bound
  by_cases ht : (env.bind v).2.is_tvp = true
  · simp only [ht, if_true]
    refine ⟨?_, ?_, ?_, ?_⟩
    · rw [tvp_bindings]; simp [bound_of, ht, List.append_assoc]
    · rw [(tvp_frame _ _ _).1]
    · rw [(tvp_frame _ _ _).2.1]
    · rw [(tvp_frame _ _ _).2.2]
  · simp [bound_of, ht]

/-- One iteration of the loop of `bind` on a value that binds. -/
theorem bind_loop_cons_ok {V J : Type} (env : BindEnv V J) (v : V) (rest : List V) (i : Nat)
    (res : Bool) (s : BoundDatumSet) (hv : (env.bind v).1 = true) :
    BoundDatumSet.bind_loop env (v :: rest) i res s
      = BoundDatumSet.bind_loop env rest (i + 1)
          (BoundDatumSet.push_bound env (BoundDatumSet.count_output s (env.bind v).2) v true
            (env.bind v).2).1
          (BoundDatumSet.push_bound env (BoundDatumSet.count_output s (env.bind v).2) v true
            (env.bind v).2).2 := by
  rw [BoundDatumSet.bind_loop]
  simp [hv]

/-- The iteration of the loop of `bind` on a value that does not bind. -/
theorem bind_loop_cons_fail {V J : Type} (env : BindEnv V J) (v : V) (rest : List V) (i : Nat)
    (res : Bool) (s : BoundDatumSet) (hv : (env.bind v).1 = false) :
    BoundDatumSet.bind_loop env (v :: rest) i res s
      = (false, { BoundDatumSet.count_output s (env.bind v).2 with
                    err := (env.bind v).2.err, first_error := i }) := by
  rw [BoundDatumSet.bind_loop]
  simp [hv]

/-- The loop of `bind` over values that all bind: the bindings and the counter. -/
theorem bind_loop_all_ok {V J : Type} (env : BindEnv V J) (vs : List V)
    (hall : ∀ v ∈ vs, (env.bind v).1 = true) (i : Nat) (res : Bool) (s : BoundDatumSet) :
    (BoundDatumSet.bind_loop env vs i res s).2._bindings
        = s._bindings ++ vs.flatMap (bound_of env) ∧
    (BoundDatumSet.bind_loop env vs i res s).2._output_param_count
        = s._output_param_count +
          ((vs.filter (fun v => isOutputParam (env.bind v).2.param_type)).length : Int) ∧
    (BoundDatumSet.bind_loop env vs i res s).2.err = s.err ∧
    (BoundDatumSet.bind_loop env vs i res s).2.first_error = s.first_error := by
  induction vs generalizing i res s with
  | nil => simp [BoundDatumSet.bind_loop]
  | cons v rest ih =>
    have hv : (env.bind v).1 = true := hall v (List.mem_cons_self _ _)
    have hrest : ∀ u ∈ rest, (env.bind u).1 = true := fun u hu => hall u (List.mem_cons_of_mem _ hu)
    rw [bind_loop_cons_ok env v rest i res s hv]
    obtain ⟨h1, h2, h3, h4⟩ := ih hrest (i + 1)
      (BoundDatumSet.push_bound env (BoundDatumSet.count_output s (env.bind v).2) v true
        (env.bind v).2).1
      (BoundDatumSet.push_bound env (BoundDatumSet.count_output s (env.bind v).2) v true
        (env.bind v).2).2
    obtain ⟨p1, p2, p3, p4⟩ :=
      push_bound_spec env (BoundDatumSet.count_output s (env.bind v).2) v true
    obtain ⟨c1, c2, c3, c4⟩ := count_output_frame s (env.bind v).2
    refine ⟨?_, ?_, ?_, ?_⟩
    · rw [h1, p1, c1]; simp [List.append_assoc]
    · rw [h2, p2, c4]
      by_cases ho : isOutputParam (env.bind v).2.param_type = true
      · simp [ho, List.filter_cons]; ring
      · simp [ho, List.filter_cons]
    · rw [h3, p3, c2]
    · rw [h4, p4, c3]

/-- The loop of `bind` over a list whose first failing value follows `pre`. -/
theorem bind_loop_first_fail {V J : Type} (env : BindEnv V J) (pre : List V) (v : V)
    (post : List V) (hpre : ∀ u ∈ pre, (env.bind u).1 = true) (hv : (env.bind v).1 = false)
    (i : Nat) (res : Bool) (s : BoundDatumSet) :
    (BoundDatumSet.bind_loop env (pre ++ v :: post) i res s).1 = false ∧
    (BoundDatumSet.bind_loop env (pre ++ v :: post) i res s).2.first_error = i + pre.length ∧
    (BoundDatumSet.bind_loop env (pre ++ v :: post) i res s).2.err = (env.bind v).2.err ∧
    (BoundDatumSet.bind_loop env (pre ++ v :: post) i res s).2._bindings
        = s._bindings ++ pre.flatMap (bound_of env) := by
  induction pre generalizing i res s with
  | nil =>
    simp only [List.nil_append]
    rw [bind_loop_cons_fail env v post i res s hv]
    simp [(count_output_frame s (env.bind v).2).1]
  | cons u rest ih =>
    have hu : (env.bind u).1 = true := hpre u (List.mem_cons_self _ _)
    have hrest : ∀ w ∈ rest, (env.bind w).1 = true :=
      fun w hw => hpre w (List.mem_cons_of_mem _ hw)
    simp only [List.cons_append]
    rw [bind_loop_cons_ok env u _ i res s hu]
    obtain ⟨h1, h2, h3, h4⟩ := ih hrest (i + 1)
      (BoundDatumSet.push_bound env (BoundDatumSet.count_output s (env.bind u).2) u true
        (env.bind u).2).1
      (BoundDatumSet.push_bound env (BoundDatumSet.count_output s (env.bind u).2) u true
        (env.bind u).2).2
    obtain ⟨p1, -, -, -⟩ :=
      push_bound_spec env (BoundDatumSet.count_output s (env.bind u).2) u true
    obtain ⟨c1, -, -, -⟩ := count_output_frame s (env.bind u).2
    refine ⟨h1, ?_, h3, ?_⟩
    · rw [h2]; simp; omega
    · rw [h4, p1, c1]; simp [List.append_assoc]

/-- The method `bind` on values that all bind. -/
theorem bind_all_ok {V J : Type} (env : BindEnv V J) (s : BoundDatumSet) (vs : List V)
    (hall : ∀ v ∈ vs, (env.bind v).1 = true) :
    (BoundDatumSet.bind env s vs).2._bindings = s._bindings ++ vs.flatMap (bound_of env) ∧
    (BoundDatumSet.bind env s vs).2._output_param_count
        = ((vs.filter (fun v => isOutputParam (env.bind v).2.param_type)).length : Int) ∧
    (BoundDatumSet.bind env s vs).2.err = s.err ∧
    (BoundDatumSet.bind env s vs).2.first_error = s.first_error := by
  unfold BoundDatumSet.bind
  by_cases hc : vs.length > 0
  · simp only [hc, if_true]
    obtain ⟨h1, h2, h3, h4⟩ := bind_loop_all_ok env vs hall 0 true
      { s with _output_param_count := 0 }
    exact ⟨h1, by rw [h2]; simp, h3, h4⟩
  · have hnil : vs = [] := List.length_eq_zero.mp (by omega)
    subst hnil
    simp

/-- Every binding pushed by the column loop of `tvp` is the binding of one of the columns. -/
theorem tvp_loop_mem {V J : Type} (env : BindEnv V J) (cols : List V) (b : BoundDatum)
    (hb : b ∈ BoundDatumSet.tvp_loop env cols) : ∃ p ∈ cols, b = (env.bind p).2 := by
  induction cols with
  | nil => simp [BoundDatumSet.tvp_loop] at hb
  | cons p rest ih =>
    rw [BoundDatumSet.tvp_loop] at hb
    by_cases hp : (env.bind p).1 = true
    · simp only [hp, Bool.not_true, Bool.false_eq_true, if_false, List.mem_cons] at hb
      rcases hb with hb | hb
      · exact ⟨p, List.mem_cons_self _ _, hb⟩
      · obtain ⟨q, hq, hbq⟩ := ih hb
        exact ⟨q, List.mem_cons_of_mem _ hq, hbq⟩
    · simp [hp] at hb

/-- The output-direction bindings contributed by one value none of whose pushed nested
columns has an output direction. -/
theorem filter_bound_of {V J : Type} (env : BindEnv V J) (v : V)
    (hcols : (env.bind v).2.is_tvp = true → ∀ cols, env.table_value_param v = .array cols →
      ∀ b ∈ BoundDatumSet.tvp_loop env cols, isOutputParam b.param_type = false) :
    ((bound_of env v).filter (fun b => isOutputParam b.param_type)).length
      = if isOutputParam (env.bind v).2.param_type then 1 else 0 := by
  unfold bound_of
  by_cases ht : (env.bind v).2.is_tvp = true
  · simp only [ht, if_true, List.filter_cons]
    have hnested : ∀ l : List BoundDatum,
        l = (match env.table_value_param v with
              | .array cols => BoundDatumSet.tvp_loop env cols
              | _ => []) →
        l.filter (fun b => isOutputParam b.param_type) = [] := by
      intro l hl
      rw [List.filter_eq_nil_iff]
      intro b hb
      cases hprop : env.table_value_param v with
      | null => rw [hl, hprop] at hb; simp at hb
      | other => rw [hl, hprop] at hb; simp at hb
      | array cols =>
        rw [hl, hprop] at hb
        rw [hcols ht cols hprop b hb]
        simp
    rw [hnested _ rfl]
    by_cases ho : isOutputParam (env.bind v).2.param_type = true <;> simp [ho]
  · by_cases ho : isOutputParam (env.bind v).2.param_type = true <;>
      simp [ht, ho, List.filter_cons]

/-- Counting output-direction bindings of a set built from values none of whose pushed
nested columns has an output direction amounts to counting the output-direction values. -/
theorem filter_flatMap_bound_of {V J : Type} (env : BindEnv V J) (vs : List V)
    (hcols : ∀ v ∈ vs, (env.bind v).2.is_tvp = true →
      ∀ cols, env.table_value_param v = .array cols →
      ∀ b ∈ BoundDatumSet.tvp_loop env cols, isOutputParam b.param_type = false) :
    ((vs.flatMap (bound_of env)).filter (fun b => isOutputParam b.param_type)).length
      = (vs.filter (fun v => isOutputParam (env.bind v).2.param_type)).length := by
  induction vs with
  | nil => simp
  | cons v rest ih =>
    have hv := filter_bound_of env v (hcols v (List.mem_cons_self _ _))
    have hrest := ih (fun u hu => hcols u (List.mem_cons_of_mem _ hu))
    simp only [List.flatMap_cons, List.filter_append, List.length_append, hv, hrest,
      List.filter_cons]
    by_cases ho : isOutputParam (env.bind v).2.param_type = true
    · simp [ho]; omega
    · simp [ho]

/-- The counter after the loop of `bind` has stopped at the first failing value, which
follows `pre`: the output-direction values of `pre` and the failing value itself. -/
theorem bind_loop_first_fail_count {V J : Type} (env : BindEnv V J) (pre : List V) (v : V)
    (post : List V) (hpre : ∀ u ∈ pre, (env.bind u).1 = true) (hv : (env.bind v).1 = false)
    (i : Nat) (res : Bool) (s : BoundDatumSet) :
    (BoundDatumSet.bind_loop env (pre ++ v :: post) i res s).2._output_param_count
      = s._output_param_count +
        ((pre.filter (fun u => isOutputParam (env.bind u).2.param_type)).length : Int) +
        (if isOutputParam (env.bind v).2.param_type then 1 else 0) := by
  induction pre generalizing i res s with
  | nil =>
    simp only [List.nil_append]
    rw [bind_loop_cons_fail env v post i res s hv]
    simp [(count_output_frame s (env.bind v).2).2.2.2]
  | cons u rest ih =>
    have hu : (env.bind u).1 = true := hpre u (List.mem_cons_self _ _)
    have hrest : ∀ w ∈ rest, (env.bind w).1 = true :=
      fun w hw => hpre w (List.mem_cons_of_mem _ hw)
    simp only [List.cons_append]
    rw [bind_loop_cons_ok env u _ i res s hu]
    rw [ih hrest (i + 1)]
    obtain ⟨-, p2, -, -⟩ :=
      push_bound_spec env (BoundDatumSet.count_output s (env.bind u).2) u true
    obtain ⟨-, -, -, c4⟩ := count_output_frame s (env.bind u).2
    rw [p2, c4]
    by_cases ho : isOutputParam (env.bind u).2.param_type = true
    · simp [ho, List.filter_cons]; ring
    · simp [ho, List.filter_cons]

/-- The first element that `dropWhile` keeps does not satisfy the predicate. -/
theorem dropWhile_head_fails {α : Type} (p : α → Bool) (l : List α) (v : α) (post : List α)
    (h : l.dropWhile p = v :: post) : p v = false := by
  induction l with
  | nil => simp at h
  | cons a t ih =>
    rw [List.dropWhile_cons] at h
    by_cases ha : p a = true
    · rw [if_pos ha] at h
      exact ih h
    · rw [if_neg ha] at h
      simp only [List.cons.injEq] at h
      rw [← h.1]
      simpa using ha

/-- The fold of `unbind` started on an array whose holes are exactly as many as the
output-direction bindings still to come fills every hole, in order. -/
theorem unbind_fold {V J : Type} (env : BindEnv V J) (bs : List BoundDatum) (done : List J)
    (k : Nat) (hk : k = (bs.filter (fun b => isOutputParam b.param_type)).length) :
    (bs.foldl
      (fun (acc : List (Option J) × Nat) param =>
        if isOutputParam param.param_type then
          (arraySet acc.1 acc.2 (env.unbind param), acc.2 + 1)
        else acc)
      (done.map some ++ List.replicate k none, done.length)).1
    = (done ++ (bs.filter (fun b => isOutputParam b.param_type)).map env.unbind).map some := by
  induction bs generalizing done k with
  | nil =>
    simp at hk
    subst hk
    simp
  | cons b rest ih =>
    by_cases ho : isOutputParam b.param_type = true
    · simp only [List.filter_cons, ho, if_true, List.length_cons] at hk
      simp only [List.foldl_cons, ho, if_true, List.filter_cons, List.map_cons]
      have hset : arraySet (done.map some ++ List.replicate k none) done.length (env.unbind b)
          = (done ++ [env.unbind b]).map some ++
              List.replicate (rest.filter (fun b => isOutputParam b.param_type)).length none := by
        unfold arraySet
        have hlt : done.length < (done.map some ++ List.replicate k none).length := by
          simp; omega
        rw [if_pos hlt, hk, List.replicate_succ]
        rw [List.set_append_right _ _ (by simp)]
        simp
      rw [hset]
      have := ih (done ++ [env.unbind b]) _ rfl
      simp only [List.length_append, List.length_singleton] at this
      rw [this]
      simp
    · simp only [List.filter_cons, ho] at hk
      simp only [List.foldl_cons, ho, List.filter_cons]
      exact ih done k hk

/-- C1: when the value at index `k` is the first of the list whose bind fails, `bind`
returns failure, `first_error` is `k`, `err` is the error of that value's binding, and
the set holds exactly the bindings of the values before index `k` (each with its nested
table columns): the same bindings as binding only the first `k` values, so none for index
`k` or any later index. -/
theorem C1_bind_stops_at_first_failure {V J : Type} (env : BindEnv V J) (s : BoundDatumSet)
    (vs : List V) (k : Nat) (hk : k < vs.length)
    (hfail : (env.bind vs[k]).1 = false)
    (hfirst : ∀ j (hj : j < vs.length), j < k → (env.bind vs[j]).1 = true) :
    (BoundDatumSet.bind env s vs).1 = false ∧
    (BoundDatumSet.bind env s vs).2.first_error = k ∧
    (BoundDatumSet.bind env s vs).2.err = (env.bind vs[k]).2.err ∧
    (BoundDatumSet.bind env s vs).2._bindings
      = s._bindings ++ (vs.take k).flatMap (bound_of env) ∧
    (BoundDatumSet.bind env s vs).2._bindings
      = (BoundDatumSet.bind env s (vs.take k)).2._bindings := by
  have hsplit : vs = vs.take k ++ vs[k] :: vs.drop (k + 1) := by
    rw [← List.drop_eq_getElem_cons hk, List.take_append_drop]
  have hpre : ∀ u ∈ vs.take k, (env.bind u).1 = true := by
    intro u hu
    obtain ⟨j, hj, rfl⟩ := List.getElem_of_mem hu
    have hjk : j < k := by
      have := List.length_take_le k vs
      omega
    have hjl : j < vs.length := by omega
    rw [List.getElem_take]
    exact hfirst j hjl hjk
  have hlen : (vs.take k).length = k := by
    rw [List.length_take]; omega
  have hpos : vs.length > 0 := by omega
  have hloop := bind_loop_first_fail env (vs.take k) vs[k] (vs.drop (k + 1)) hpre hfail 0 true
    { s with _output_param_count := 0 }
  rw [← hsplit, hlen] at hloop
  obtain ⟨h1, h2, h3, h4⟩ := hloop
  have hbind : BoundDatumSet.bind env s vs
      = BoundDatumSet.bind_loop env vs 0 true { s with _output_param_count := 0 } := by
    unfold BoundDatumSet.bind
    simp [hpos]
  rw [hbind]
  refine ⟨h1, by rw [h2]; simp, h3, h4, ?_⟩
  rw [h4, (bind_all_ok env s (vs.take k) hpre).1]

/-- C1 at a concrete list: the third value is the first that fails. -/
theorem C1_bind_stops_at_first_failure_witness :
    (BoundDatumSet.bind sampleEnv BoundDatumSet.new [1, 6, 2, 0]).1 = false ∧
    (BoundDatumSet.bind sampleEnv BoundDatumSet.new [1, 6, 2, 0]).2.first_error = 2 ∧
    (BoundDatumSet.bind sampleEnv BoundDatumSet.new [1, 6, 2, 0]).2.err = some "bad output" ∧
    (BoundDatumSet.bind sampleEnv BoundDatumSet.new [1, 6, 2, 0]).2._bindings.length = 4 := by
  have h := C1_bind_stops_at_first_failure sampleEnv BoundDatumSet.new [1, 6, 2, 0] 2
    (by decide) (by decide)
    (by
      intro j hj hjk
      have hj01 : j = 0 ∨ j = 1 := by omega
      rcases hj01 with rfl | rfl <;> rfl)
  refine ⟨h.1, h.2.1, ?_, ?_⟩
  · rw [h.2.2.1]; decide
  · rw [h.2.2.2.1]; decide

/-- C2 (as stated) fails: a value whose bind fails after its direction was set to output is
counted by `bind` but never pushed, so `output_count` is 1 while the set holds no output
binding, and `unbind` returns an array with one hole instead of no value. A nested table
column is pushed without being counted, so if its binding has an output direction
`output_count` is 0 while the set holds one output binding. -/
theorem C2_output_count_counterexample :
    (BoundDatumSet.bind sampleEnv BoundDatumSet.new [2]).2._output_param_count
      ≠ ((outputBindings (BoundDatumSet.bind sampleEnv BoundDatumSet.new [2]).2).length : Int) ∧
    BoundDatumSet.unbind sampleEnv (BoundDatumSet.bind sampleEnv BoundDatumSet.new [2]).2
      ≠ (outputBindings (BoundDatumSet.bind sampleEnv BoundDatumSet.new [2]).2).map
          (fun b => some (sampleEnv.unbind b)) ∧
    (BoundDatumSet.bind sampleEnv BoundDatumSet.new [7]).2._output_param_count
      ≠ ((outputBindings (BoundDatumSet.bind sampleEnv BoundDatumSet.new [7]).2).length : Int) := by
  decide

/-- C2 (amended): after `bind` of any value list on a fresh set, provided that the value
at which `bind` stops (the first one whose bind fails, if there is one) does not have an
output direction and that no nested table column pushed into the set has an output
direction, `output_count` is exactly the number of bindings in the set whose direction is
output or input-output, and `unbind` returns exactly the values of those bindings, one per
binding, in position order. The values before the first failing one are
`vs.takeWhile`, the failing one is the head of `vs.dropWhile`; values after it are never
looked at and are unconstrained. -/
theorem C2_output_count_and_unbind {V J : Type} (env : BindEnv V J) (vs : List V)
    (hstop : ∀ v, (vs.dropWhile (fun u => (env.bind u).1)).head? = some v →
      isOutputParam (env.bind v).2.param_type = false)
    (hcols : ∀ v ∈ vs.takeWhile (fun u => (env.bind u).1), (env.bind v).2.is_tvp = true →
      ∀ cols, env.table_value_param v = .array cols →
      ∀ b ∈ BoundDatumSet.tvp_loop env cols, isOutputParam b.param_type = false) :
    (BoundDatumSet.bind env BoundDatumSet.new vs).2._output_param_count
      = ((outputBindings (BoundDatumSet.bind env BoundDatumSet.new vs).2).length : Int) ∧
    BoundDatumSet.unbind env (BoundDatumSet.bind env BoundDatumSet.new vs).2
      = (outputBindings (BoundDatumSet.bind env BoundDatumSet.new vs).2).map
          (fun b => some (env.unbind b)) := by
  have hsplit : vs.takeWhile (fun u => (env.bind u).1) ++ vs.dropWhile (fun u => (env.bind u).1)
      = vs := List.takeWhile_append_dropWhile _ _
  have hpre : ∀ u ∈ vs.takeWhile (fun u => (env.bind u).1), (env.bind u).1 = true :=
    fun u hu => List.mem_takeWhile_imp (p := fun u => (env.bind u).1) hu
  have hcount : (BoundDatumSet.bind env BoundDatumSet.new vs).2._output_param_count
      = ((outputBindings (BoundDatumSet.bind env BoundDatumSet.new vs).2).length : Int) := by
    cases hdrop : vs.dropWhile (fun u => (env.bind u).1) with
    | nil =>
      rw [hdrop, List.append_nil] at hsplit
      rw [hsplit] at hpre hcols
      obtain ⟨h1, h2, -, -⟩ := bind_all_ok env BoundDatumSet.new vs hpre
      rw [h2]
      unfold outputBindings
      rw [h1]
      simp only [BoundDatumSet.new, List.nil_append]
      rw [filter_flatMap_bound_of env vs hcols]
    | cons v post =>
      have hv : (env.bind v).1 = false :=
        dropWhile_head_fails (fun u => (env.bind u).1) vs v post hdrop
      have hout : isOutputParam (env.bind v).2.param_type = false :=
        hstop v (by rw [hdrop]; rfl)
      rw [hdrop] at hsplit
      have hpos : vs.length > 0 := by
        rw [← hsplit]; simp
      have hbind : BoundDatumSet.bind env BoundDatumSet.new vs
          = BoundDatumSet.bind_loop env
              (vs.takeWhile (fun u => (env.bind u).1) ++ v :: post) 0 true
              { BoundDatumSet.new with _output_param_count := 0 } := by
        unfold BoundDatumSet.bind
        simp only [hpos, if_true]
        rw [hsplit]
      rw [hbind]
      rw [bind_loop_first_fail_count env _ v post hpre hv]
      unfold outputBindings
      rw [(bind_loop_first_fail env _ v post hpre hv 0 true _).2.2.2]
      simp only [BoundDatumSet.new, List.nil_append, hout]
      rw [filter_flatMap_bound_of env _ hcols]
      simp
  refine ⟨hcount, ?_⟩
  unfold BoundDatumSet.unbind
  simp only [hcount, newArray, Int.toNat_ofNat]
  have hfold := unbind_fold env (BoundDatumSet.bind env BoundDatumSet.new vs).2._bindings []
    (outputBindings (BoundDatumSet.bind env BoundDatumSet.new vs).2).length rfl
  simp only [List.map_nil, List.nil_append, List.length_nil] at hfold
  rw [hfold]
  simp [outputBindings, Function.comp_def]

/-- C2 (amended) at two concrete lists: one that binds, with two outputs, an input and a
table, and one that stops at its third value, which fails with an input direction, after
an output and a table; the failing output value behind it is never looked at. -/
theorem C2_output_count_and_unbind_witness :
    ((BoundDatumSet.bind sampleEnv BoundDatumSet.new [1, 0, 6, 1]).2._output_param_count = 2 ∧
      BoundDatumSet.unbind sampleEnv
        (BoundDatumSet.bind sampleEnv BoundDatumSet.new [1, 0, 6, 1]).2
          = [some 4, some 4]) ∧
    ((BoundDatumSet.bind sampleEnv BoundDatumSet.new [1, 6, 4, 2]).1 = false ∧
      (BoundDatumSet.bind sampleEnv BoundDatumSet.new [1, 6, 4, 2]).2._output_param_count = 1 ∧
      BoundDatumSet.unbind sampleEnv
        (BoundDatumSet.bind sampleEnv BoundDatumSet.new [1, 6, 4, 2]).2
          = [some 4]) := by
  have hnested : ∀ v ∈ [1, 0, 6], (sampleEnv.bind v).2.is_tvp = true →
      ∀ cols, sampleEnv.table_value_param v = .array cols →
      ∀ b ∈ BoundDatumSet.tvp_loop sampleEnv cols, isOutputParam b.param_type = false := by
    intro v hv _ cols hc b hb
    simp only [List.mem_cons, List.mem_singleton, List.not_mem_nil, or_false] at hv
    rcases hv with rfl | rfl | rfl
    · simp [sampleEnv] at hc
    · simp [sampleEnv] at hc
    · simp only [sampleEnv] at hc
      simp at hc
      subst hc
      have hb2 : b ∈ [sampleDatum SQL_PARAM_INPUT false, sampleDatum SQL_PARAM_INPUT false] := hb
      simp only [List.mem_cons, List.mem_singleton, List.not_mem_nil, or_false] at hb2
      rcases hb2 with rfl | rfl <;> decide
  have h1 := C2_output_count_and_unbind sampleEnv [1, 0, 6, 1]
    (by intro v hv; simp [sampleEnv] at hv)
    (by
      intro v hv
      have hv2 : v ∈ [1, 0, 6, 1] := hv
      simp only [List.mem_cons, List.mem_singleton, List.not_mem_nil, or_false] at hv2
      rcases hv2 with rfl | rfl | rfl | rfl
      · exact hnested 1 (by simp)
      · exact hnested 0 (by simp)
      · exact hnested 6 (by simp)
      · exact hnested 1 (by simp))
  have h2 := C2_output_count_and_unbind sampleEnv [1, 6, 4, 2]
    (by
      intro v hv
      have hv2 : some 4 = some v := hv
      simp only [Option.some.injEq] at hv2
      subst hv2
      decide)
    (by
      intro v hv
      have hv2 : v ∈ [1, 6] := hv
      simp only [List.mem_cons, List.mem_singleton, List.not_mem_nil, or_false] at hv2
      rcases hv2 with rfl | rfl
      · exact hnested 1 (by simp)
      · exact hnested 6 (by simp))
  refine ⟨⟨?_, ?_⟩, by decide, ?_, ?_⟩
  · rw [h1.1]; decide
  · rw [h1.2]; decide
  · rw [h2.1]; decide
  · rw [h2.2]; decide

/-- C3 (the code at the failing input): value 5 is a table-valued parameter with two
columns whose first column fails to bind. `bind` returns success, records no error, and
the set holds the table binding alone, which announces two columns (`tvp_no_cols`). -/
theorem C3_tvp_column_failure_reported_as_success :
    (BoundDatumSet.bind sampleEnv BoundDatumSet.new [5]).1 = true ∧
    (BoundDatumSet.bind sampleEnv BoundDatumSet.new [5]).2.err = none ∧
    (BoundDatumSet.bind sampleEnv BoundDatumSet.new [5]).2._bindings
      = [{ sampleDatum SQL_PARAM_INPUT true with tvp_no_cols := 2 }] ∧
    (sampleEnv.bind 4).1 = false ∧
    sampleEnv.table_value_param 5 = .array [4, 0] := by
  refine ⟨by decide, by decide, by decide, by decide, rfl⟩

/-! ## OdbcStatement: cancel and polling -/

/-- C4: `cancel` returns success exactly when `polling_enabled` is true and then sets
`cancel_requested`; with polling disabled it returns failure, records the error with state
`CANCEL` and native code -1 and leaves `cancel_requested` as it was; nothing else changes.
`setPolling` always returns success and changes only `polling_enabled`. -/
theorem C4_cancel_and_setPolling {D : Type} (s : OdbcStatement D) (mode : Bool) :
    s.cancel.1 = s._pollingEnabled ∧
    s.cancel.2._cancelRequested = (s._pollingEnabled || s._cancelRequested) ∧
    s.cancel.2.error =
      (if s._pollingEnabled then s.error
       else some { sqlstate := "CANCEL",
                   message := "Error: [msnodesql] cancel only supported for statements where polling is enabled.",
                   code := -1 }) ∧
    s.cancel.2 = { s with _cancelRequested := s.cancel.2._cancelRequested,
                          error := s.cancel.2.error } ∧
    (s.setPolling mode).1 = true ∧
    (s.setPolling mode).2 = { s with _pollingEnabled := mode } := by
  unfold OdbcStatement.cancel OdbcStatement.setPolling
  cases hp : s._pollingEnabled <;> simp [cancelUnsupportedError]

/-! ## OdbcStatement: execution -/

@[simp] theorem ReturnOdbcError_resultset {D : Type} (drv : Driver D) (s : OdbcStatement D) :
    (ReturnOdbcError drv s).2.resultset = s.resultset := rfl

@[simp] theorem CheckOdbcError_resultset {D : Type} (drv : Driver D) (s : OdbcStatement D)
    (ret : Int) : (CheckOdbcError drv s ret).2.resultset = s.resultset := by
  unfold CheckOdbcError
  split <;> simp

theorem readColAttributes_resultset {D : Type} (drv : Driver D) (s : OdbcStatement D)
    (current : ColumnDefinition) (column : Nat) :
    (readColAttributes drv s current column).2.2.resultset = s.resultset := by
  unfold readColAttributes
  simp only
  split_ifs <;> simp

theorem setMetadata_isSome {D : Type} (s : OdbcStatement D) (column : Nat)
    (current : ColumnDefinition) :
    (setMetadata s column current).resultset.isSome = s.resultset.isSome := by
  unfold setMetadata
  cases s.resultset <;> simp

theorem readNext_isSome {D : Type} (drv : Driver D) (s : OdbcStatement D) (column : Nat) :
    (readNext drv s column).2.resultset.isSome = s.resultset.isSome := by
  unfold readNext
  simp only
  split_ifs <;> simp [setMetadata_isSome, readColAttributes_resultset]

theorem StartReadingResults_loop_isSome {D : Type} (drv : Driver D) (remaining column : Nat)
    (s : OdbcStatement D) :
    (StartReadingResults_loop drv remaining column s).2.resultset.isSome
      = s.resultset.isSome := by
  induction remaining generalizing column s with
  | zero => simp [StartReadingResults_loop]
  | succ n ih =>
    rw [StartReadingResults_loop]
    split_ifs
    · simp [readNext_isSome]
    · rw [ih, readNext_isSome]

/-- A successful `StartReadingResults` leaves a result set. -/
theorem StartReadingResults_isSome {D : Type} (drv : Driver D) (s : OdbcStatement D)
    (h : (StartReadingResults drv s).1 = true) :
    (StartReadingResults drv s).2.resultset.isSome = true := by
  unfold StartReadingResults at h ⊢
  simp only at h ⊢
  split_ifs at h ⊢ with h1 h2 h3
  simp [StartReadingResults_loop_isSome]

theorem EndOfRows_setEndOfRows {D : Type} (s : OdbcStatement D) (b : Bool)
    (h : s.resultset.isSome = true) : EndOfRows (setEndOfRows s b) = some b := by
  unfold EndOfRows setEndOfRows
  cases hrs : s.resultset with
  | none => rw [hrs] at h; simp at h
  | some rs => simp

theorem metadata_setEndOfRows {D : Type} (s : OdbcStatement D) (b : Bool) :
    (setEndOfRows s b).resultset.map (fun rs => rs.metadata)
      = s.resultset.map (fun rs => rs.metadata) := by
  unfold setEndOfRows
  cases s.resultset <;> simp

/-- The branch of `TryExecuteDirect` taken for success-with-info and for error codes. -/
theorem TryExecuteDirect_finish_diag {D : Type} (drv : Driver D) (s : OdbcStatement D)
    (ret : Int) (paramSet : BoundDatumSet)
    (hret : ret = SQL_SUCCESS_WITH_INFO ∨ (ret ≠ SQL_NO_DATA ∧ SQL_SUCCEEDED ret = false)) :
    (TryExecuteDirect_finish drv s ret paramSet).1 = false ∧
    (TryExecuteDirect_finish drv s ret paramSet).2.error = (drv.ReadErrors s.statement).1 ∧
    (TryExecuteDirect_finish drv s ret paramSet).2.statement
      = (StartReadingResults drv
          { (ReturnOdbcError drv s).2 with boundParamsSet := some paramSet }).2.statement ∧
    ((StartReadingResults drv
          { (ReturnOdbcError drv s).2 with boundParamsSet := some paramSet }).1 = true →
      EndOfRows (TryExecuteDirect_finish drv s ret paramSet).2 = some false ∧
      (TryExecuteDirect_finish drv s ret paramSet).2.resultset.map (fun rs => rs.metadata)
        = (StartReadingResults drv
            { (ReturnOdbcError drv s).2 with boundParamsSet := some paramSet }).2.resultset.map
            (fun rs => rs.metadata)) ∧
    ((StartReadingResults drv
          { (ReturnOdbcError drv s).2 with boundParamsSet := some paramSet }).1 = false →
      (TryExecuteDirect_finish drv s ret paramSet).2.resultset
        = some { ResultSet.new 0 with endOfRows := true }) := by
  unfold TryExecuteDirect_finish
  rw [if_pos hret]
  simp only
  by_cases hd : (StartReadingResults drv
      { (ReturnOdbcError drv s).2 with boundParamsSet := some paramSet }).1 = true
  · have hsome := StartReadingResults_isSome drv _ hd
    rw [if_pos hd]
    refine ⟨rfl, rfl, rfl, ?_, ?_⟩
    · intro _
      exact ⟨EndOfRows_setEndOfRows _ _ hsome, metadata_setEndOfRows _ _⟩
    · intro hf
      rw [hf] at hd
      simp at hd
  · rw [if_neg hd]
    refine ⟨rfl, rfl, rfl, ?_, ?_⟩
    · intro ht
      exact absurd ht hd
    · intro _
      rfl

/-- C5: when the execute of `TryExecuteDirect` (after its polling) returns
success-with-info, the method reads the diagnostic, still runs the column description,
reports failure with that diagnostic as the statement's error whatever the description
step recorded, and, whenever the description succeeds, exposes the described columns with
`end_of_rows` false. -/
theorem C5_success_with_info_keeps_diagnostic_and_rows {D : Type} (drv : Driver D)
    (fuel : Nat) (s : OdbcStatement D) (query : String) (timeout : Nat)
    (paramSet : BoundDatumSet) (s1 : OdbcStatement D)
    (hsub : TryExecuteDirect_submit drv fuel s query timeout paramSet
      = some (.inr (SQL_SUCCESS_WITH_INFO, s1))) :
    ∃ s', TryExecuteDirect drv fuel s query timeout paramSet = some (false, s') ∧
      s'.error = (drv.ReadErrors s1.statement).1 ∧
      s'.statement = (StartReadingResults drv
          { (ReturnOdbcError drv s1).2 with boundParamsSet := some paramSet }).2.statement ∧
      ((StartReadingResults drv
          { (ReturnOdbcError drv s1).2 with boundParamsSet := some paramSet }).1 = true →
        EndOfRows s' = some false ∧
        s'.resultset.map (fun rs => rs.metadata)
          = (StartReadingResults drv
              { (ReturnOdbcError drv s1).2 with boundParamsSet := some paramSet }).2.resultset.map
              (fun rs => rs.metadata)) := by
  obtain ⟨h1, h2, h3, h4, -⟩ :=
    TryExecuteDirect_finish_diag drv s1 SQL_SUCCESS_WITH_INFO paramSet (Or.inl rfl)
  refine ⟨(TryExecuteDirect_finish drv s1 SQL_SUCCESS_WITH_INFO paramSet).2, ?_, h2, h3, h4⟩
  unfold TryExecuteDirect
  rw [hsub]
  simp only
  rw [← h1]

/-- C6 (as stated) fails: the driver answers the execute with an error and the later
describe calls with success and one column; `TryExecuteDirect` returns failure but the
statement exposes one column with `end_of_rows` false. -/
theorem C6_error_still_exposes_described_columns :
    (TryExecuteDirect (scriptedDriver { okScript with exec := SQL_ERROR }) 0
        (OdbcStatement.new 0) "select 1" 0 noParams).map
      (fun r => (r.1, r.2.resultset.map (fun rs => (rs.GetColumns, rs.endOfRows))))
    = some (false, some (1, false)) := by
  decide

/-- C5 at a concrete run: the execute answers success-with-info as the first driver call,
so the reported diagnostic is the one read right after it (native code 1), and the
described result set is readable. -/
theorem C5_success_with_info_keeps_diagnostic_and_rows_witness :
    ∃ s', TryExecuteDirect (scriptedDriver { okScript with exec := SQL_SUCCESS_WITH_INFO }) 0
        (OdbcStatement.new 0) "select 1" 0 noParams = some (false, s') ∧
      s'.error = some { sqlstate := "01000", message := "diagnostic", code := 1 } ∧
      EndOfRows s' = some false := by
  obtain ⟨s', h1, h2, -, h4⟩ := C5_success_with_info_keeps_diagnostic_and_rows
    (scriptedDriver { okScript with exec := SQL_SUCCESS_WITH_INFO }) 0
    (OdbcStatement.new 0) "select 1" 0 noParams _ rfl
  exact ⟨s', h1, by rw [h2]; rfl, (h4 (by decide)).1⟩

/-- C6 (amended): when the execute of `TryExecuteDirect` returns a code other than
success, success-with-info and no-data, the method returns failure and reports the
diagnostic of the execute; it still runs the column description: if that fails the
statement exposes zero columns with `end_of_rows` true, and if it succeeds the described
columns are exposed with `end_of_rows` false. -/
theorem C6_error_code_reports_failure {D : Type} (drv : Driver D) (fuel : Nat)
    (s : OdbcStatement D) (query : String) (timeout : Nat) (paramSet : BoundDatumSet)
    (ret : Int) (s1 : OdbcStatement D)
    (hsub : TryExecuteDirect_submit drv fuel s query timeout paramSet = some (.inr (ret, s1)))
    (h0 : ret ≠ SQL_SUCCESS) (h1 : ret ≠ SQL_SUCCESS_WITH_INFO) (h2 : ret ≠ SQL_NO_DATA) :
    ∃ s', TryExecuteDirect drv fuel s query timeout paramSet = some (false, s') ∧
      s'.error = (drv.ReadErrors s1.statement).1 ∧
      ((StartReadingResults drv
          { (ReturnOdbcError drv s1).2 with boundParamsSet := some paramSet }).1 = false →
        s'.resultset.map (fun rs => (rs.GetColumns, rs.endOfRows)) = some (0, true)) ∧
      ((StartReadingResults drv
          { (ReturnOdbcError drv s1).2 with boundParamsSet := some paramSet }).1 = true →
        EndOfRows s' = some false ∧
        s'.resultset.map (fun rs => rs.metadata)
          = (StartReadingResults drv
              { (ReturnOdbcError drv s1).2 with boundParamsSet := some paramSet }).2.resultset.map
              (fun rs => rs.metadata)) := by
  have hfail : SQL_SUCCEEDED ret = false := by
    unfold SQL_SUCCEEDED
    simp only [SQL_SUCCESS, SQL_SUCCESS_WITH_INFO] at h0 h1
    simp [h0, h1]
  obtain ⟨g1, g2, -, g4, g5⟩ :=
    TryExecuteDirect_finish_diag drv s1 ret paramSet (Or.inr ⟨h2, hfail⟩)
  refine ⟨(TryExecuteDirect_finish drv s1 ret paramSet).2, ?_, g2, ?_, g4⟩
  · unfold TryExecuteDirect
    rw [hsub]
    simp only
    rw [← g1]
  · intro hd
    rw [g5 hd]
    rfl

/-- C6 (amended) at a concrete run: the execute and the describe calls answer with an
error; the statement then exposes zero columns, and the error is the execute's. -/
theorem C6_error_code_reports_failure_witness :
    ∃ s', TryExecuteDirect
        (scriptedDriver { okScript with exec := SQL_ERROR, describe := SQL_ERROR }) 0
        (OdbcStatement.new 0) "select 1" 0 noParams = some (false, s') ∧
      s'.error = some { sqlstate := "01000", message := "diagnostic", code := 1 } ∧
      s'.resultset.map (fun rs => (rs.GetColumns, rs.endOfRows)) = some (0, true) := by
  obtain ⟨s', h1, h2, h3, -⟩ := C6_error_code_reports_failure
    (scriptedDriver { okScript with exec := SQL_ERROR, describe := SQL_ERROR }) 0
    (OdbcStatement.new 0) "select 1" 0 noParams SQL_ERROR _ rfl
    (by decide) (by decide) (by decide)
  exact ⟨s', h1, by rw [h2]; rfl, h3 (by decide)⟩

/-! ## OdbcStatement: type dispatch -/

/-- On a successful read with a non-null indicator `d_Time` builds the timestamp from the
default date of the configuration and the time fields written by the driver. -/
theorem d_Time_value {D : Type} (cfg : Config) (drv : Driver D) (s : OdbcStatement D)
    (column : Nat)
    (hok : SQL_SUCCEEDED (drv.SQLGetDataTime2 (column + 1) s.statement).1 = true)
    (hnn : (drv.SQLGetDataTime2 (column + 1) s.statement).2.2.1 ≠ SQL_NULL_DATA) :
    d_Time cfg drv s column = some (true,
      SetColumn { s with statement := (drv.SQLGetDataTime2 (column + 1) s.statement).2.2.2 }
        (.TimestampColumnOf
          { year := cfg.SQL_SERVER_DEFAULT_YEAR, month := cfg.SQL_SERVER_DEFAULT_MONTH,
            day := cfg.SQL_SERVER_DEFAULT_DAY,
            hour := (drv.SQLGetDataTime2 (column + 1) s.statement).2.1.hour,
            minute := (drv.SQLGetDataTime2 (column + 1) s.statement).2.1.minute,
            second := (drv.SQLGetDataTime2 (column + 1) s.statement).2.1.second,
            fraction := (drv.SQLGetDataTime2 (column + 1) s.statement).2.1.fraction,
            timezone_hour := 0, timezone_minute := 0 })) := by
  unfold d_Time CheckOdbcError
  simp [hok, hnn]

/-- C7 (as stated) fails: the codes `SQL_C_SLONG` and `SQL_SS_VARIANT` are not listed, so
the table sends them to text; `dispatch` decodes the first as an integer, and reading a
variant column whose underlying type is integer yields an integer too, where the text
decoder yields a string. -/
theorem C7_unlisted_codes_are_not_all_text :
    specStrategy SQL_C_SLONG = .text ∧ specStrategy SQL_SS_VARIANT = .text ∧
    (dispatch defaultConfig (scriptedDriver okScript) (fun _ _ => none)
        (oneColumnStatement SQL_C_SLONG) SQL_C_SLONG 0).map (fun r => currentColumn r.2)
      = some (some (.IntColumn (DatumStorage.new.ReserveInt64 1))) ∧
    (TryReadColumn defaultConfig (scriptedDriver okScript) 2
        (oneColumnStatement SQL_SS_VARIANT) 0).map (fun r => currentColumn r.2)
      = some (some (.IntColumn (DatumStorage.new.ReserveInt64 1))) ∧
    (runStrategy defaultConfig (scriptedDriver okScript) (oneColumnStatement SQL_C_SLONG) 0
        .text).map (fun r => currentColumn r.2)
      = some (some (.StringColumn
          { DatumStorage.new with uint16vec_ptr := [0, 0] } 2 false)) := by
  refine ⟨by decide, by decide, by decide, by decide, by decide⟩

/-- C7 (amended): for every SQL type code other than the variant code and the six C
integer codes, `dispatch` runs the decoder the specification's table names, text being
the fallback for every other unlisted code; the variant code runs the variant decoder,
which re-dispatches on the underlying type; the C integer codes run the integer decoder;
and for time and time2 the decoder builds, from a successful non-null read, a timestamp
whose year, month and day are the configured default date and whose hour, minute, second
and fraction are the driver's. -/
theorem C7_dispatch_follows_table {D : Type} (cfg : Config) (drv : Driver D)
    (reread : OdbcStatement D → Nat → Option (Bool × OdbcStatement D))
    (s : OdbcStatement D) (column : Nat) (t : Int) :
    (t ≠ SQL_SS_VARIANT → t ∉ integerCTypeCodes →
      dispatch cfg drv reread s t column = runStrategy cfg drv s column (specStrategy t)) ∧
    dispatch cfg drv reread s SQL_SS_VARIANT column = d_Variant drv reread s column ∧
    (t ∈ integerCTypeCodes → dispatch cfg drv reread s t column = d_Integer drv s column) ∧
    (t = SQL_TYPE_TIME ∨ t = SQL_SS_TIME2 →
      SQL_SUCCEEDED (drv.SQLGetDataTime2 (column + 1) s.statement).1 = true →
      (drv.SQLGetDataTime2 (column + 1) s.statement).2.2.1 ≠ SQL_NULL_DATA →
      dispatch cfg drv reread s t column = some (true,
        SetColumn { s with statement := (drv.SQLGetDataTime2 (column + 1) s.statement).2.2.2 }
          (.TimestampColumnOf
            { year := cfg.SQL_SERVER_DEFAULT_YEAR, month := cfg.SQL_SERVER_DEFAULT_MONTH,
              day := cfg.SQL_SERVER_DEFAULT_DAY,
              hour := (drv.SQLGetDataTime2 (column + 1) s.statement).2.1.hour,
              minute := (drv.SQLGetDataTime2 (column + 1) s.statement).2.1.minute,
              second := (drv.SQLGetDataTime2 (column + 1) s.statement).2.1.second,
              fraction := (drv.SQLGetDataTime2 (column + 1) s.statement).2.1.fraction,
              timezone_hour := 0, timezone_minute := 0 }))) := by
  refine ⟨?_, ?_, ?_, ?_⟩
  · intro hv hc
    by_cases hl : t ∈ listedCodes
    · simp only [listedCodes, List.mem_cons, List.mem_singleton, List.not_mem_nil,
        or_false] at hl
      rcases hl with rfl | rfl | rfl | rfl | rfl | rfl | rfl | rfl | rfl | rfl | rfl | rfl |
        rfl | rfl | rfl | rfl | rfl | rfl | rfl | rfl | rfl | rfl | rfl | rfl | rfl | rfl |
        rfl | rfl | rfl <;> rfl
    · simp only [integerCTypeCodes, List.mem_cons, List.mem_singleton, List.not_mem_nil,
        or_false, not_or] at hc
      simp only [listedCodes, List.mem_cons, List.mem_singleton, List.not_mem_nil,
        or_false, not_or] at hl
      obtain ⟨a1, a2, a3, a4, a5, a6, a7, a8, a9, a10, a11, a12, a13, a14, a15, a16, a17,
        a18, a19, a20, a21, a22, a23, a24, a25, a26, a27, a28, a29⟩ := hl
      obtain ⟨c1, c2, c3, c4, c5, c6⟩ := hc
      unfold dispatch specStrategy
      simp only [List.mem_cons, List.mem_singleton, List.not_mem_nil, or_false, hv, a1, a2,
        a3, a4, a5, a6, a7, a8, a9, a10, a11, a12, a13, a14, a15, a16, a17, a18, a19, a20,
        a21, a22, a23, a24, a25, a26, a27, a28, a29, c1, c2, c3, c4, c5, c6, or_self,
        if_false, runStrategy]
  · rfl
  · intro hc
    simp only [integerCTypeCodes, List.mem_cons, List.mem_singleton, List.not_mem_nil,
      or_false] at hc
    rcases hc with rfl | rfl | rfl | rfl | rfl | rfl <;> rfl
  · intro ht hok hnn
    rw [← d_Time_value cfg drv s column hok hnn]
    rcases ht with rfl | rfl <;> rfl

/-- C7 (amended) at concrete codes: `SQL_DOUBLE` runs the double decoder, `SQL_C_ULONG`
the integer decoder, and a time column read as 13:45:07.0000005 comes back on
1900-01-01. -/
theorem C7_dispatch_follows_table_witness :
    dispatch defaultConfig (scriptedDriver okScript) (fun _ _ => none)
        (oneColumnStatement SQL_DOUBLE) SQL_DOUBLE 0
      = d_Decimal (scriptedDriver okScript) (oneColumnStatement SQL_DOUBLE) 0 ∧
    dispatch defaultConfig (scriptedDriver okScript) (fun _ _ => none)
        (oneColumnStatement SQL_C_ULONG) SQL_C_ULONG 0
      = d_Integer (scriptedDriver okScript) (oneColumnStatement SQL_C_ULONG) 0 ∧
    (dispatch defaultConfig (scriptedDriver okScript) (fun _ _ => none)
        (oneColumnStatement SQL_SS_TIME2) SQL_SS_TIME2 0).map (fun r => currentColumn r.2)
      = some (some (.TimestampColumnOf
          { year := 1900, month := 1, day := 1, hour := 13, minute := 45, second := 7,
            fraction := 500, timezone_hour := 0, timezone_minute := 0 })) := by
  refine ⟨?_, ?_, ?_⟩
  · exact (C7_dispatch_follows_table defaultConfig (scriptedDriver okScript) (fun _ _ => none)
      (oneColumnStatement SQL_DOUBLE) 0 SQL_DOUBLE).1 (by decide) (by decide)
  · exact (C7_dispatch_follows_table defaultConfig (scriptedDriver okScript) (fun _ _ => none)
      (oneColumnStatement SQL_C_ULONG) 0 SQL_C_ULONG).2.2.1 (by decide)
  · rw [(C7_dispatch_follows_table defaultConfig (scriptedDriver okScript) (fun _ _ => none)
      (oneColumnStatement SQL_SS_TIME2) 0 SQL_SS_TIME2).2.2.2 (Or.inr rfl) (by decide)
      (by decide)]
    rfl

/-! ## OdbcStatement: null indicators -/

/-- The unprepared path of the typed decoders: a successful read whose indicator is the
SQL-null sentinel sets a `NullColumn`. -/
theorem getDataWith_null {D : Type} (drv : Driver D) (s : OdbcStatement D) (column : Nat)
    (target : TargetType) (storage : DatumStorage) (buflen : Nat) (mk : DatumStorage → Column)
    (hok : SQL_SUCCEEDED (drv.SQLGetData (column + 1) target storage buflen s.statement).1 = true)
    (hnull : (drv.SQLGetData (column + 1) target storage buflen s.statement).2.2.1
      = SQL_NULL_DATA) :
    getDataWith drv s column target storage buflen mk
      = (true, SetColumn
          { s with statement :=
              (drv.SQLGetData (column + 1) target storage buflen s.statement).2.2.2 }
          .NullColumn) := by
  unfold getDataWith CheckOdbcError
  simp [hok, hnull]

/-- C8 (the code at the failing input): on a prepared statement whose bound indicator is
the SQL-null sentinel, `TryReadColumn` succeeds with a current column that is not Null for
the integer, boolean, double, timestamp, offset-timestamp, binary and text strategies; for
the integer column it is an `IntColumn` over the bound storage. -/
theorem C8_prepared_null_indicator_is_not_null :
    (∀ t ∈ [SQL_INTEGER, SQL_BIT, SQL_DOUBLE, SQL_TYPE_TIMESTAMP, SQL_SS_TIMESTAMPOFFSET,
        SQL_VARBINARY, SQL_WVARCHAR],
      (TryReadColumn defaultConfig (scriptedDriver okScript) 1 (preparedNullStatement t) 0).map
          (fun r => (r.1, decide (currentColumn r.2 = some .NullColumn)))
        = some (true, false)) ∧
    (TryReadColumn defaultConfig (scriptedDriver okScript) 1
        (preparedNullStatement SQL_INTEGER) 0).map (fun r => currentColumn r.2)
      = some (some (.IntColumn DatumStorage.new)) ∧
    nullBoundColumn.indvec = [SQL_NULL_DATA] := by
  refine ⟨by decide, by decide, rfl⟩

/-! ## OdbcStatement: result-set sequencing -/

/-- C10 (as stated) fails: after an execute, the driver answers more-results with no-data
and the next fetch with success (or with an error); `TryReadNextResult` returns success
with `end_of_results` true, yet the following `TryReadRow` leaves `end_of_rows` false, and
in the first case reports a row. -/
theorem C10_row_reported_after_end_of_results :
    (TryExecuteDirect (scriptedDriver { okScript with more := SQL_NO_DATA }) 0
        (OdbcStatement.new 0) "select 1" 0 noParams).map
      (fun r =>
        (r.1, (TryReadNextResult (scriptedDriver { okScript with more := SQL_NO_DATA }) r.2).1,
          endOfResults
            (TryReadNextResult (scriptedDriver { okScript with more := SQL_NO_DATA }) r.2).2,
          (TryReadRow (scriptedDriver { okScript with more := SQL_NO_DATA })
            (TryReadNextResult (scriptedDriver { okScript with more := SQL_NO_DATA }) r.2).2).1,
          EndOfRows (TryReadRow (scriptedDriver { okScript with more := SQL_NO_DATA })
            (TryReadNextResult (scriptedDriver { okScript with more := SQL_NO_DATA }) r.2).2).2))
      = some (true, true, true, true, some false) ∧
    (TryExecuteDirect (scriptedDriver { okScript with more := SQL_NO_DATA, fetch := SQL_ERROR }) 0
        (OdbcStatement.new 0) "select 1" 0 noParams).map
      (fun r =>
        (endOfResults (TryReadNextResult
            (scriptedDriver { okScript with more := SQL_NO_DATA, fetch := SQL_ERROR }) r.2).2,
          EndOfRows (TryReadRow
            (scriptedDriver { okScript with more := SQL_NO_DATA, fetch := SQL_ERROR })
            (TryReadNextResult
              (scriptedDriver { okScript with more := SQL_NO_DATA, fetch := SQL_ERROR }) r.2).2).2))
      = some (true, some false) := by
  refine ⟨by decide, by decide⟩

/-- C10 (amended): when the driver answers more-results with no-data (the statement not
being in the cancelled state, so that the driver is asked), `TryReadNextResult` returns
success and `end_of_results` is true; for a prepared statement the cursor is closed, and
the bound buffers and the result set, with its `end_of_rows`, are kept as they were. A
later `TryReadRow` on a statement with a result set keeps `end_of_results` and leaves
`end_of_rows` true exactly when the driver answers that fetch with no-data. -/
theorem C10_no_more_results {D : Type} (drv : Driver D) (s : OdbcStatement D)
    (hstate : s._statementState ≠ .STATEMENT_CANCELLED)
    (hmore : (drv.SQLMoreResults s.statement).1 = SQL_NO_DATA) :
    (TryReadNextResult drv s).1 = true ∧
    endOfResults (TryReadNextResult drv s).2 = true ∧
    (TryReadNextResult drv s).2.statement
      = (if s._prepared then (drv.SQLCloseCursor (drv.SQLMoreResults s.statement).2).2
         else (drv.SQLMoreResults s.statement).2) ∧
    (TryReadNextResult drv s).2._preparedStorage = s._preparedStorage ∧
    (TryReadNextResult drv s).2.resultset = s.resultset ∧
    (∀ s2 : OdbcStatement D, s2.resultset.isSome = true →
      endOfResults (TryReadRow drv s2).2 = endOfResults s2 ∧
      EndOfRows (TryReadRow drv s2).2
        = some (decide ((drv.SQLFetch s2.statement).1 = SQL_NO_DATA))) := by
  refine ⟨?_, ?_, ?_, ?_, ?_, ?_⟩
  · unfold TryReadNextResult
    simp only [hstate, hmore, if_true, if_false]
    split_ifs <;> rfl
  · unfold TryReadNextResult endOfResults
    simp only [hstate, hmore, if_true, if_false]
    split_ifs <;> rfl
  · unfold TryReadNextResult
    simp only [hstate, hmore, if_true, if_false]
    split_ifs <;> rfl
  · unfold TryReadNextResult
    simp only [hstate, hmore, if_true, if_false]
    split_ifs <;> rfl
  · unfold TryReadNextResult
    simp only [hstate, hmore, if_true, if_false]
    split_ifs <;> rfl
  · intro s2 hrs
    obtain ⟨rs, hrs⟩ := Option.isSome_iff_exists.mp hrs
    unfold TryReadRow
    rw [hrs]
    simp only
    by_cases hf : (drv.SQLFetch s2.statement).1 = SQL_NO_DATA
    · simp [hf, endOfResults, EndOfRows, setEndOfRows, hrs]
    · simp only [hf, if_false, decide_False]
      unfold CheckOdbcError
      split_ifs <;> simp [endOfResults, EndOfRows, setEndOfRows, hrs, ReturnOdbcError]

/-- C10 (amended) at a concrete run on a prepared statement: more-results answers no-data,
the cursor is closed (two driver calls), and a fetch answered with no-data leaves
`end_of_rows` true. -/
theorem C10_no_more_results_witness :
    (TryReadNextResult (scriptedDriver { okScript with more := SQL_NO_DATA, fetch := SQL_NO_DATA })
        (preparedNullStatement SQL_INTEGER)).1 = true ∧
    (TryReadNextResult (scriptedDriver { okScript with more := SQL_NO_DATA, fetch := SQL_NO_DATA })
        (preparedNullStatement SQL_INTEGER)).2.statement = 2 ∧
    EndOfRows (TryReadRow (scriptedDriver { okScript with more := SQL_NO_DATA, fetch := SQL_NO_DATA })
        (TryReadNextResult
          (scriptedDriver { okScript with more := SQL_NO_DATA, fetch := SQL_NO_DATA })
          (preparedNullStatement SQL_INTEGER)).2).2 = some true := by
  have h := C10_no_more_results
    (scriptedDriver { okScript with more := SQL_NO_DATA, fetch := SQL_NO_DATA })
    (preparedNullStatement SQL_INTEGER) (by decide) (by decide)
  refine ⟨h.1, ?_, ?_⟩
  · rw [h.2.2.1]; decide
  · rw [(h.2.2.2.2.2 _ (by decide)).2]; decide

/-! ## OdbcStatement: large-object streaming -/

theorem CheckOdbcError_ok {D : Type} (drv : Driver D) (s : OdbcStatement D) (ret : Int)
    (h : SQL_SUCCEEDED ret = true) : CheckOdbcError drv s ret = (true, s) := by
  unfold CheckOdbcError
  simp [h]

theorem toSizeT_double (n : Nat) (h : 2 * n < 2 ^ 63) : toSizeT (2 * (n : Int)) / 2 = n := by
  unfold toSizeT
  have h1 : (2 * (n : Int)) % 2 ^ 64 = 2 * (n : Int) := by
    apply Int.emod_eq_of_lt <;> omega
  rw [h1]
  omega

theorem vresize_le {α : Type} (zero : α) (n : Nat) (v : List α) (h : n ≤ v.length) :
    vresize zero n v = v.take n := by
  unfold vresize
  have : n - v.length = 0 := by omega
  simp [this]

theorem dispatch_text {D : Type} (cfg : Config) (drv : Driver D)
    (reread : OdbcStatement D → Nat → Option (Bool × OdbcStatement D))
    (s : OdbcStatement D) (column : Nat) (t : Int) (ht : t ∈ textCodes) :
    dispatch cfg drv reread s t column = TryReadString cfg drv s column := by
  simp only [textCodes, List.mem_cons, List.mem_singleton, List.not_mem_nil, or_false] at ht
  rcases ht with rfl | rfl | rfl | rfl | rfl | rfl | rfl | rfl <;> rfl

/-- One read of `Lob` from a packet-serving driver: the next packet, flagged `more`
exactly when more than a packet remained. -/
theorem Lob_serves_packet {D : Type} (cfg : Config) (drv : Driver D) (column : Nat)
    (remaining : D → List Nat) (hserve : ServesLob cfg drv column remaining)
    (hP : cfg.LOB_PACKET_SIZE < 2 ^ 31) (s : OdbcStatement D) :
    ∃ c d', Lob cfg drv s column = (true, SetColumn { s with statement := d' } c) ∧
      remaining d' = (remaining s.statement).drop cfg.LOB_PACKET_SIZE ∧
      c.chars = (remaining s.statement).take cfg.LOB_PACKET_SIZE ∧
      c.More = decide (cfg.LOB_PACKET_SIZE < (remaining s.statement).length) := by
  have hbuf : (DatumStorage.new.ReserveUint16 (cfg.LOB_PACKET_SIZE + 1)).uint16vec_ptr.length
      = cfg.LOB_PACKET_SIZE + 1 := by
    simp [DatumStorage.ReserveUint16]
  obtain ⟨hok, hlen, htake, hrem, hmore, hlast⟩ := hserve.packet s.statement _ hbuf
  unfold Lob
  simp only
  generalize drv.SQLGetData (column + 1) .C_WCHAR
    (DatumStorage.new.ReserveUint16 (cfg.LOB_PACKET_SIZE + 1))
    ((cfg.LOB_PACKET_SIZE + 1) * 2) s.statement = r at hok hlen htake hrem hmore hlast ⊢
  rw [CheckOdbcError_ok _ _ _ hok]
  simp only [Bool.not_true, Bool.false_eq_true, if_false]
  by_cases hlt : cfg.LOB_PACKET_SIZE < (remaining s.statement).length
  · have hcond : r.2.2.1 = SQL_NO_TOTAL ∨ toSizeT r.2.2.1 / 2 > cfg.LOB_PACKET_SIZE := by
      rcases hmore hlt with h | ⟨h1, h2⟩
      · exact Or.inl h
      · right
        rw [h1, toSizeT_double _ h2]
        exact hlt
    have hnn : r.2.2.1 ≠ SQL_NULL_DATA := by
      rcases hmore hlt with h | ⟨h1, _⟩
      · rw [h]; decide
      · rw [h1]; unfold SQL_NULL_DATA; omega
    rw [if_neg hnn, if_pos hcond]
    refine ⟨_, r.2.2.2, rfl, hrem, ?_, ?_⟩
    · simp only [Column.chars, Int.toNat_ofNat, List.take_length]
      rw [vresize_le _ _ _ (by omega)]
      have hmin : min cfg.LOB_PACKET_SIZE (remaining s.statement).length
          = cfg.LOB_PACKET_SIZE := by omega
      rw [hmin] at htake
      exact htake
    · simp [Column.More, hlt]
  · have hle : (remaining s.statement).length ≤ cfg.LOB_PACKET_SIZE := by omega
    have hind := hlast hle
    have hsmall : 2 * (remaining s.statement).length < 2 ^ 63 := by
      have : (2 : Nat) ^ 31 * 2 < 2 ^ 63 := by norm_num
      omega
    have hdiv : toSizeT r.2.2.1 / 2 = (remaining s.statement).length := by
      rw [hind, toSizeT_double _ hsmall]
    have hnn : r.2.2.1 ≠ SQL_NULL_DATA := by
      rw [hind]; unfold SQL_NULL_DATA; omega
    have hcond : ¬ (r.2.2.1 = SQL_NO_TOTAL ∨ toSizeT r.2.2.1 / 2 > cfg.LOB_PACKET_SIZE) := by
      rw [hdiv]
      intro h
      rcases h with h | h
      · rw [hind] at h; unfold SQL_NO_TOTAL at h; omega
      · omega
    rw [if_neg hnn, if_neg hcond]
    refine ⟨_, r.2.2.2, rfl, hrem, ?_, ?_⟩
    · simp only [Column.chars, Int.toNat_ofNat, List.take_length]
      rw [hdiv, vresize_le _ _ _ (by omega)]
      have hmin : min cfg.LOB_PACKET_SIZE (remaining s.statement).length
          = (remaining s.statement).length := by omega
      rw [hmin] at htake
      exact htake
    · simp [Column.More, hlt]

/-- One `TryReadColumn` of a text column served as a large object. -/
theorem TryReadColumn_lob_step {D : Type} (cfg : Config) (drv : Driver D) (column : Nat)
    (remaining : D → List Nat) (hserve : ServesLob cfg drv column remaining)
    (hP : cfg.LOB_PACKET_SIZE < 2 ^ 31) (depth : Nat) (s : OdbcStatement D) (rs : ResultSet)
    (definition : ColumnDefinition) (hrs : s.resultset = some rs)
    (hcol : rs.metadata[column]? = some definition) (htext : definition.dataType ∈ textCodes) :
    ∃ c s1, TryReadColumn cfg drv (depth + 1) s column = some (true, s1) ∧
      currentColumn s1 = some c ∧
      s1.resultset = some { rs with column := some c } ∧
      remaining s1.statement = (remaining s.statement).drop cfg.LOB_PACKET_SIZE ∧
      c.chars = (remaining s.statement).take cfg.LOB_PACKET_SIZE ∧
      c.More = decide (cfg.LOB_PACKET_SIZE < (remaining s.statement).length) := by
  obtain ⟨hok, hlob, hrem⟩ := hserve.display_size s.statement
  rw [TryReadColumn]
  simp only [hrs, hcol]
  rw [dispatch_text _ _ _ _ _ _ htext]
  unfold TryReadString
  simp only
  generalize drv.SQLColAttributeNumeric (column + 1) .SQL_DESC_DISPLAY_SIZE s.statement = r
    at hok hlob hrem ⊢
  rw [CheckOdbcError_ok _ _ _ hok]
  simp only [Bool.not_true, Bool.false_eq_true, if_false, hlob, if_true]
  obtain ⟨c, d', hL, h1, h2, h3⟩ :=
    Lob_serves_packet cfg drv column remaining hserve hP { s with statement := r.2.2 }
  rw [hL]
  refine ⟨c, _, rfl, ?_, ?_, ?_, ?_, ?_⟩
  · simp [currentColumn, SetColumn, hrs]
  · simp [SetColumn, hrs]
  · rw [← hrem]; exact h1
  · rw [← hrem]; exact h2
  · rw [← hrem]; exact h3

/-- The caller's loop over a text column served as a large object: with enough reads it
ends, and the chunks are the packets of the remaining text. -/
theorem readColumnUntilDone_lob {D : Type} (cfg : Config) (drv : Driver D) (column : Nat)
    (remaining : D → List Nat) (hserve : ServesLob cfg drv column remaining)
    (hP0 : 0 < cfg.LOB_PACKET_SIZE) (hP : cfg.LOB_PACKET_SIZE < 2 ^ 31) (depth reads : Nat) :
    ∀ (s : OdbcStatement D) (rs : ResultSet) (definition : ColumnDefinition),
      s.resultset = some rs → rs.metadata[column]? = some definition →
      definition.dataType ∈ textCodes →
      (remaining s.statement).length / cfg.LOB_PACKET_SIZE < reads →
      ∃ pre last s', readColumnUntilDone cfg drv (depth + 1) reads s column
          = some (pre ++ [last], s') ∧
        ((pre ++ [last]).map Column.chars).flatten = remaining s.statement ∧
        (∀ c ∈ pre, c.More = true) ∧ last.More = false := by
  induction reads with
  | zero => intro s rs definition _ _ _ h; exact absurd h (Nat.not_lt_zero _)
  | succ n ih =>
    intro s rs definition hrs hcol htext hreads
    obtain ⟨c, s1, hread, hcur, hrs1, hrem, hchars, hmore⟩ :=
      TryReadColumn_lob_step cfg drv column remaining hserve hP depth s rs definition hrs hcol
        htext
    rw [readColumnUntilDone]
    simp only [hread, hcur, Bool.not_true, Bool.false_eq_true, if_false]
    by_cases hlt : cfg.LOB_PACKET_SIZE < (remaining s.statement).length
    · have hm : c.More = true := by rw [hmore]; simp [hlt]
      have hreads1 : (remaining s1.statement).length / cfg.LOB_PACKET_SIZE < n := by
        rw [hrem, List.length_drop]
        have h1 := Nat.sub_mul_div (remaining s.statement).length cfg.LOB_PACKET_SIZE 1
          (by omega)
        rw [Nat.mul_one] at h1
        rw [h1]
        have h2 : 1 ≤ (remaining s.statement).length / cfg.LOB_PACKET_SIZE :=
          (Nat.one_le_div_iff hP0).mpr (by omega)
        generalize (remaining s.statement).length / cfg.LOB_PACKET_SIZE = q at hreads h2 ⊢
        omega
      obtain ⟨pre, last, s', hloop, hcat, hpre, hlast⟩ :=
        ih s1 { rs with column := some c } definition hrs1 hcol htext hreads1
      refine ⟨c :: pre, last, s', ?_, ?_, ?_, hlast⟩
      · simp [hm, hloop]
      · simp only [List.cons_append, List.map_cons, List.flatten_cons, hcat, hchars, hrem]
        exact List.take_append_drop _ _
      · intro x hx
        rcases List.mem_cons.mp hx with rfl | hx
        · exact hm
        · exact hpre x hx
    · have hm : c.More = false := by rw [hmore]; simp [hlt]
      refine ⟨[], c, s1, ?_, ?_, ?_, hm⟩
      · simp [hm]
      · simp only [List.nil_append, List.map_cons, List.map_nil, List.flatten_cons,
          List.flatten_nil, List.append_nil, hchars]
        exact List.take_of_length_le (by omega)
      · intro x hx
        simp at hx

/-- The driver `lobDriver` serves its state as a large object in packets. -/
theorem lobDriver_serves (cfg : Config) (column : Nat) (hP : cfg.LOB_PACKET_SIZE < 2 ^ 31) :
    ServesLob cfg lobDriver column id := by
  constructor
  · intro d
    simp [lobDriver, SQL_SUCCEEDED, SQL_SUCCESS, isLobDisplaySize]
  · intro d buf hb
    have hn : (cfg.LOB_PACKET_SIZE + 1) * 2 / 2 - 1 = cfg.LOB_PACKET_SIZE := by
      rw [Nat.mul_div_cancel _ (by norm_num)]
      omega
    simp only [lobDriver, id]
    rw [hn]
    refine ⟨?_, ?_, ?_, rfl, ?_, ?_⟩
    · unfold SQL_SUCCEEDED SQL_SUCCESS_WITH_INFO SQL_SUCCESS
      split_ifs <;> simp
    · simp only [List.length_append, List.length_replicate, List.length_take, hb]
      omega
    · rw [List.take_append_of_le_length (by simp)]
      rw [List.take_take]
      by_cases hle : d.length ≤ cfg.LOB_PACKET_SIZE
      · rw [List.take_of_length_le (by omega), List.take_of_length_le hle]
      · congr 1
        omega
    · intro hlt
      by_cases h63 : 2 * d.length < 2 ^ 63
      · right
        exact ⟨if_pos h63, h63⟩
      · left
        exact if_neg h63
    · intro hle
      have h63 : 2 * d.length < 2 ^ 63 := by
        have : (2 : Nat) ^ 31 * 2 < 2 ^ 63 := by norm_num
        omega
      exact if_pos h63

/-- C9: for a text column holding the string `remaining s.statement`, of any length,
that the driver serves as a large object in packets of `LOB_PACKET_SIZE` characters,
reading the column repeatedly until the value read has `more` false ends within
`length / LOB_PACKET_SIZE + 1` reads; the chunks read, concatenated in order, are the
string, every chunk but the last has `more` true, and the last has `more` false. -/
theorem C9_lob_chunks_concatenate {D : Type} (cfg : Config) (drv : Driver D) (column : Nat)
    (remaining : D → List Nat) (hserve : ServesLob cfg drv column remaining)
    (hP0 : 0 < cfg.LOB_PACKET_SIZE) (hP : cfg.LOB_PACKET_SIZE < 2 ^ 31) (depth reads : Nat)
    (s : OdbcStatement D) (rs : ResultSet) (definition : ColumnDefinition)
    (hrs : s.resultset = some rs) (hcol : rs.metadata[column]? = some definition)
    (htext : definition.dataType ∈ textCodes)
    (hreads : (remaining s.statement).length / cfg.LOB_PACKET_SIZE < reads) :
    ∃ pre last s', readColumnUntilDone cfg drv (depth + 1) reads s column
        = some (pre ++ [last], s') ∧
      ((pre ++ [last]).map Column.chars).flatten = remaining s.statement ∧
      (∀ c ∈ pre, c.More = true) ∧ last.More = false :=
  readColumnUntilDone_lob cfg drv column remaining hserve hP0 hP depth reads s rs definition
    hrs hcol htext hreads

/-- C9 at a concrete run: the ten characters of "large text" served in packets of four
characters are read back in three chunks. -/
theorem C9_lob_chunks_concatenate_witness :
    ∃ pre last s', readColumnUntilDone { defaultConfig with LOB_PACKET_SIZE := 4 } lobDriver 1 3
        (lobStatement [108, 97, 114, 103, 101, 32, 116, 101, 120, 116]) 0
        = some (pre ++ [last], s') ∧
      ((pre ++ [last]).map Column.chars).flatten
        = [108, 97, 114, 103, 101, 32, 116, 101, 120, 116] ∧
      (∀ c ∈ pre, c.More = true) ∧ last.More = false :=
  C9_lob_chunks_concatenate { defaultConfig with LOB_PACKET_SIZE := 4 } lobDriver 0 id
    (lobDriver_serves { defaultConfig with LOB_PACKET_SIZE := 4 } 0 (by decide))
    (by decide) (by decide) 0 3
    (lobStatement [108, 97, 114, 103, 101, 32, 116, 101, 120, 116]) _ _ rfl rfl (by decide)
    (by decide)

/-! ## OdbcStatement: reading rows -/

/-- C15: `TryReadRow` on a statement with a result set calls fetch once. On no-data it
reports success, `end_of_rows` becomes true and the state is unchanged; on a row (a
succeeded code) it reports success, `end_of_rows` becomes false and the state becomes
Fetching; on any other code it reports failure, the state becomes Error and the driver's
diagnostic is recorded. Without a result set it reports failure and leaves the statement,
driver state included, untouched. `ReadRowOperation` passes these results on. -/
theorem C15_TryReadRow_outcomes {D : Type} (drv : Driver D) (s : OdbcStatement D) :
    (s.resultset.isSome = true → (drv.SQLFetch s.statement).1 = SQL_NO_DATA →
      (TryReadRow drv s).1 = true ∧ EndOfRows (TryReadRow drv s).2 = some true ∧
      (TryReadRow drv s).2._statementState = s._statementState ∧
      (TryReadRow drv s).2.statement = (drv.SQLFetch s.statement).2) ∧
    (s.resultset.isSome = true → SQL_SUCCEEDED (drv.SQLFetch s.statement).1 = true →
      (TryReadRow drv s).1 = true ∧ EndOfRows (TryReadRow drv s).2 = some false ∧
      (TryReadRow drv s).2._statementState = .STATEMENT_FETCHING ∧
      (TryReadRow drv s).2.statement = (drv.SQLFetch s.statement).2) ∧
    (s.resultset.isSome = true → (drv.SQLFetch s.statement).1 ≠ SQL_NO_DATA →
      SQL_SUCCEEDED (drv.SQLFetch s.statement).1 = false →
      (TryReadRow drv s).1 = false ∧
      (TryReadRow drv s).2._statementState = .STATEMENT_ERROR ∧
      (TryReadRow drv s).2.error = (drv.ReadErrors (drv.SQLFetch s.statement).2).1) ∧
    (s.resultset = none → TryReadRow drv s = (false, s)) ∧
    (ReadRowOperation.TryInvokeOdbc drv (some s)).1 = (TryReadRow drv s).1 ∧
    ReadRowOperation.CreateCompletionArg (ReadRowOperation.TryInvokeOdbc drv (some s)).2
      = EndOfRows (TryReadRow drv s).2 ∧
    ReadRowOperation.TryInvokeOdbc drv (none : Option (OdbcStatement D)) = (false, none) := by
  refine ⟨?_, ?_, ?_, ?_, rfl, rfl, rfl⟩
  · intro hrs hf
    obtain ⟨rs, hrs⟩ := Option.isSome_iff_exists.mp hrs
    unfold TryReadRow
    rw [hrs]
    simp [hf, EndOfRows, setEndOfRows, hrs]
  · intro hrs hok
    obtain ⟨rs, hrs⟩ := Option.isSome_iff_exists.mp hrs
    have hnd : (drv.SQLFetch s.statement).1 ≠ SQL_NO_DATA := by
      intro h
      rw [h] at hok
      exact absurd hok (by decide)
    unfold TryReadRow
    rw [hrs]
    simp only [hnd, if_false]
    rw [CheckOdbcError_ok _ _ _ hok]
    simp [EndOfRows, setEndOfRows, hrs]
  · intro hrs hnd hfail
    obtain ⟨rs, hrs⟩ := Option.isSome_iff_exists.mp hrs
    unfold TryReadRow
    rw [hrs]
    simp only [hnd, if_false]
    unfold CheckOdbcError
    simp [hfail, ReturnOdbcError, setEndOfRows]
  · intro hrs
    unfold TryReadRow
    rw [hrs]

/-- C15 at concrete runs: a fetch answered with a row, with no-data and with an error. -/
theorem C15_TryReadRow_outcomes_witness :
    (TryReadRow (scriptedDriver okScript) (oneColumnStatement SQL_INTEGER)).2._statementState
      = .STATEMENT_FETCHING ∧
    EndOfRows (TryReadRow (scriptedDriver { okScript with fetch := SQL_NO_DATA })
      (oneColumnStatement SQL_INTEGER)).2 = some true ∧
    (TryReadRow (scriptedDriver { okScript with fetch := SQL_ERROR })
      (oneColumnStatement SQL_INTEGER)).2._statementState = .STATEMENT_ERROR :=
  ⟨((C15_TryReadRow_outcomes (scriptedDriver okScript)
      (oneColumnStatement SQL_INTEGER)).2.1 (by decide) (by decide)).2.2.1,
   ((C15_TryReadRow_outcomes (scriptedDriver { okScript with fetch := SQL_NO_DATA })
      (oneColumnStatement SQL_INTEGER)).1 (by decide) (by decide)).2.1,
   ((C15_TryReadRow_outcomes (scriptedDriver { okScript with fetch := SQL_ERROR })
      (oneColumnStatement SQL_INTEGER)).2.2.1 (by decide) (by decide) (by decide)).2.1⟩

/-! ## OdbcStatement: driver failures while reading a column -/

/-- C12 (the code at the failing input): on an unprepared statement the driver answers
get-column-data with an error. For an integer, boolean, timestamp or offset-timestamp
column `TryReadColumn` returns success, although the state is Error and the diagnostic is
recorded; for a double column it returns failure. -/
theorem C12_integer_read_error_returns_success :
    (∀ t ∈ [SQL_INTEGER, SQL_BIT, SQL_TYPE_TIMESTAMP, SQL_SS_TIMESTAMPOFFSET],
      (TryReadColumn defaultConfig (scriptedDriver { okScript with getData := SQL_ERROR }) 1
          (oneColumnStatement t) 0).map
        (fun r => (r.1, r.2._statementState, r.2.error, currentColumn r.2))
      = some (true, .STATEMENT_ERROR,
          some { sqlstate := "01000", message := "diagnostic", code := 1 }, none)) ∧
    (TryReadColumn defaultConfig (scriptedDriver { okScript with getData := SQL_ERROR }) 1
        (oneColumnStatement SQL_DOUBLE) 0).map (fun r => (r.1, r.2._statementState))
      = some (false, .STATEMENT_ERROR) := by
  refine ⟨by decide, by decide⟩

/-! ## OdbcStatement: one packet of a large object -/

theorem vresize_length {α : Type} (zero : α) (n : Nat) (v : List α) :
    (vresize zero n v).length = n := by
  unfold vresize
  simp only [List.length_append, List.length_take, List.length_replicate]
  omega

theorem toSizeT_half_of_nonneg (L : Int) (h0 : 0 ≤ L) (h1 : L < 2 ^ 63) :
    ((toSizeT L / 2 : Nat) : Int) = L / 2 := by
  unfold toSizeT
  have h : L % 2 ^ 64 = L := Int.emod_eq_of_lt h0 (by omega)
  rw [h]
  omega

/-- C14: in `Lob`, for every read that succeeds with an indicator `L` other than the null
sentinel, the value is a `StringColumn` whose `more` flag is true exactly when `L` is the
no-total sentinel or `L / 2` (the unsigned division of the source, which is the plain half
for a byte length `0 ≤ L`) exceeds `LOB_PACKET_SIZE`; then the chunk is the buffer resized
to exactly `LOB_PACKET_SIZE` characters; otherwise the chunk is the buffer resized to
exactly `L / 2` characters, which is at most `LOB_PACKET_SIZE`. -/
theorem C14_Lob_more_and_chunk {D : Type} (cfg : Config) (drv : Driver D)
    (s : OdbcStatement D) (column : Nat) (hrs : s.resultset.isSome = true)
    (hok : SQL_SUCCEEDED (drv.SQLGetData (column + 1) .C_WCHAR
      (DatumStorage.new.ReserveUint16 (cfg.LOB_PACKET_SIZE + 1))
      ((cfg.LOB_PACKET_SIZE + 1) * 2) s.statement).1 = true)
    (hnn : (drv.SQLGetData (column + 1) .C_WCHAR
      (DatumStorage.new.ReserveUint16 (cfg.LOB_PACKET_SIZE + 1))
      ((cfg.LOB_PACKET_SIZE + 1) * 2) s.statement).2.2.1 ≠ SQL_NULL_DATA) :
    ∃ st more, (Lob cfg drv s column).1 = true ∧
      currentColumn (Lob cfg drv s column).2
        = some (.StringColumn st st.uint16vec_ptr.length more) ∧
      (more = true ↔
        ((drv.SQLGetData (column + 1) .C_WCHAR
            (DatumStorage.new.ReserveUint16 (cfg.LOB_PACKET_SIZE + 1))
            ((cfg.LOB_PACKET_SIZE + 1) * 2) s.statement).2.2.1 = SQL_NO_TOTAL ∨
          toSizeT (drv.SQLGetData (column + 1) .C_WCHAR
            (DatumStorage.new.ReserveUint16 (cfg.LOB_PACKET_SIZE + 1))
            ((cfg.LOB_PACKET_SIZE + 1) * 2) s.statement).2.2.1 / 2 > cfg.LOB_PACKET_SIZE)) ∧
      (more = true →
        st.uint16vec_ptr.length = cfg.LOB_PACKET_SIZE ∧
        st.uint16vec_ptr = vresize 0 cfg.LOB_PACKET_SIZE
          (drv.SQLGetData (column + 1) .C_WCHAR
            (DatumStorage.new.ReserveUint16 (cfg.LOB_PACKET_SIZE + 1))
            ((cfg.LOB_PACKET_SIZE + 1) * 2) s.statement).2.1.uint16vec_ptr) ∧
      (more = false →
        st.uint16vec_ptr.length
          = toSizeT (drv.SQLGetData (column + 1) .C_WCHAR
              (DatumStorage.new.ReserveUint16 (cfg.LOB_PACKET_SIZE + 1))
              ((cfg.LOB_PACKET_SIZE + 1) * 2) s.statement).2.2.1 / 2 ∧
        st.uint16vec_ptr.length ≤ cfg.LOB_PACKET_SIZE ∧
        st.uint16vec_ptr = vresize 0
          (toSizeT (drv.SQLGetData (column + 1) .C_WCHAR
              (DatumStorage.new.ReserveUint16 (cfg.LOB_PACKET_SIZE + 1))
              ((cfg.LOB_PACKET_SIZE + 1) * 2) s.statement).2.2.1 / 2)
          (drv.SQLGetData (column + 1) .C_WCHAR
            (DatumStorage.new.ReserveUint16 (cfg.LOB_PACKET_SIZE + 1))
            ((cfg.LOB_PACKET_SIZE + 1) * 2) s.statement).2.1.uint16vec_ptr) ∧
      (0 ≤ (drv.SQLGetData (column + 1) .C_WCHAR
            (DatumStorage.new.ReserveUint16 (cfg.LOB_PACKET_SIZE + 1))
            ((cfg.LOB_PACKET_SIZE + 1) * 2) s.statement).2.2.1 →
        (drv.SQLGetData (column + 1) .C_WCHAR
            (DatumStorage.new.ReserveUint16 (cfg.LOB_PACKET_SIZE + 1))
            ((cfg.LOB_PACKET_SIZE + 1) * 2) s.statement).2.2.1 < 2 ^ 63 →
        ((toSizeT (drv.SQLGetData (column + 1) .C_WCHAR
            (DatumStorage.new.ReserveUint16 (cfg.LOB_PACKET_SIZE + 1))
            ((cfg.LOB_PACKET_SIZE + 1) * 2) s.statement).2.2.1 / 2 : Nat) : Int)
          = (drv.SQLGetData (column + 1) .C_WCHAR
            (DatumStorage.new.ReserveUint16 (cfg.LOB_PACKET_SIZE + 1))
            ((cfg.LOB_PACKET_SIZE + 1) * 2) s.statement).2.2.1 / 2) := by
  obtain ⟨rs, hrs⟩ := Option.isSome_iff_exists.mp hrs
  unfold Lob
  simp only
  generalize drv.SQLGetData (column + 1) .C_WCHAR
    (DatumStorage.new.ReserveUint16 (cfg.LOB_PACKET_SIZE + 1))
    ((cfg.LOB_PACKET_SIZE + 1) * 2) s.statement = r at hok hnn ⊢
  rw [CheckOdbcError_ok _ _ _ hok]
  simp only [Bool.not_true, Bool.false_eq_true, if_false, if_neg hnn]
  by_cases hcond : r.2.2.1 = SQL_NO_TOTAL ∨ toSizeT r.2.2.1 / 2 > cfg.LOB_PACKET_SIZE
  · rw [if_pos hcond]
    refine ⟨{ r.2.1 with uint16vec_ptr := vresize 0 cfg.LOB_PACKET_SIZE r.2.1.uint16vec_ptr },
      true, rfl, ?_, ?_, ?_, ?_, ?_⟩
    · simp [currentColumn, SetColumn, hrs]
    · simp [hcond]
    · intro _
      exact ⟨vresize_length _ _ _, rfl⟩
    · intro h
      simp at h
    · exact toSizeT_half_of_nonneg _
  · rw [if_neg hcond]
    refine ⟨{ r.2.1 with uint16vec_ptr := vresize 0 (toSizeT r.2.2.1 / 2) r.2.1.uint16vec_ptr },
      false, rfl, ?_, ?_, ?_, ?_, ?_⟩
    · simp [currentColumn, SetColumn, hrs]
    · simp [hcond]
    · intro h
      simp at h
    · intro _
      have hle : toSizeT r.2.2.1 / 2 ≤ cfg.LOB_PACKET_SIZE := by
        by_contra hgt
        exact hcond (Or.inr (by omega))
      refine ⟨vresize_length _ _ _, ?_, rfl⟩
      rw [vresize_length]
      exact hle
    · exact toSizeT_half_of_nonneg _

/-- C14 at concrete reads with packets of 4 characters: ten characters remaining give a
full packet with `more`, two characters remaining give a final chunk of two. -/
theorem C14_Lob_more_and_chunk_witness :
    (∃ st more, currentColumn (Lob { defaultConfig with LOB_PACKET_SIZE := 4 } lobDriver
        (lobStatement [108, 97, 114, 103, 101, 32, 116, 101, 120, 116]) 0).2
        = some (.StringColumn st st.uint16vec_ptr.length more) ∧
      more = true ∧ st.uint16vec_ptr.length = 4) ∧
    (∃ st more, currentColumn (Lob { defaultConfig with LOB_PACKET_SIZE := 4 } lobDriver
        (lobStatement [120, 116]) 0).2
        = some (.StringColumn st st.uint16vec_ptr.length more) ∧
      more = false ∧ st.uint16vec_ptr.length = 2) := by
  constructor
  · obtain ⟨st, more, -, h2, h3, h4, -, -⟩ :=
      C14_Lob_more_and_chunk { defaultConfig with LOB_PACKET_SIZE := 4 } lobDriver
        (lobStatement [108, 97, 114, 103, 101, 32, 116, 101, 120, 116]) 0
        (by decide) (by decide) (by decide)
    have hm : more = true := h3.mpr (by decide)
    exact ⟨st, more, h2, hm, (h4 hm).1⟩
  · obtain ⟨st, more, -, h2, h3, -, h5, -⟩ :=
      C14_Lob_more_and_chunk { defaultConfig with LOB_PACKET_SIZE := 4 } lobDriver
        (lobStatement [120, 116]) 0 (by decide) (by decide) (by decide)
    have hm : more = false := by
      cases more
      · rfl
      · exact absurd (h3.mp rfl) (by decide)
    refine ⟨st, more, h2, hm, ?_⟩
    rw [(h5 hm).1]
    decide

/-! ## OdbcStatement: decoding on a prepared statement -/

theorem dispatch_integer {D : Type} (cfg : Config) (drv : Driver D)
    (reread : OdbcStatement D → Nat → Option (Bool × OdbcStatement D))
    (s : OdbcStatement D) (column : Nat) (t : Int) (ht : t ∈ integerCodes) :
    dispatch cfg drv reread s t column = d_Integer drv s column := by
  simp only [integerCodes, List.mem_cons, List.mem_singleton, List.not_mem_nil, or_false] at ht
  rcases ht with rfl | rfl | rfl | rfl | rfl | rfl | rfl | rfl | rfl <;> rfl

theorem dispatch_double {D : Type} (cfg : Config) (drv : Driver D)
    (reread : OdbcStatement D → Nat → Option (Bool × OdbcStatement D))
    (s : OdbcStatement D) (column : Nat) (t : Int) (ht : t ∈ doubleCodes) :
    dispatch cfg drv reread s t column = d_Decimal drv s column := by
  simp only [doubleCodes, List.mem_cons, List.mem_singleton, List.not_mem_nil, or_false] at ht
  rcases ht with rfl | rfl | rfl | rfl | rfl | rfl <;> rfl

theorem dispatch_binary {D : Type} (cfg : Config) (drv : Driver D)
    (reread : OdbcStatement D → Nat → Option (Bool × OdbcStatement D))
    (s : OdbcStatement D) (column : Nat) (t : Int) (ht : t ∈ binaryCodes) :
    dispatch cfg drv reread s t column = d_Binary drv s column := by
  simp only [binaryCodes, List.mem_cons, List.mem_singleton, List.not_mem_nil, or_false] at ht
  rcases ht with rfl | rfl | rfl | rfl <;> rfl

theorem dispatch_timestamp {D : Type} (cfg : Config) (drv : Driver D)
    (reread : OdbcStatement D → Nat → Option (Bool × OdbcStatement D))
    (s : OdbcStatement D) (column : Nat) (t : Int) (ht : t ∈ timestampCodes) :
    dispatch cfg drv reread s t column = d_Timestamp drv s column := by
  simp only [timestampCodes, List.mem_cons, List.mem_singleton, List.not_mem_nil,
    or_false] at ht
  rcases ht with rfl | rfl | rfl | rfl <;> rfl

/-- Unfolding `TryReadColumn` on a column that exists. -/
theorem TryReadColumn_succ {D : Type} (cfg : Config) (drv : Driver D) (fuel : Nat)
    (s : OdbcStatement D) (column : Nat) (rs : ResultSet) (definition : ColumnDefinition)
    (hrs : s.resultset = some rs) (hcol : rs.metadata[column]? = some definition) :
    TryReadColumn cfg drv (fuel + 1) s column
      = dispatch cfg drv (TryReadColumn cfg drv fuel) s definition.dataType column := by
  rw [TryReadColumn]
  simp only [hrs, hcol]

/-- C11 (the code at the failing input): on a prepared statement, decoding a time column
(`SQL_TYPE_TIME` or `SQL_SS_TIME2`) runs `d_Time`, which has no prepared branch. Whatever
the driver is, the get-column-data call is issued, the statement is left on the driver
state after that call, and the value is built from the driver's answer (or is Null when
the indicator of that answer is the null sentinel), never from the column's pre-bound
storage; when the call fails the read fails. The sibling decoders take their prepared
branch: an integer, boolean, double, binary, timestamp or offset-timestamp column is built
from the pre-bound storage (for binary with the length in its indicator) and the
statement, driver state included, is otherwise untouched; a bounded text column is built
from the pre-bound storage and the length in its indicator after the one display-size
call. -/
theorem C11_prepared_time_is_read_from_the_driver {D : Type} (cfg : Config) (drv : Driver D)
    (fuel : Nat) (s : OdbcStatement D) (column : Nat) (rs : ResultSet)
    (definition : ColumnDefinition) (datum : BoundDatum)
    (hp : s._prepared = true) (hrs : s.resultset = some rs)
    (hcol : rs.metadata[column]? = some definition) (hat : atIndex s column = some datum) :
    (definition.dataType = SQL_TYPE_TIME ∨ definition.dataType = SQL_SS_TIME2 →
      TryReadColumn cfg drv (fuel + 1) s column = d_Time cfg drv s column ∧
      (SQL_SUCCEEDED (drv.SQLGetDataTime2 (column + 1) s.statement).1 = true →
        (drv.SQLGetDataTime2 (column + 1) s.statement).2.2.1 ≠ SQL_NULL_DATA →
        TryReadColumn cfg drv (fuel + 1) s column
          = some (true, SetColumn
              { s with statement := (drv.SQLGetDataTime2 (column + 1) s.statement).2.2.2 }
              (.TimestampColumnOf
                { year := cfg.SQL_SERVER_DEFAULT_YEAR, month := cfg.SQL_SERVER_DEFAULT_MONTH,
                  day := cfg.SQL_SERVER_DEFAULT_DAY,
                  hour := (drv.SQLGetDataTime2 (column + 1) s.statement).2.1.hour,
                  minute := (drv.SQLGetDataTime2 (column + 1) s.statement).2.1.minute,
                  second := (drv.SQLGetDataTime2 (column + 1) s.statement).2.1.second,
                  fraction := (drv.SQLGetDataTime2 (column + 1) s.statement).2.1.fraction,
                  timezone_hour := 0, timezone_minute := 0 }))) ∧
      (SQL_SUCCEEDED (drv.SQLGetDataTime2 (column + 1) s.statement).1 = true →
        (drv.SQLGetDataTime2 (column + 1) s.statement).2.2.1 = SQL_NULL_DATA →
        TryReadColumn cfg drv (fuel + 1) s column
          = some (true, SetColumn
              { s with statement := (drv.SQLGetDataTime2 (column + 1) s.statement).2.2.2 }
              .NullColumn)) ∧
      (SQL_SUCCEEDED (drv.SQLGetDataTime2 (column + 1) s.statement).1 = false →
        TryReadColumn cfg drv (fuel + 1) s column
          = some (false, (CheckOdbcError drv
              { s with statement := (drv.SQLGetDataTime2 (column + 1) s.statement).2.2.2 }
              (drv.SQLGetDataTime2 (column + 1) s.statement).1).2))) ∧
    (definition.dataType ∈ integerCodes →
      TryReadColumn cfg drv (fuel + 1) s column
        = some (true, SetColumn s (.IntColumn datum.storage))) ∧
    (definition.dataType = SQL_BIT →
      TryReadColumn cfg drv (fuel + 1) s column
        = some (true, SetColumn s (.BoolColumn datum.storage))) ∧
    (definition.dataType ∈ doubleCodes →
      TryReadColumn cfg drv (fuel + 1) s column
        = some (true, SetColumn s (.NumberColumn datum.storage))) ∧
    (definition.dataType ∈ binaryCodes → ∀ amount rest, datum.indvec = amount :: rest →
      TryReadColumn cfg drv (fuel + 1) s column
        = some (true, SetColumn s (.BinaryColumn datum.storage amount false))) ∧
    (definition.dataType = SQL_SS_TIMESTAMPOFFSET ∨ definition.dataType ∈ timestampCodes →
      TryReadColumn cfg drv (fuel + 1) s column
        = some (true, SetColumn s (.TimestampColumn datum.storage))) ∧
    (definition.dataType ∈ textCodes →
      SQL_SUCCEEDED
        (drv.SQLColAttributeNumeric (column + 1) .SQL_DESC_DISPLAY_SIZE s.statement).1 = true →
      isLobDisplaySize cfg
        (drv.SQLColAttributeNumeric (column + 1) .SQL_DESC_DISPLAY_SIZE s.statement).2.1
          = false →
      1 ≤ (drv.SQLColAttributeNumeric (column + 1) .SQL_DESC_DISPLAY_SIZE s.statement).2.1 →
      (drv.SQLColAttributeNumeric (column + 1) .SQL_DESC_DISPLAY_SIZE s.statement).2.1
        ≤ cfg.SQL_SERVER_MAX_STRING_SIZE →
      ∀ ind0 rest, datum.indvec = ind0 :: rest →
      TryReadColumn cfg drv (fuel + 1) s column
        = some (true, SetColumn
            { s with statement :=
                (drv.SQLColAttributeNumeric (column + 1) .SQL_DESC_DISPLAY_SIZE
                  s.statement).2.2 }
            (.StringColumn datum.storage ((toSizeT ind0 / 2 : Nat) : Int) false))) := by
  rw [TryReadColumn_succ cfg drv fuel s column rs definition hrs hcol]
  refine ⟨?_, ?_, ?_, ?_, ?_, ?_, ?_⟩
  · intro ht
    have hd : dispatch cfg drv (TryReadColumn cfg drv fuel) s definition.dataType column
        = d_Time cfg drv s column := by
      rcases ht with ht | ht <;> rw [ht] <;> rfl
    rw [hd]
    refine ⟨rfl, ?_, ?_, ?_⟩
    · intro hok hnn
      unfold d_Time
      simp only
      rw [CheckOdbcError_ok _ _ _ hok]
      simp [hnn]
    · intro hok hnull
      unfold d_Time
      simp only
      rw [CheckOdbcError_ok _ _ _ hok]
      simp [hnull]
    · intro hfail
      have hc : ∀ x : OdbcStatement D,
          (CheckOdbcError drv x (drv.SQLGetDataTime2 (column + 1) s.statement).1).1
            = false := by
        intro x
        unfold CheckOdbcError
        simp [hfail, ReturnOdbcError]
      unfold d_Time
      simp only [hc, Bool.not_false, if_true]
  · intro ht
    rw [dispatch_integer _ _ _ _ _ _ ht]
    simp [d_Integer, hp, hat]
  · intro ht
    rw [ht]
    show d_Bit drv s column = _
    simp [d_Bit, hp, hat]
  · intro ht
    rw [dispatch_double _ _ _ _ _ _ ht]
    simp [d_Decimal, hp, hat]
  · intro ht amount rest hind
    rw [dispatch_binary _ _ _ _ _ _ ht]
    simp [d_Binary, hp, hat, hind]
  · intro ht
    rcases ht with ht | ht
    · rw [ht]
      show d_TimestampOffset drv s column = _
      simp [d_TimestampOffset, hp, hat]
    · rw [dispatch_timestamp _ _ _ _ _ _ ht]
      simp [d_Timestamp, hp, hat]
  · intro ht hok hlob h1 h2 ind0 rest hind
    rw [dispatch_text _ _ _ _ _ _ ht]
    unfold TryReadString
    simp only
    rw [CheckOdbcError_ok _ _ _ hok]
    simp only [Bool.not_true, Bool.false_eq_true, if_false, hlob, h1, h2, and_self, if_true,
      hp, reservedString]
    unfold atIndex at hat ⊢
    simp only [hat, hind]

/-- C11 at the failing input and at a sibling: on a prepared statement whose column is
bound to pre-bound storage, the read of a time column moves the driver's call counter
from 0 to 1 and the value is the driver's answer (13:45:07.0000005 on the default date),
while the read of a timestamp column leaves the counter at 0 and the value is the
pre-bound storage. -/
theorem C11_prepared_time_is_read_from_the_driver_witness :
    (preparedStatement SQL_SS_TIME2).statement = 0 ∧
    TryReadColumn defaultConfig (scriptedDriver okScript) 1 (preparedStatement SQL_SS_TIME2) 0
      = some (true, SetColumn { preparedStatement SQL_SS_TIME2 with statement := 1 }
          (.TimestampColumnOf
            { year := 1900, month := 1, day := 1, hour := 13, minute := 45, second := 7,
              fraction := 500, timezone_hour := 0, timezone_minute := 0 })) ∧
    TryReadColumn defaultConfig (scriptedDriver okScript) 1
        (preparedStatement SQL_TYPE_TIMESTAMP) 0
      = some (true, SetColumn (preparedStatement SQL_TYPE_TIMESTAMP)
          (.TimestampColumn (DatumStorage.new.ReserveInt64 1))) :=
  ⟨rfl,
   ((C11_prepared_time_is_read_from_the_driver defaultConfig (scriptedDriver okScript) 0
      (preparedStatement SQL_SS_TIME2) 0 _ _ boundColumn rfl rfl rfl rfl).1
      (Or.inr rfl)).2.1 (by decide) (by decide),
   (C11_prepared_time_is_read_from_the_driver defaultConfig (scriptedDriver okScript) 0
      (preparedStatement SQL_TYPE_TIMESTAMP) 0 _ _ boundColumn rfl rfl rfl rfl).2.2.2.2.2.1
      (Or.inr (by decide))⟩

/-! ## OdbcStatement: variant columns -/

@[simp] theorem metadataOf_SetColumn {D : Type} (s : OdbcStatement D) (c : Column) :
    metadataOf (SetColumn s c) = metadataOf s := by
  unfold metadataOf SetColumn
  cases s.resultset <;> rfl

@[simp] theorem metadataOf_CheckOdbcError {D : Type} (drv : Driver D) (s : OdbcStatement D)
    (ret : Int) : metadataOf (CheckOdbcError drv s ret).2 = metadataOf s := by
  unfold metadataOf
  rw [CheckOdbcError_resultset]

@[simp] theorem metadataOf_mk {D : Type} (d : D) (e e2 : Option OdbcError)
    (eor p cr pe : Bool) (st : OdbcStatementState) (rs : Option ResultSet)
    (b ps : Option BoundDatumSet) :
    metadataOf
      { statement := d, error := e, error2 := e2, _endOfResults := eor,
        _prepared := p, _cancelRequested := cr, _pollingEnabled := pe, _statementState := st,
        resultset := rs, boundParamsSet := b, _preparedStorage := ps }
      = rs.map (fun r => r.metadata) := rfl

theorem metadataOf_getDataWith {D : Type} (drv : Driver D) (s : OdbcStatement D)
    (column : Nat) (target : TargetType) (storage : DatumStorage) (buflen : Nat)
    (mk : DatumStorage → Column) :
    metadataOf (getDataWith drv s column target storage buflen mk).2 = metadataOf s := by
  unfold getDataWith
  simp only
  split_ifs <;> (simp; try rfl)

theorem metadataOf_prepared_map {D : Type} (s : OdbcStatement D) (o : Option BoundDatum)
    (mk : DatumStorage → Column) (r : Bool × OdbcStatement D)
    (h : o.map (fun datum => (true, SetColumn s (mk datum.storage))) = some r) :
    metadataOf r.2 = metadataOf s := by
  cases o with
  | none => simp at h
  | some datum =>
    simp only [Option.map_some', Option.some.injEq] at h
    subst h
    simp

theorem metadataOf_d_Integer {D : Type} (drv : Driver D) (s : OdbcStatement D) (column : Nat)
    (r : Bool × OdbcStatement D) (h : d_Integer drv s column = some r) :
    metadataOf r.2 = metadataOf s := by
  unfold d_Integer at h
  split_ifs at h
  · exact metadataOf_prepared_map s _ Column.IntColumn r h
  · simp only [Option.some.injEq] at h
    subst h
    exact metadataOf_getDataWith _ _ _ _ _ _ _

theorem metadataOf_d_Bit {D : Type} (drv : Driver D) (s : OdbcStatement D) (column : Nat)
    (r : Bool × OdbcStatement D) (h : d_Bit drv s column = some r) :
    metadataOf r.2 = metadataOf s := by
  unfold d_Bit at h
  split_ifs at h
  · exact metadataOf_prepared_map s _ Column.BoolColumn r h
  · simp only [Option.some.injEq] at h
    subst h
    exact metadataOf_getDataWith _ _ _ _ _ _ _

theorem metadataOf_d_Decimal {D : Type} (drv : Driver D) (s : OdbcStatement D) (column : Nat)
    (r : Bool × OdbcStatement D) (h : d_Decimal drv s column = some r) :
    metadataOf r.2 = metadataOf s := by
  unfold d_Decimal at h
  split_ifs at h
  · exact metadataOf_prepared_map s _ Column.NumberColumn r h
  · simp only [Option.some.injEq] at h
    subst h
    exact metadataOf_getDataWith _ _ _ _ _ _ _

theorem metadataOf_d_Timestamp {D : Type} (drv : Driver D) (s : OdbcStatement D)
    (column : Nat) (r : Bool × OdbcStatement D) (h : d_Timestamp drv s column = some r) :
    metadataOf r.2 = metadataOf s := by
  unfold d_Timestamp at h
  split_ifs at h
  · exact metadataOf_prepared_map s _ Column.TimestampColumn r h
  · simp only [Option.some.injEq] at h
    subst h
    exact metadataOf_getDataWith _ _ _ _ _ _ _

theorem metadataOf_d_TimestampOffset {D : Type} (drv : Driver D) (s : OdbcStatement D)
    (column : Nat) (r : Bool × OdbcStatement D) (h : d_TimestampOffset drv s column = some r) :
    metadataOf r.2 = metadataOf s := by
  unfold d_TimestampOffset at h
  split_ifs at h
  · exact metadataOf_prepared_map s _ Column.TimestampColumn r h
  · simp only [Option.some.injEq] at h
    subst h
    exact metadataOf_getDataWith _ _ _ _ _ _ _

theorem metadataOf_d_Time {D : Type} (cfg : Config) (drv : Driver D) (s : OdbcStatement D)
    (column : Nat) (r : Bool × OdbcStatement D) (h : d_Time cfg drv s column = some r) :
    metadataOf r.2 = metadataOf s := by
  unfold d_Time at h
  simp only at h
  split_ifs at h <;>
    (simp only [Option.some.injEq] at h; subst h; simp; try rfl)

theorem metadataOf_getDataBinary {D : Type} (drv : Driver D) (s : OdbcStatement D)
    (column : Nat) (r : Bool × OdbcStatement D) (h : getDataBinary drv s column = some r) :
    metadataOf r.2 = metadataOf s := by
  unfold getDataBinary at h
  simp only at h
  split_ifs at h <;>
    (simp only [Option.some.injEq] at h; subst h; simp; try rfl)

theorem metadataOf_d_Binary {D : Type} (drv : Driver D) (s : OdbcStatement D) (column : Nat)
    (r : Bool × OdbcStatement D) (h : d_Binary drv s column = some r) :
    metadataOf r.2 = metadataOf s := by
  unfold d_Binary at h
  split_ifs at h
  · cases hat : atIndex s column with
    | none => simp [hat] at h
    | some datum =>
      cases hind : datum.indvec with
      | nil => simp [hat, hind] at h
      | cons amount rest =>
        simp only [hat, hind, Option.some.injEq] at h
        subst h
        simp
  · exact metadataOf_getDataBinary drv s column r h

theorem metadataOf_Lob {D : Type} (cfg : Config) (drv : Driver D) (s : OdbcStatement D)
    (column : Nat) : metadataOf (Lob cfg drv s column).2 = metadataOf s := by
  unfold Lob
  simp only
  split_ifs <;> (simp; try rfl)

theorem metadataOf_reservedString {D : Type} (s : OdbcStatement D) (column : Nat)
    (r : Bool × OdbcStatement D) (h : reservedString s column = some r) :
    metadataOf r.2 = metadataOf s := by
  unfold reservedString at h
  cases hat : atIndex s column with
  | none => simp [hat] at h
  | some datum =>
    cases hind : datum.indvec with
    | nil => simp [hat, hind] at h
    | cons ind0 rest =>
      simp only [hat, hind, Option.some.injEq] at h
      subst h
      simp

theorem metadataOf_boundedString {D : Type} (drv : Driver D) (s : OdbcStatement D)
    (display_size : Int) (column : Nat) (r : Bool × OdbcStatement D)
    (h : boundedString drv s display_size column = some r) :
    metadataOf r.2 = metadataOf s := by
  unfold boundedString at h
  simp only at h
  split_ifs at h <;>
    (simp only [Option.some.injEq] at h; subst h; simp; try rfl)

theorem metadataOf_TryReadString {D : Type} (cfg : Config) (drv : Driver D)
    (s : OdbcStatement D) (column : Nat) (r : Bool × OdbcStatement D)
    (h : TryReadString cfg drv s column = some r) : metadataOf r.2 = metadataOf s := by
  unfold TryReadString at h
  simp only at h
  split_ifs at h
  · simp only [Option.some.injEq] at h
    subst h
    simp
    try rfl
  · simp only [Option.some.injEq] at h
    subst h
    rw [metadataOf_Lob]
    simp
    try rfl
  · rw [metadataOf_reservedString _ _ _ h]
    simp
    try rfl
  · rw [metadataOf_boundedString _ _ _ _ _ h]
    simp
    try rfl

/-- For a type code other than variant `dispatch` does not use the call back into
`TryReadColumn`. -/
theorem dispatch_reread_irrelevant {D : Type} (cfg : Config) (drv : Driver D)
    (reread1 reread2 : OdbcStatement D → Nat → Option (Bool × OdbcStatement D))
    (s : OdbcStatement D) (t : Int) (column : Nat) (ht : t ≠ SQL_SS_VARIANT) :
    dispatch cfg drv reread1 s t column = dispatch cfg drv reread2 s t column := by
  unfold dispatch
  rw [if_neg ht, if_neg ht]

/-- For a type code other than variant `dispatch` leaves the column definitions as they
were. -/
theorem metadataOf_dispatch {D : Type} (cfg : Config) (drv : Driver D)
    (reread : OdbcStatement D → Nat → Option (Bool × OdbcStatement D))
    (s : OdbcStatement D) (t : Int) (column : Nat) (ht : t ≠ SQL_SS_VARIANT)
    (r : Bool × OdbcStatement D) (h : dispatch cfg drv reread s t column = some r) :
    metadataOf r.2 = metadataOf s := by
  unfold dispatch at h
  rw [if_neg ht] at h
  split_ifs at h
  · exact metadataOf_TryReadString cfg drv s column r h
  · exact metadataOf_d_Bit drv s column r h
  · exact metadataOf_d_Integer drv s column r h
  · exact metadataOf_d_Decimal drv s column r h
  · exact metadataOf_d_Binary drv s column r h
  · exact metadataOf_d_TimestampOffset drv s column r h
  · exact metadataOf_d_Time cfg drv s column r h
  · exact metadataOf_d_Timestamp drv s column r h
  · exact metadataOf_TryReadString cfg drv s column r h

/-- The statement handed to the re-dispatch of `d_Variant` when both driver calls succeed:
the definition of the column carries the reported type. -/
theorem d_Variant_redispatch {D : Type} (drv : Driver D)
    (reread : OdbcStatement D → Nat → Option (Bool × OdbcStatement D))
    (s : OdbcStatement D) (column : Nat) (rs : ResultSet) (definition : ColumnDefinition)
    (hrs : s.resultset = some rs) (hcol : rs.metadata[column]? = some definition)
    (hprobe : SQL_SUCCEEDED (drv.SQLGetDataLength (column + 1) s.statement).1 = true)
    (hattr : SQL_SUCCEEDED (drv.SQLColAttributeNumeric (column + 1) .SQL_CA_SS_VARIANT_TYPE
      (drv.SQLGetDataLength (column + 1) s.statement).2.2).1 = true) :
    d_Variant drv reread s column
      = reread (d_Variant_recorded drv s column definition) column := by
  unfold d_Variant d_Variant_recorded d_Variant_type recordType
  simp only
  rw [CheckOdbcError_ok _ _ _ hprobe]
  simp only [Bool.not_true, Bool.false_eq_true, if_false]
  rw [CheckOdbcError_ok _ _ _ hattr]
  simp only [Bool.not_true, Bool.false_eq_true, if_false, hrs, Option.map_some',
    Option.getD_some, List.getD_eq_getElem?_getD, hcol]

/-- C17: decoding a variant column when both driver calls of `d_Variant` succeed and the
reported underlying type is not variant. The column's definition gets the reported type
(cut to 16 bits, which changes nothing for a code in range), and the read is one
re-dispatch on that type, for which two levels of `TryReadColumn` suffice. After the read
the definitions are the old ones with that one entry replaced: the same column count, every
other column as before. On any later statement with these definitions the column is
dispatched on the recorded type, and `d_Variant` with its two driver calls is not run. -/
theorem C17_variant_type_is_recorded {D : Type} (cfg : Config) (drv : Driver D) (fuel : Nat)
    (s : OdbcStatement D) (column : Nat) (rs : ResultSet) (definition : ColumnDefinition)
    (hrs : s.resultset = some rs) (hcol : rs.metadata[column]? = some definition)
    (hvar : definition.dataType = SQL_SS_VARIANT)
    (hprobe : SQL_SUCCEEDED (drv.SQLGetDataLength (column + 1) s.statement).1 = true)
    (hattr : SQL_SUCCEEDED (drv.SQLColAttributeNumeric (column + 1) .SQL_CA_SS_VARIANT_TYPE
      (drv.SQLGetDataLength (column + 1) s.statement).2.2).1 = true)
    (hnv : d_Variant_type drv s column ≠ SQL_SS_VARIANT) :
    TryReadColumn cfg drv (fuel + 2) s column
      = dispatch cfg drv (fun _ _ => none) (d_Variant_recorded drv s column definition)
          (d_Variant_type drv s column) column ∧
    (∀ r, TryReadColumn cfg drv (fuel + 2) s column = some r →
      metadataOf r.2
        = some (rs.metadata.set column (recordType definition (d_Variant_type drv s column)))) ∧
    (rs.metadata.set column (recordType definition (d_Variant_type drv s column))).length
      = rs.metadata.length ∧
    (∀ j, j ≠ column →
      (rs.metadata.set column (recordType definition (d_Variant_type drv s column)))[j]?
        = rs.metadata[j]?) ∧
    (∀ (s2 : OdbcStatement D) (n : Nat),
      metadataOf s2
        = some (rs.metadata.set column (recordType definition (d_Variant_type drv s column))) →
      TryReadColumn cfg drv (n + 1) s2 column
        = dispatch cfg drv (fun _ _ => none) s2 (d_Variant_type drv s column) column) ∧
    (-(2 ^ 15) ≤ (drv.SQLColAttributeNumeric (column + 1) .SQL_CA_SS_VARIANT_TYPE
        (drv.SQLGetDataLength (column + 1) s.statement).2.2).2.1 →
      (drv.SQLColAttributeNumeric (column + 1) .SQL_CA_SS_VARIANT_TYPE
        (drv.SQLGetDataLength (column + 1) s.statement).2.2).2.1 < 2 ^ 15 →
      d_Variant_type drv s column
        = (drv.SQLColAttributeNumeric (column + 1) .SQL_CA_SS_VARIANT_TYPE
          (drv.SQLGetDataLength (column + 1) s.statement).2.2).2.1) := by
  have hlt : column < rs.metadata.length := by
    rcases Nat.lt_or_ge column rs.metadata.length with h | h
    · exact h
    · rw [List.getElem?_eq_none h] at hcol
      exact absurd hcol (by simp)
  have hrec : ∃ rs1, (d_Variant_recorded drv s column definition).resultset = some rs1 ∧
      rs1.metadata
        = rs.metadata.set column (recordType definition (d_Variant_type drv s column)) := by
    simp [d_Variant_recorded, setMetadata, hrs]
  obtain ⟨rs1, hrec, hmeta1⟩ := hrec
  have hrange : -(2 ^ 15) ≤ (drv.SQLColAttributeNumeric (column + 1) .SQL_CA_SS_VARIANT_TYPE
        (drv.SQLGetDataLength (column + 1) s.statement).2.2).2.1 →
      (drv.SQLColAttributeNumeric (column + 1) .SQL_CA_SS_VARIANT_TYPE
        (drv.SQLGetDataLength (column + 1) s.statement).2.2).2.1 < 2 ^ 15 →
      d_Variant_type drv s column
        = (drv.SQLColAttributeNumeric (column + 1) .SQL_CA_SS_VARIANT_TYPE
          (drv.SQLGetDataLength (column + 1) s.statement).2.2).2.1 := by
    intro h1 h2
    unfold d_Variant_type toSmallInt
    simp only
    omega
  generalize ht : d_Variant_type drv s column = t at hnv hmeta1 ⊢
  have hdt : (recordType definition t).dataType = t := rfl
  have hget : (rs.metadata.set column (recordType definition t))[column]?
      = some (recordType definition t) := by
    simp [List.getElem?_set, hlt]
  have hstep : TryReadColumn cfg drv (fuel + 2) s column
      = dispatch cfg drv (fun _ _ => none) (d_Variant_recorded drv s column definition) t
          column := by
    rw [TryReadColumn_succ cfg drv (fuel + 1) s column rs definition hrs hcol, hvar]
    have hd : dispatch cfg drv (TryReadColumn cfg drv (fuel + 1)) s SQL_SS_VARIANT column
        = d_Variant drv (TryReadColumn cfg drv (fuel + 1)) s column := rfl
    rw [hd, d_Variant_redispatch drv _ s column rs definition hrs hcol hprobe hattr]
    rw [TryReadColumn_succ cfg drv fuel _ column rs1 (recordType definition t) hrec
      (by rw [hmeta1]; exact hget), hdt]
    exact dispatch_reread_irrelevant cfg drv _ _ _ t column hnv
  refine ⟨hstep, ?_, ?_, ?_, ?_, ?_⟩
  · intro r hr
    rw [hstep] at hr
    rw [metadataOf_dispatch cfg drv _ _ t column hnv r hr]
    simp [metadataOf, hrec, hmeta1]
  · simp
  · intro j hj
    rw [List.getElem?_set_ne (Ne.symm hj)]
  · intro s2 n hmeta
    unfold metadataOf at hmeta
    cases hrs2 : s2.resultset with
    | none => rw [hrs2] at hmeta; simp at hmeta
    | some rs2 =>
      rw [hrs2] at hmeta
      simp only [Option.map_some', Option.some.injEq] at hmeta
      rw [TryReadColumn_succ cfg drv n s2 column rs2 (recordType definition t) hrs2
        (by rw [hmeta]; exact hget), hdt]
      exact dispatch_reread_irrelevant cfg drv _ _ _ t column hnv
  · intro h1 h2
    rw [← ht]
    exact hrange h1 h2

/-- C17 at a concrete run: the driver reports integer as the underlying type of a variant
column; the read is the integer dispatch on the recorded statement. -/
theorem C17_variant_type_is_recorded_witness :
    d_Variant_type (scriptedDriver okScript) (oneColumnStatement SQL_SS_VARIANT) 0
      = SQL_INTEGER ∧
    TryReadColumn defaultConfig (scriptedDriver okScript) 2
        (oneColumnStatement SQL_SS_VARIANT) 0
      = dispatch defaultConfig (scriptedDriver okScript) (fun _ _ => none)
          (d_Variant_recorded (scriptedDriver okScript) (oneColumnStatement SQL_SS_VARIANT) 0
            (recordType ColumnDefinition.new SQL_SS_VARIANT))
          (d_Variant_type (scriptedDriver okScript) (oneColumnStatement SQL_SS_VARIANT) 0) 0 :=
  ⟨by decide,
   (C17_variant_type_is_recorded defaultConfig (scriptedDriver okScript) 0
      (oneColumnStatement SQL_SS_VARIANT) 0 _ (recordType ColumnDefinition.new SQL_SS_VARIANT)
      rfl rfl rfl (by decide) (by decide) (by decide)).1⟩

/-! ## OdbcStatement: what the driver-facing methods leave untouched -/

@[simp] theorem ReturnOdbcError_flag {D : Type} (drv : Driver D) (s : OdbcStatement D) :
    (ReturnOdbcError drv s).2._cancelRequested = s._cancelRequested := rfl

@[simp] theorem ReturnOdbcError_state {D : Type} (drv : Driver D) (s : OdbcStatement D) :
    (ReturnOdbcError drv s).2._statementState = s._statementState := rfl

@[simp] theorem CheckOdbcError_flag {D : Type} (drv : Driver D) (s : OdbcStatement D)
    (ret : Int) : (CheckOdbcError drv s ret).2._cancelRequested = s._cancelRequested := by
  unfold CheckOdbcError
  split <;> rfl

theorem CheckOdbcError_state {D : Type} (drv : Driver D) (s : OdbcStatement D) (ret : Int) :
    (CheckOdbcError drv s ret).2._statementState
      = if SQL_SUCCEEDED ret then s._statementState else .STATEMENT_ERROR := by
  unfold CheckOdbcError
  cases SQL_SUCCEEDED ret <;> rfl

theorem CheckOdbcError_fst {D : Type} (drv : Driver D) (s : OdbcStatement D) (ret : Int) :
    (CheckOdbcError drv s ret).1 = SQL_SUCCEEDED ret := by
  unfold CheckOdbcError
  cases SQL_SUCCEEDED ret <;> rfl

@[simp] theorem okState_error (X : OdbcStatementState) : okState X .STATEMENT_ERROR :=
  Or.inr rfl

@[simp] theorem okState_self (X : OdbcStatementState) : okState X X := Or.inl rfl

@[simp] theorem CheckOdbcError_okState {D : Type} (drv : Driver D) (s : OdbcStatement D)
    (ret : Int) (X : OdbcStatementState) (h : okState X s._statementState) :
    okState X (CheckOdbcError drv s ret).2._statementState := by
  rw [CheckOdbcError_state]
  split
  · exact h
  · exact okState_error X

/-- A failed check leaves the statement in the Error state. -/
theorem CheckOdbcError_failed {D : Type} (drv : Driver D) (s : OdbcStatement D) (ret : Int)
    (h : (CheckOdbcError drv s ret).1 = false) :
    (CheckOdbcError drv s ret).2._statementState = .STATEMENT_ERROR := by
  rw [CheckOdbcError_fst] at h
  rw [CheckOdbcError_state, h]
  rfl

@[simp] theorem setMetadata_flag {D : Type} (s : OdbcStatement D) (column : Nat)
    (current : ColumnDefinition) :
    (setMetadata s column current)._cancelRequested = s._cancelRequested := rfl

@[simp] theorem setMetadata_state {D : Type} (s : OdbcStatement D) (column : Nat)
    (current : ColumnDefinition) :
    (setMetadata s column current)._statementState = s._statementState := rfl

@[simp] theorem setEndOfRows_flag {D : Type} (s : OdbcStatement D) (b : Bool) :
    (setEndOfRows s b)._cancelRequested = s._cancelRequested := rfl

@[simp] theorem setEndOfRows_state {D : Type} (s : OdbcStatement D) (b : Bool) :
    (setEndOfRows s b)._statementState = s._statementState := rfl

@[simp] theorem readColAttributes_flag {D : Type} (drv : Driver D) (s : OdbcStatement D)
    (current : ColumnDefinition) (column : Nat) :
    (readColAttributes drv s current column).2.2._cancelRequested = s._cancelRequested := by
  unfold readColAttributes
  simp only
  split_ifs <;> simp

@[simp] theorem readColAttributes_okState {D : Type} (drv : Driver D) (s : OdbcStatement D)
    (current : ColumnDefinition) (column : Nat) (X : OdbcStatementState)
    (h : okState X s._statementState) :
    okState X (readColAttributes drv s current column).2.2._statementState := by
  unfold readColAttributes
  simp only
  split_ifs <;> simp [h]

@[simp] theorem readNext_flag {D : Type} (drv : Driver D) (s : OdbcStatement D)
    (column : Nat) : (readNext drv s column).2._cancelRequested = s._cancelRequested := by
  unfold readNext
  simp only
  split_ifs <;> simp

@[simp] theorem readNext_okState {D : Type} (drv : Driver D) (s : OdbcStatement D)
    (column : Nat) (X : OdbcStatementState) (h : okState X s._statementState) :
    okState X (readNext drv s column).2._statementState := by
  unfold readNext
  simp only
  split_ifs <;>
    repeat (first
      | exact h
      | apply CheckOdbcError_okState
      | apply readColAttributes_okState
      | dsimp only [setMetadata_state])

@[simp] theorem StartReadingResults_loop_flag {D : Type} (drv : Driver D)
    (remaining column : Nat) (s : OdbcStatement D) :
    (StartReadingResults_loop drv remaining column s).2._cancelRequested
      = s._cancelRequested := by
  induction remaining generalizing column s with
  | zero => rfl
  | succ n ih =>
    rw [StartReadingResults_loop]
    split_ifs
    · simp
    · rw [ih]; simp

@[simp] theorem StartReadingResults_loop_okState {D : Type} (drv : Driver D)
    (remaining column : Nat) (s : OdbcStatement D) (X : OdbcStatementState)
    (h : okState X s._statementState) :
    okState X (StartReadingResults_loop drv remaining column s).2._statementState := by
  induction remaining generalizing column s with
  | zero => exact h
  | succ n ih =>
    rw [StartReadingResults_loop]
    split_ifs
    · simp [h]
    · exact ih _ _ (readNext_okState drv s column X h)

@[simp] theorem StartReadingResults_flag {D : Type} (drv : Driver D) (s : OdbcStatement D) :
    (StartReadingResults drv s).2._cancelRequested = s._cancelRequested := by
  unfold StartReadingResults
  simp only
  split_ifs <;> simp

@[simp] theorem StartReadingResults_okState {D : Type} (drv : Driver D)
    (s : OdbcStatement D) (X : OdbcStatementState) (h : okState X s._statementState) :
    okState X (StartReadingResults drv s).2._statementState := by
  unfold StartReadingResults
  simp only
  split_ifs <;>
    repeat (first
      | exact h
      | apply CheckOdbcError_okState
      | apply StartReadingResults_loop_okState
      | dsimp only)

@[simp] theorem queryTimeout_flag {D : Type} (drv : Driver D) (s : OdbcStatement D)
    (timeout : Int) : (queryTimeout drv s timeout).2._cancelRequested = s._cancelRequested := by
  unfold queryTimeout
  simp only
  split_ifs <;> simp

@[simp] theorem BindParams_loop_flag {D : Type} (drv : Driver D) (l : List BoundDatum)
    (n : Nat) (s : OdbcStatement D) :
    (BindParams_loop drv l n s).2._cancelRequested = s._cancelRequested := by
  induction l generalizing n s with
  | nil => rfl
  | cons datum rest ih =>
    rw [BindParams_loop]
    simp only
    split_ifs
    · simp
    · rw [ih]; simp [applyPrecision]
    · rw [ih]; simp

theorem BindParams_loop_failed {D : Type} (drv : Driver D) (l : List BoundDatum) (n : Nat)
    (s : OdbcStatement D) (h : (BindParams_loop drv l n s).1 = false) :
    (BindParams_loop drv l n s).2._statementState = .STATEMENT_ERROR := by
  induction l generalizing n s with
  | nil => simp [BindParams_loop] at h
  | cons datum rest ih =>
    rw [BindParams_loop] at h ⊢
    simp only at h ⊢
    split_ifs at h ⊢ <;>
      first
        | exact ih _ _ h
        | (apply CheckOdbcError_failed; simp_all)

@[simp] theorem BindParams_flag {D : Type} (drv : Driver D) (s : OdbcStatement D)
    (params : BoundDatumSet) :
    (BindParams drv s params).2._cancelRequested = s._cancelRequested := by
  unfold BindParams
  simp only
  split_ifs <;> simp

theorem BindParams_failed {D : Type} (drv : Driver D) (s : OdbcStatement D)
    (params : BoundDatumSet) (h : (BindParams drv s params).1 = false) :
    (BindParams drv s params).2._statementState = .STATEMENT_ERROR := by
  unfold BindParams at h ⊢
  simp only at h ⊢
  split_ifs at h ⊢ <;>
    first
      | exact BindParams_loop_failed _ _ _ _ h
      | (apply CheckOdbcError_failed; simp_all)

theorem cancelHandle_flag {D : Type} (drv : Driver D) (s : OdbcStatement D) :
    (cancelHandle drv s)._cancelRequested = false := rfl

theorem cancelHandle_state {D : Type} (drv : Driver D) (s : OdbcStatement D) :
    (cancelHandle drv s)._statementState
      = if SQL_SUCCEEDED (drv.SQLCancelHandle s.statement).1 then s._statementState
        else .STATEMENT_ERROR := by
  unfold cancelHandle
  simp only
  rw [CheckOdbcError_state]

theorem cancelHandle_okState {D : Type} (drv : Driver D) (s : OdbcStatement D)
    (X : OdbcStatementState) (h : okState X s._statementState) :
    okState X (cancelHandle drv s)._statementState := by
  rw [cancelHandle_state]
  split
  · exact h
  · exact okState_error X

theorem cancelHandle_error2 {D : Type} (drv : Driver D) (s : OdbcStatement D) :
    (cancelHandle drv s).error2 = some operationCanceledError := by
  unfold cancelHandle CheckOdbcError ReturnOdbcError
  simp only
  split <;> rfl

theorem cancelHandle_statement {D : Type} (drv : Driver D) (s : OdbcStatement D) :
    (cancelHandle drv s).statement
      = if SQL_SUCCEEDED (drv.SQLCancelHandle s.statement).1 then
          (drv.SQLCancelHandle s.statement).2
        else (drv.ReadErrors (drv.SQLCancelHandle s.statement).2).2 := by
  unfold cancelHandle CheckOdbcError ReturnOdbcError
  simp only
  cases SQL_SUCCEEDED (drv.SQLCancelHandle s.statement).1 <;> rfl

theorem PollCheck_wait_okState {D : Type} (drv : Driver D) (s : OdbcStatement D)
    (X : OdbcStatementState) (h : okState X s._statementState) :
    okState X (PollCheck_wait drv s)._statementState := by
  unfold PollCheck_wait
  simp only
  split
  · exact cancelHandle_okState drv _ X h
  · exact h

/-- Unfolding one iteration of the loop of `PollCheck`. -/
theorem PollCheck_loop_succ {D : Type} (drv : Driver D) (direct : Bool) (fuel : Nat)
    (s : OdbcStatement D) :
    PollCheck_loop drv direct (fuel + 1) s
      = if (PollCheck_reissue drv direct s).1 ≠ SQL_STILL_EXECUTING then
          some (PollCheck_reissue drv direct s)
        else PollCheck_loop drv direct fuel (PollCheck_iteration drv direct s) := by
  rw [PollCheck_loop]
  rfl

theorem PollCheck_loop_okState {D : Type} (drv : Driver D) (direct : Bool)
    (X : OdbcStatementState) (fuel : Nat) :
    ∀ (s : OdbcStatement D) (r : Int × OdbcStatement D), okState X s._statementState →
      PollCheck_loop drv direct fuel s = some r → okState X r.2._statementState := by
  induction fuel with
  | zero => intro s r _ h; simp [PollCheck_loop] at h
  | succ n ih =>
    intro s r hs h
    rw [PollCheck_loop_succ] at h
    split_ifs at h
    · simp only [Option.some.injEq] at h
      subst h
      exact hs
    · have hs1 : okState X (PollCheck_reissue drv direct s).2._statementState := hs
      exact ih (PollCheck_iteration drv direct s) r
        (PollCheck_wait_okState drv (PollCheck_reissue drv direct s).2 X hs1) h

theorem PollCheck_loop_result {D : Type} (drv : Driver D) (direct : Bool) (fuel : Nat) :
    ∀ (s : OdbcStatement D) (r : Int × OdbcStatement D),
      PollCheck_loop drv direct fuel s = some r → r.1 ≠ SQL_STILL_EXECUTING := by
  induction fuel with
  | zero => intro s r h; simp [PollCheck_loop] at h
  | succ n ih =>
    intro s r h
    rw [PollCheck_loop_succ] at h
    split_ifs at h with hc
    · simp only [Option.some.injEq] at h
      subst h
      exact hc
    · exact ih _ r h

/-- When the first `n` re-issues report still-executing and the next one does not, the
loop of `PollCheck` returns that next response whenever it is given more than `n`
iterations. -/
theorem PollCheck_loop_terminates {D : Type} (drv : Driver D) (direct : Bool) (n : Nat) :
    ∀ (s : OdbcStatement D),
      (∀ i, i < n →
        (PollCheck_reissue drv direct (Nat.iterate (PollCheck_iteration drv direct) i s)).1
          = SQL_STILL_EXECUTING) →
      (PollCheck_reissue drv direct (Nat.iterate (PollCheck_iteration drv direct) n s)).1
        ≠ SQL_STILL_EXECUTING →
      ∀ fuel, n < fuel →
        PollCheck_loop drv direct fuel s
          = some (PollCheck_reissue drv direct
              (Nat.iterate (PollCheck_iteration drv direct) n s)) := by
  induction n with
  | zero =>
    intro s _ hlast fuel hfuel
    obtain ⟨m, rfl⟩ : ∃ m, fuel = m + 1 := ⟨fuel - 1, by omega⟩
    rw [PollCheck_loop_succ]
    simp only [Function.iterate_zero, id_eq] at hlast
    rw [if_pos hlast]
    rfl
  | succ k ih =>
    intro s hse hlast fuel hfuel
    obtain ⟨m, rfl⟩ : ∃ m, fuel = m + 1 := ⟨fuel - 1, by omega⟩
    rw [PollCheck_loop_succ]
    have h0 := hse 0 (by omega)
    simp only [Function.iterate_zero, id_eq] at h0
    rw [if_neg (by simpa using h0)]
    rw [Function.iterate_succ_apply] at hlast ⊢
    apply ih (PollCheck_iteration drv direct s) _ hlast m (by omega)
    intro i hi
    have := hse (i + 1) (by omega)
    rw [Function.iterate_succ_apply] at this
    exact this

/-! ## OdbcStatement: the poll loop -/

/-- C16: `PollCheck` returns `ret` and the statement unchanged, driver state included,
when `ret` is not still-executing. Whatever it returns is never still-executing. When
the first `n` re-issues report still-executing and the next one does not (any finite run
of responses), it returns that response as soon as it is allowed more than `n`
iterations. The iteration step after a still-executing response, on a statement whose
`cancel_requested` is set, is one `cancelHandle` after the sleep: one driver-level cancel
(followed by a diagnostics read only if the cancel fails), and `cancel_requested` is
false afterwards; when it is not set the step only sleeps. -/
theorem C16_PollCheck_polls_until_done {D : Type} (drv : Driver D) (direct : Bool)
    (s : OdbcStatement D) :
    (∀ fuel ret, ret ≠ SQL_STILL_EXECUTING → PollCheck drv fuel s ret direct = some (ret, s)) ∧
    (∀ fuel ret r, PollCheck drv fuel s ret direct = some r → r.1 ≠ SQL_STILL_EXECUTING) ∧
    (∀ n,
      (∀ i, i < n →
        (PollCheck_reissue drv direct (Nat.iterate (PollCheck_iteration drv direct) i s)).1
          = SQL_STILL_EXECUTING) →
      (PollCheck_reissue drv direct (Nat.iterate (PollCheck_iteration drv direct) n s)).1
        ≠ SQL_STILL_EXECUTING →
      ∀ fuel, n < fuel →
        PollCheck drv fuel s SQL_STILL_EXECUTING direct
          = some (PollCheck_reissue drv direct
              (Nat.iterate (PollCheck_iteration drv direct) n s))) ∧
    (s._cancelRequested = true →
      PollCheck_wait drv s = cancelHandle drv { s with statement := drv.Sleep s.statement } ∧
      (PollCheck_wait drv s)._cancelRequested = false ∧
      (PollCheck_wait drv s).statement
        = (if SQL_SUCCEEDED (drv.SQLCancelHandle (drv.Sleep s.statement)).1 then
            (drv.SQLCancelHandle (drv.Sleep s.statement)).2
          else (drv.ReadErrors (drv.SQLCancelHandle (drv.Sleep s.statement)).2).2)) ∧
    (s._cancelRequested = false →
      PollCheck_wait drv s = { s with statement := drv.Sleep s.statement }) := by
  refine ⟨?_, ?_, ?_, ?_, ?_⟩
  · intro fuel ret hret
    unfold PollCheck
    rw [if_neg hret]
  · intro fuel ret r h
    unfold PollCheck at h
    split_ifs at h with hc
    · exact PollCheck_loop_result drv direct fuel s r h
    · simp only [Option.some.injEq] at h
      subst h
      exact hc
  · intro n hse hlast fuel hfuel
    unfold PollCheck
    rw [if_pos rfl]
    exact PollCheck_loop_terminates drv direct n s hse hlast fuel hfuel
  · intro hflag
    have hw : PollCheck_wait drv s
        = cancelHandle drv { s with statement := drv.Sleep s.statement } := by
      unfold PollCheck_wait
      simp only [hflag, if_true]
    refine ⟨hw, ?_, ?_⟩
    · rw [hw]; rfl
    · rw [hw, cancelHandle_statement]
  · intro hflag
    unfold PollCheck_wait
    simp [hflag]

/-- C16 at a concrete run: the driver answers the first two re-issues with
still-executing and the third with success; with `cancel_requested` set the loop returns
success after exactly one driver-level cancel, with the flag cleared. -/
theorem C16_PollCheck_polls_until_done_witness :
    (PollCheck queuedDriver 3
        (pollingStatement [SQL_STILL_EXECUTING, SQL_STILL_EXECUTING, SQL_SUCCESS] true)
        SQL_STILL_EXECUTING true).map (fun r => (r.1, r.2.statement, r.2._cancelRequested))
      = some (SQL_SUCCESS, ([], 1), false) := by
  have h := (C16_PollCheck_polls_until_done queuedDriver true
    (pollingStatement [SQL_STILL_EXECUTING, SQL_STILL_EXECUTING, SQL_SUCCESS] true)).2.2.1 2
    (by
      intro i hi
      have hi01 : i = 0 ∨ i = 1 := by omega
      rcases hi01 with rfl | rfl <;> decide)
    (by decide) 3 (by decide)
  rw [h]
  decide


/-! ## OdbcStatement: the execute paths around the poll loop -/

@[simp] theorem CheckOdbcError_polling {D : Type} (drv : Driver D) (s : OdbcStatement D)
    (ret : Int) : (CheckOdbcError drv s ret).2._pollingEnabled = s._pollingEnabled := by
  unfold CheckOdbcError
  split <;> rfl

@[simp] theorem BindParams_loop_polling {D : Type} (drv : Driver D) (l : List BoundDatum)
    (n : Nat) (s : OdbcStatement D) :
    (BindParams_loop drv l n s).2._pollingEnabled = s._pollingEnabled := by
  induction l generalizing n s with
  | nil => rfl
  | cons datum rest ih =>
    rw [BindParams_loop]
    simp only
    split_ifs <;> first | simp | (rw [ih]; simp [applyPrecision])

@[simp] theorem BindParams_polling {D : Type} (drv : Driver D) (s : OdbcStatement D)
    (params : BoundDatumSet) :
    (BindParams drv s params).2._pollingEnabled = s._pollingEnabled := by
  unfold BindParams
  simp only
  split_ifs <;> simp

@[simp] theorem queryTimeout_polling {D : Type} (drv : Driver D) (s : OdbcStatement D)
    (timeout : Int) : (queryTimeout drv s timeout).2._pollingEnabled = s._pollingEnabled := by
  unfold queryTimeout
  simp only
  split_ifs <;> simp

theorem TryExecuteDirect_submit_ready {D : Type} (drv : Driver D) (fuel : Nat)
    (s : OdbcStatement D) (query : String) (timeout : Nat) (paramSet : BoundDatumSet) :
    TryExecuteDirect_submit drv fuel s query timeout paramSet
      = match TryExecuteDirect_ready drv s timeout paramSet with
        | .inl e => some (.inl e)
        | .inr (polling_mode, s3) =>
          if polling_mode then
            (PollCheck drv fuel { s3 with statement := (drv.SQLExecDirect query s3.statement).2 }
              (drv.SQLExecDirect query s3.statement).1 true).map Sum.inr
          else
            some (.inr ((drv.SQLExecDirect query s3.statement).1,
              { s3 with statement := (drv.SQLExecDirect query s3.statement).2 })) := by
  have hex : ∃ t, toInt32 timeout = t := ⟨_, rfl⟩
  obtain ⟨t, ht⟩ := hex
  unfold TryExecuteDirect_submit TryExecuteDirect_ready
  rw [ht]
  dsimp only
  generalize BindParams drv s paramSet = bound
  generalize queryTimeout drv _ t = q
  generalize CheckOdbcError drv q.2 q.1 = c
  obtain ⟨b1, b2⟩ := bound
  obtain ⟨c1, c2⟩ := c
  cases b1 <;> cases c1 <;> rfl

theorem TryExecuteDirect_ready_inr {D : Type} (drv : Driver D) (s : OdbcStatement D)
    (timeout : Nat) (paramSet : BoundDatumSet) (pm : Bool) (s3 : OdbcStatement D)
    (h : TryExecuteDirect_ready drv s timeout paramSet = .inr (pm, s3)) :
    pm = s._pollingEnabled ∧ s3._statementState = .STATEMENT_SUBMITTED ∧
      s3._cancelRequested = s._cancelRequested := by
  have hex : ∃ t, toInt32 timeout = t := ⟨_, rfl⟩
  obtain ⟨t, ht⟩ := hex
  unfold TryExecuteDirect_ready at h
  rw [ht] at h
  simp only at h
  split_ifs at h <;> simp only [Sum.inr.injEq, Prod.mk.injEq, reduceCtorEq] at h <;>
    (obtain ⟨rfl, rfl⟩ := h; simp)

theorem TryExecuteDirect_ready_inl {D : Type} (drv : Driver D) (s : OdbcStatement D)
    (timeout : Nat) (paramSet : BoundDatumSet) (e : OdbcStatement D)
    (h : TryExecuteDirect_ready drv s timeout paramSet = .inl e) :
    e._statementState = .STATEMENT_ERROR ∧ e._cancelRequested = s._cancelRequested := by
  have hex : ∃ t, toInt32 timeout = t := ⟨_, rfl⟩
  obtain ⟨t, ht⟩ := hex
  unfold TryExecuteDirect_ready at h
  rw [ht] at h
  simp only at h
  split_ifs at h with h1 h2 <;> simp only [Sum.inl.injEq, reduceCtorEq] at h
  · subst h
    exact ⟨BindParams_failed drv s paramSet (by simpa using h1), by simp⟩
  · subst h
    exact ⟨CheckOdbcError_failed _ _ _ (by simpa using h2), by simp⟩

theorem BindFetch_ready_finish {D : Type} (drv : Driver D) (fuel : Nat)
    (s : OdbcStatement D) (paramSet : BoundDatumSet) :
    BindFetch drv fuel s paramSet
      = match BindFetch_ready drv s paramSet with
        | .inl e => some (false, e)
        | .inr (polling_mode, s1) =>
          (if polling_mode then
            PollCheck drv fuel { s1 with statement := (drv.SQLExecute s1.statement).2 }
              (drv.SQLExecute s1.statement).1 false
          else
            some ((drv.SQLExecute s1.statement).1,
              { s1 with statement := (drv.SQLExecute s1.statement).2 })).map
            (fun p => BindFetch_finish drv p.2 p.1) := by
  unfold BindFetch BindFetch_ready
  dsimp only
  generalize BindParams drv s paramSet = bound
  generalize s._pollingEnabled = pe
  obtain ⟨b1, b2⟩ := bound
  cases b1
  · rfl
  · cases pe
    · simp only [Bool.not_true, Bool.false_eq_true, if_false, Option.map_some']
      unfold BindFetch_finish
      dsimp only
      split_ifs <;> rfl
    · simp only [Bool.not_true, Bool.false_eq_true, if_false, if_true]
      generalize PollCheck drv fuel _ _ false = o
      cases o with
      | none => rfl
      | some p =>
        obtain ⟨ret, s3⟩ := p
        unfold BindFetch_finish
        dsimp only [Option.map_some']
        split_ifs <;> rfl

theorem BindFetch_ready_inr {D : Type} (drv : Driver D) (s : OdbcStatement D)
    (paramSet : BoundDatumSet) (pm : Bool) (s1 : OdbcStatement D)
    (h : BindFetch_ready drv s paramSet = .inr (pm, s1)) :
    pm = s._pollingEnabled ∧ s1._cancelRequested = s._cancelRequested := by
  unfold BindFetch_ready at h
  simp only at h
  split_ifs at h <;> simp only [Sum.inr.injEq, Prod.mk.injEq, reduceCtorEq] at h <;>
    (obtain ⟨rfl, rfl⟩ := h; simp)

theorem BindFetch_ready_inl {D : Type} (drv : Driver D) (s : OdbcStatement D)
    (paramSet : BoundDatumSet) (e : OdbcStatement D)
    (h : BindFetch_ready drv s paramSet = .inl e) :
    e._cancelRequested = s._cancelRequested := by
  unfold BindFetch_ready at h
  simp only at h
  split_ifs at h
  simp only [Sum.inl.injEq] at h
  subst h
  simp

@[simp] theorem TryExecuteDirect_finish_flag {D : Type} (drv : Driver D)
    (s : OdbcStatement D) (ret : Int) (paramSet : BoundDatumSet) :
    (TryExecuteDirect_finish drv s ret paramSet).2._cancelRequested = s._cancelRequested := by
  unfold TryExecuteDirect_finish
  simp only
  split_ifs <;> simp

theorem TryExecuteDirect_finish_okState {D : Type} (drv : Driver D)
    (s : OdbcStatement D) (ret : Int) (paramSet : BoundDatumSet) (X : OdbcStatementState)
    (h : okState X s._statementState) :
    okState X (TryExecuteDirect_finish drv s ret paramSet).2._statementState := by
  unfold TryExecuteDirect_finish
  simp only
  split_ifs <;> exact StartReadingResults_okState drv _ X h

@[simp] theorem BindFetch_finish_flag {D : Type} (drv : Driver D) (s : OdbcStatement D)
    (ret : Int) : (BindFetch_finish drv s ret).2._cancelRequested = s._cancelRequested := by
  unfold BindFetch_finish
  simp only
  split_ifs <;> simp

theorem PollCheck_okState {D : Type} (drv : Driver D) (direct : Bool)
    (X : OdbcStatementState) (fuel : Nat) (s : OdbcStatement D) (ret : Int)
    (r : Int × OdbcStatement D) (hs : okState X s._statementState)
    (h : PollCheck drv fuel s ret direct = some r) : okState X r.2._statementState := by
  unfold PollCheck at h
  split_ifs at h
  · exact PollCheck_loop_okState drv direct X fuel s r hs h
  · simp only [Option.some.injEq] at h
    subst h
    exact hs

theorem TryExecuteDirect_okState {D : Type} (drv : Driver D) (fuel : Nat)
    (s : OdbcStatement D) (query : String) (timeout : Nat) (paramSet : BoundDatumSet)
    (r : Bool × OdbcStatement D)
    (h : TryExecuteDirect drv fuel s query timeout paramSet = some r) :
    okState .STATEMENT_SUBMITTED r.2._statementState := by
  unfold TryExecuteDirect at h
  rw [TryExecuteDirect_submit_ready] at h
  cases hr : TryExecuteDirect_ready drv s timeout paramSet with
  | inl e =>
    rw [hr] at h
    simp only [Option.some.injEq] at h
    subst h
    exact Or.inr (TryExecuteDirect_ready_inl drv s timeout paramSet e hr).1
  | inr p =>
    obtain ⟨pm, s3⟩ := p
    rw [hr] at h
    have hs3 : okState .STATEMENT_SUBMITTED s3._statementState :=
      Or.inl (TryExecuteDirect_ready_inr drv s timeout paramSet pm s3 hr).2.1
    cases pm with
    | false =>
      simp only [Bool.false_eq_true, if_false, Option.some.injEq] at h
      subst h
      exact TryExecuteDirect_finish_okState drv _ _ paramSet _ hs3
    | true =>
      simp only [if_true] at h
      cases hp : PollCheck drv fuel { s3 with statement := (drv.SQLExecDirect query s3.statement).2 }
          (drv.SQLExecDirect query s3.statement).1 true with
      | none => rw [hp] at h; simp at h
      | some q =>
        rw [hp] at h
        simp only [Option.map_some', Option.some.injEq] at h
        subst h
        refine TryExecuteDirect_finish_okState drv _ _ paramSet _
          (PollCheck_okState drv true _ fuel _ _ q ?_ hp)
        exact hs3

/-! ## OdbcStatement: cancellation -/

theorem okState_error_iff (st : OdbcStatementState)
    (h : okState .STATEMENT_ERROR st) : st = .STATEMENT_ERROR := by
  rcases h with h | h <;> exact h

/-- C13 is not what the code does: the driver answers the execute and the first re-issue
with still-executing, so that the poll loop observes the cancel request and issues one
driver-level cancel, and then answers the next re-issue with success. `TryExecuteDirect`
returns success in state Submitted, and the following `TryReadRow` reports a row in state
Fetching with `end_of_rows` false. When the answer after the cancel is an error code and
the columns can still be described, the execute returns failure but the state is still
Submitted and the following `TryReadRow` reports a row as well. -/
theorem C13_cancelled_execute_resumes_rows :
    (TryExecuteDirect queuedDriver 3
        (pollingStatement [SQL_STILL_EXECUTING, SQL_STILL_EXECUTING, SQL_SUCCESS] true)
        "select 1" 0 noParams).map
      (fun r => (r.1, r.2._statementState, r.2.statement.2, r.2._cancelRequested))
      = some (true, .STATEMENT_SUBMITTED, 1, false) ∧
    (TryExecuteDirect queuedDriver 3
        (pollingStatement [SQL_STILL_EXECUTING, SQL_STILL_EXECUTING, SQL_SUCCESS] true)
        "select 1" 0 noParams).map
      (fun r => ((TryReadRow queuedDriver r.2).1,
        (TryReadRow queuedDriver r.2).2._statementState,
        EndOfRows (TryReadRow queuedDriver r.2).2))
      = some (true, .STATEMENT_FETCHING, some false) ∧
    (TryExecuteDirect queuedDriver 3
        (pollingStatement [SQL_STILL_EXECUTING, SQL_STILL_EXECUTING, SQL_ERROR] true)
        "select 1" 0 noParams).map
      (fun r => (r.1, r.2._statementState, r.2.statement.2, r.2._cancelRequested))
      = some (false, .STATEMENT_SUBMITTED, 1, false) ∧
    (TryExecuteDirect queuedDriver 3
        (pollingStatement [SQL_STILL_EXECUTING, SQL_STILL_EXECUTING, SQL_ERROR] true)
        "select 1" 0 noParams).map
      (fun r => ((TryReadRow queuedDriver r.2).1,
        (TryReadRow queuedDriver r.2).2._statementState,
        EndOfRows (TryReadRow queuedDriver r.2).2))
      = some (true, .STATEMENT_FETCHING, some false) := by
  refine ⟨by decide, by decide, by decide, by decide⟩

/-- C13 (amended): whenever `TryExecuteDirect` returns, the statement is in state Submitted
or Error, never Cancelled, whether or not a cancel request was observed in the poll loop.
Observing a cancel request runs `cancelHandle`, which clears `cancel_requested`, records
the operation-canceled error in `error2`, and leaves the statement state as it was unless
the driver-level cancel itself fails, in which case the state is Error. After a poll
iteration whose driver-level cancel failed, the state is Error when the execute returns. -/
theorem C13_execute_ends_submitted_or_error {D : Type} (drv : Driver D) (fuel : Nat)
    (s : OdbcStatement D) (query : String) (timeout : Nat) (paramSet : BoundDatumSet)
    (r : Bool × OdbcStatement D)
    (h : TryExecuteDirect drv fuel s query timeout paramSet = some r) :
    (r.2._statementState = .STATEMENT_SUBMITTED ∨ r.2._statementState = .STATEMENT_ERROR) ∧
    r.2._statementState ≠ .STATEMENT_CANCELLED ∧
    (∀ s1 : OdbcStatement D,
      (cancelHandle drv s1)._cancelRequested = false ∧
      (cancelHandle drv s1).error2 = some operationCanceledError ∧
      (cancelHandle drv s1)._statementState
        = (if SQL_SUCCEEDED (drv.SQLCancelHandle s1.statement).1 then s1._statementState
           else .STATEMENT_ERROR)) ∧
    (∀ (s1 : OdbcStatement D) (direct : Bool) (fuel1 : Nat) (p : Int × OdbcStatement D),
      s1._cancelRequested = true →
      SQL_SUCCEEDED (drv.SQLCancelHandle (drv.Sleep s1.statement)).1 = false →
      PollCheck_loop drv direct fuel1 (PollCheck_wait drv s1) = some p →
      (TryExecuteDirect_finish drv p.2 p.1 paramSet).2._statementState
        = .STATEMENT_ERROR) := by
  have hok := TryExecuteDirect_okState drv fuel s query timeout paramSet r h
  refine ⟨hok, ?_, ?_, ?_⟩
  · rcases hok with h1 | h1 <;> rw [h1] <;> decide
  · intro s1
    exact ⟨cancelHandle_flag drv s1, cancelHandle_error2 drv s1, cancelHandle_state drv s1⟩
  · intro s1 direct fuel1 p hflag hfail hloop
    have hw : (PollCheck_wait drv s1)._statementState = .STATEMENT_ERROR := by
      unfold PollCheck_wait
      simp only [hflag, if_true]
      rw [cancelHandle_state]
      simp only [hfail, Bool.false_eq_true, if_false]
    apply okState_error_iff
    apply TryExecuteDirect_finish_okState
    exact PollCheck_loop_okState drv direct _ fuel1 _ p (Or.inl hw) hloop

/-- C13 (amended) at a concrete run: still-executing twice, the cancel request observed,
then success. The execute returns in state Submitted or Error. -/
theorem C13_execute_ends_submitted_or_error_witness :
    ∃ r, TryExecuteDirect queuedDriver 3
        (pollingStatement [SQL_STILL_EXECUTING, SQL_STILL_EXECUTING, SQL_SUCCESS] true)
        "select 1" 0 noParams = some r ∧
      (r.2._statementState = .STATEMENT_SUBMITTED ∨ r.2._statementState = .STATEMENT_ERROR) :=
  ⟨_, rfl, (C13_execute_ends_submitted_or_error queuedDriver 3
    (pollingStatement [SQL_STILL_EXECUTING, SQL_STILL_EXECUTING, SQL_SUCCESS] true)
    "select 1" 0 noParams _ rfl).1⟩

/-! ## OdbcStatement: the cancel request across an execute -/

theorem TryExecuteDirect_ready_early {D : Type} (drv : Driver D) (fuel : Nat)
    (s : OdbcStatement D) (query : String) (timeout : Nat) (paramSet : BoundDatumSet)
    (e : OdbcStatement D) (h : TryExecuteDirect_ready drv s timeout paramSet = .inl e) :
    TryExecuteDirect drv fuel s query timeout paramSet = some (false, e) := by
  unfold TryExecuteDirect
  rw [TryExecuteDirect_submit_ready, h]

theorem BindFetch_ready_early {D : Type} (drv : Driver D) (fuel : Nat)
    (s : OdbcStatement D) (paramSet : BoundDatumSet)
    (e : OdbcStatement D) (h : BindFetch_ready drv s paramSet = .inl e) :
    BindFetch drv fuel s paramSet = some (false, e) := by
  rw [BindFetch_ready_finish, h]

theorem PollCheck_unobserved {D : Type} (drv : Driver D) (direct : Bool) (fuel : Nat)
    (s : OdbcStatement D) (ret : Int) (hfuel : 0 < fuel)
    (hresp : ret ≠ SQL_STILL_EXECUTING ∨
      (PollCheck_reissue drv direct s).1 ≠ SQL_STILL_EXECUTING) :
    ∃ p, PollCheck drv fuel s ret direct = some p ∧
      p.2._cancelRequested = s._cancelRequested := by
  unfold PollCheck
  by_cases hfirst : ret = SQL_STILL_EXECUTING
  · have hre := hresp.resolve_left (not_not.mpr hfirst)
    rw [if_pos hfirst]
    obtain ⟨m, rfl⟩ : ∃ m, fuel = m + 1 := ⟨fuel - 1, by omega⟩
    rw [PollCheck_loop_succ, if_pos hre]
    exact ⟨_, rfl, rfl⟩
  · rw [if_neg hfirst]
    exact ⟨_, rfl, rfl⟩

/-- C18 is not what the code does when the loop takes more than one re-issue: polling is
enabled and `cancel_requested` is true, the driver answers the execute and the first
re-issue with still-executing and the re-issue that ends the loop with success. The first
iteration observes the request, issues the driver-level cancel and clears the flag, and
nothing sets it again in this run, so `cancel_requested` is false when `TryExecuteDirect`
returns, and likewise for `BindFetch`. -/
theorem C18_observed_cancel_request_is_cleared :
    (TryExecuteDirect queuedDriver 3
        (pollingStatement [SQL_STILL_EXECUTING, SQL_STILL_EXECUTING, SQL_SUCCESS] true)
        "select 1" 0 noParams).map
      (fun r => (r.1, r.2._cancelRequested, r.2.statement))
      = some (true, false, ([], 1)) ∧
    (BindFetch queuedDriver 3
        (pollingStatement [SQL_STILL_EXECUTING, SQL_STILL_EXECUTING, SQL_SUCCESS] true)
        noParams).map
      (fun r => (r.1, r.2._cancelRequested, r.2.statement))
      = some (true, false, ([], 1)) := by
  refine ⟨by decide, by decide⟩

/-- C18 (amended): for a statement with polling enabled and `cancel_requested` true on
entry, when `TryExecuteDirect` or `BindFetch` returns before the execute, or the driver
answers the execute with a code other than still-executing, or answers it with
still-executing and the first re-issue with another code, the method returns and
`cancel_requested` is still true. No step outside `cancelHandle` writes false to the flag:
a flag that is true stays true across the re-issue and the steps after the poll loop. -/
theorem C18_unobserved_cancel_request_is_kept {D : Type} (drv : Driver D) (fuel : Nat)
    (s : OdbcStatement D) (paramSet : BoundDatumSet)
    (hpoll : s._pollingEnabled = true) (hflag : s._cancelRequested = true)
    (hfuel : 0 < fuel) :
    (∀ (query : String) (timeout : Nat) (pm : Bool) (s3 : OdbcStatement D),
      TryExecuteDirect_ready drv s timeout paramSet = .inr (pm, s3) →
      ((drv.SQLExecDirect query s3.statement).1 ≠ SQL_STILL_EXECUTING ∨
        (PollCheck_reissue drv true
          { s3 with statement := (drv.SQLExecDirect query s3.statement).2 }).1
            ≠ SQL_STILL_EXECUTING) →
      ∃ r, TryExecuteDirect drv fuel s query timeout paramSet = some r ∧
        r.2._cancelRequested = true) ∧
    (∀ (pm : Bool) (s1 : OdbcStatement D),
      BindFetch_ready drv s paramSet = .inr (pm, s1) →
      ((drv.SQLExecute s1.statement).1 ≠ SQL_STILL_EXECUTING ∨
        (PollCheck_reissue drv false
          { s1 with statement := (drv.SQLExecute s1.statement).2 }).1
            ≠ SQL_STILL_EXECUTING) →
      ∃ r, BindFetch drv fuel s paramSet = some r ∧ r.2._cancelRequested = true) ∧
    (∀ (query : String) (timeout : Nat) (e : OdbcStatement D),
      TryExecuteDirect_ready drv s timeout paramSet = .inl e →
      TryExecuteDirect drv fuel s query timeout paramSet = some (false, e) ∧
        e._cancelRequested = true) ∧
    (∀ e : OdbcStatement D, BindFetch_ready drv s paramSet = .inl e →
      BindFetch drv fuel s paramSet = some (false, e) ∧ e._cancelRequested = true) ∧
    (∀ (s1 : OdbcStatement D) (direct : Bool) (ret : Int), s1._cancelRequested = true →
      (PollCheck_reissue drv direct s1).2._cancelRequested = true ∧
      (TryExecuteDirect_finish drv s1 ret paramSet).2._cancelRequested = true ∧
      (BindFetch_finish drv s1 ret).2._cancelRequested = true) := by
  refine ⟨?_, ?_, ?_, ?_, ?_⟩
  · intro query timeout pm s3 hready hresp
    obtain ⟨hpm, -, hf⟩ := TryExecuteDirect_ready_inr drv s timeout paramSet pm s3 hready
    rw [hpoll] at hpm
    subst hpm
    obtain ⟨p, hp, hpf⟩ := PollCheck_unobserved drv true fuel
      { s3 with statement := (drv.SQLExecDirect query s3.statement).2 }
      (drv.SQLExecDirect query s3.statement).1 hfuel hresp
    unfold TryExecuteDirect
    rw [TryExecuteDirect_submit_ready, hready]
    simp only [if_true]
    rw [hp]
    refine ⟨_, rfl, ?_⟩
    rw [TryExecuteDirect_finish_flag, hpf]
    exact hf.trans hflag
  · intro pm s1 hready hresp
    obtain ⟨hpm, hf⟩ := BindFetch_ready_inr drv s paramSet pm s1 hready
    rw [hpoll] at hpm
    subst hpm
    obtain ⟨p, hp, hpf⟩ := PollCheck_unobserved drv false fuel
      { s1 with statement := (drv.SQLExecute s1.statement).2 }
      (drv.SQLExecute s1.statement).1 hfuel hresp
    rw [BindFetch_ready_finish, hready]
    simp only [if_true]
    rw [hp]
    refine ⟨_, rfl, ?_⟩
    rw [BindFetch_finish_flag, hpf]
    exact hf.trans hflag
  · intro query timeout e hready
    exact ⟨TryExecuteDirect_ready_early drv fuel s query timeout paramSet e hready,
      (TryExecuteDirect_ready_inl drv s timeout paramSet e hready).2.trans hflag⟩
  · intro e hready
    exact ⟨BindFetch_ready_early drv fuel s paramSet e hready,
      (BindFetch_ready_inl drv s paramSet e hready).trans hflag⟩
  · intro s1 direct ret h1
    exact ⟨h1, (TryExecuteDirect_finish_flag drv s1 ret paramSet).trans h1,
      (BindFetch_finish_flag drv s1 ret).trans h1⟩

/-- C18 (amended) at a concrete run: polling enabled, the cancel request set, the driver
answers the execute with still-executing and the first re-issue with success.
`TryExecuteDirect` returns with the request still set. -/
theorem C18_unobserved_cancel_request_is_kept_witness :
    ∃ r, TryExecuteDirect queuedDriver 1
        (pollingStatement [SQL_STILL_EXECUTING, SQL_SUCCESS] true) "select 1" 0 noParams
          = some r ∧
      r.2._cancelRequested = true := by
  refine (C18_unobserved_cancel_request_is_kept queuedDriver 1
    (pollingStatement [SQL_STILL_EXECUTING, SQL_SUCCESS] true) noParams rfl rfl
    (by decide)).1 "select 1" 0 true _ rfl (Or.inr ?_)
  decide

end mssql
